import Mathlib

set_option maxRecDepth 100000
set_option maxHeartbeats 1600000

namespace SqlParse

/-- Keyword enumeration from src/keywords.rs (keywords! macro): NOT_A_KEYWORD, QUOTED_IDENTIFIER, plus one entry per SQL keyword, in source order; the SQL keyword IO is embedded under the constructor name IO_KW, its name string stays IO. -/
inductive Keyword where
| NOT_A_KEYWORD
| QUOTED_IDENTIFIER
| ABS
| ACCESSIBLE
| ACCOUNT
| ACOS
| ACTION
| ADD
| ADD_MONTHS
| ADDDATE
| ADDTIME
| ADMIN
| AFTER
| AGAINST
| AGGREGATE
| ALGORITHM
| ALL
| ALTER
| ALWAYS
| ANALYZE
| AND
| ANY
| AS
| ASC
| ASCII
| ASENSITIVE
| ASIN
| AT
| ATAN
| ATAN2
| ATOMIC
| AUTHORS
| AUTO
| AUTO_INCREMENT
| AUTOEXTEND_SIZE
| AVG
| AVG_ROW_LENGTH
| BACKUP
| BEFORE
| BEGIN
| BETWEEN
| BIGINT
| BIN
| BINARY
| BINLOG
| BIT
| BIT_LENGTH
| BLOB
| BLOCK
| BODY
| BOOL
| BOOLEAN
| BOTH
| BTREE
| BY
| BYTE
| CACHE
| CALL
| CASCADE
| CASCADED
| CASE
| CAST
| CATALOG_NAME
| CEIL
| CEILING
| CHAIN
| CHANGE
| CHANGED
| CHAR
| CHAR_LENGTH
| CHARACTER
| CHARACTER_LENGTH
| CHARSET
| CHECK
| CHECKPOINT
| CHECKSUM
| CHR
| CIPHER
| CLASS_ORIGIN
| CLIENT
| CLOB
| CLOSE
| COALESCE
| CODE
| COLLATE
| COLLATION
| COLUMN
| COLUMN_ADD
| COLUMN_CHECK
| COLUMN_CREATE
| COLUMN_DELETE
| COLUMN_GET
| COLUMN_NAME
| COLUMNS
| COMMENT
| COMMIT
| COMMITTED
| COMPACT
| COMPLETION
| COMPRESSED
| CONCAT
| CONCAT_WS
| CONCURRENT
| CONDITION
| CONNECTION
| CONSISTENT
| CONSTRAINT
| CONSTRAINT_CATALOG
| CONSTRAINT_NAME
| CONSTRAINT_SCHEMA
| CONTAINS
| CONTEXT
| CONTINUE
| CONTRIBUTORS
| CONV
| CONVERT
| CONVERT_TS
| COPY
| COS
| COT
| COUNT
| CPU
| CRC32
| CRC32C
| CREATE
| CROSS
| CUBE
| CURDATE
| CURRENT
| CURRENT_DATE
| CURRENT_POS
| CURRENT_ROLE
| CURRENT_TIME
| CURRENT_TIMESTAMP
| CURRENT_USER
| CURSOR
| CURSOR_NAME
| CURTIME
| CYCLE
| DATA
| DATABASE
| DATABASES
| DATAFILE
| DATE
| DATE_ADD
| DATE_FORMAT
| DATE_SUB
| DATEDIFF
| DATETIME
| DAY
| DAY_HOUR
| DAY_MICROSECOND
| DAY_MINUTE
| DAY_SECOND
| DAYNAME
| DAYOFMONTH
| DAYOFWEEK
| DAYOFYEAR
| DEALLOCATE
| DEC
| DECIMAL
| DECLARE
| DEFAULT
| DEFINER
| DEGREES
| DELAY_KEY_WRITE
| DELAYED
| DELETE
| DELETE_DOMAIN_ID
| DELIMITER
| DES_KEY_FILE
| DESC
| DESCRIBE
| DETERMINISTIC
| DIAGNOSTICS
| DIRECTORY
| DISABLE
| DISCARD
| DISK
| DISTINCT
| DISTINCTROW
| DIV
| DO
| DO_DOMAIN_IDS
| DOUBLE
| DROP
| DUAL
| DUMPFILE
| DUPLICATE
| DYNAMIC
| EACH
| ELSE
| ELSEIF
| ELSIF
| ELT
| EMPTY
| ENABLE
| ENCLOSED
| END
| ENDS
| ENGINE
| ENGINES
| ENUM
| ERROR
| ERRORS
| ESCAPE
| ESCAPED
| EVENT
| EVENTS
| EVERY
| EXAMINED
| EXCEPT
| EXCEPTION
| EXCHANGE
| EXCLUDE
| EXECUTE
| EXISTS
| EXIT
| EXP
| EXPANSION
| EXPIRE
| EXPLAIN
| EXPORT
| EXPORT_SET
| EXTENDED
| EXTENT_SIZE
| EXTRACTVALUE
| FALSE
| FAST
| FAULTS
| FEDERATED
| FETCH
| FIELD
| FIELDS
| FILE
| FIND_IN_SET
| FIRST
| FIXED
| FLOAT
| FLOAT4
| FLOAT8
| FLOOR
| FLUSH
| FOLLOWING
| FOLLOWS
| FOR
| FORCE
| FOREIGN
| FORMAT
| FOUND
| FROM
| FROM_BASE64
| FROM_DAYS
| FROM_UNIXTIME
| FULL
| FULLTEXT
| FUNCTION
| GENERAL
| GENERATED
| GET
| GET_FORMAT
| GIST
| GLOBAL
| GOTO
| GRANT
| GRANTS
| GREATEST
| GROUP
| HANDLER
| HARD
| HASH
| HAVING
| HELP
| HEX
| HIGH_PRIORITY
| HISTORY
| HOST
| HOSTS
| HOUR
| HOUR_MICROSECOND
| HOUR_MINUTE
| HOUR_SECOND
| ID
| IDENTIFIED
| IF
| IFNULL
| IGNORE
| IGNORE_DOMAIN_IDS
| IGNORE_SERVER_IDS
| IGNORED
| IMMEDIATE
| IMPORT
| IN
| INCREMENT
| INDEX
| INDEXES
| INFILE
| INITIAL_SIZE
| INNER
| INOUT
| INSENSITIVE
| INSERT
| INSERT_METHOD
| INSTALL
| INSTR
| INT
| INT1
| INT2
| INT3
| INT4
| INT8
| INTEGER
| INTERSECT
| INTERSECTA
| INTERVAL
| INTO
| INVISIBLE
| INVOKER
| IO_KW
| IO_THREAD
| IPC
| IS
| ISOLATION
| ISOPEN
| ISSUER
| ITERATE
| JOIN
| JSON
| JSON_ARRAY
| JSON_ARRAY_APPEND
| JSON_ARRAY_INSERT
| JSON_ARRAYAGG
| JSON_COMPACT
| JSON_CONTAINS
| JSON_CONTAINS_PATH
| JSON_DEPTH
| JSON_DETAILED
| JSON_EQUALS
| JSON_EXISTS
| JSON_EXTRACT
| JSON_INSERT
| JSON_KEYS
| JSON_LENGTH
| JSON_LOOSE
| JSON_MERGE
| JSON_MERGE_PATCH
| JSON_MERGE_PRESERVE
| JSON_NORMALIZE
| JSON_OBJECT
| JSON_OBJECTAGG
| JSON_QUERY
| JSON_QUOTE
| JSON_REMOVE
| JSON_REPLACE
| JSON_SEARCH
| JSON_SET
| JSON_TABLE
| JSON_TYPE
| JSON_UNQUOTE
| JSON_VALID
| JSON_VALUE
| KEY
| KEY_BLOCK_SIZE
| KEYS
| KILL
| LANGUAGE
| LAST
| LAST_VALUE
| LASTVAL
| LCASE
| LEADING
| LEAST
| LEAVE
| LEAVES
| LEFT
| LENGTH
| LENGTHB
| LESS
| LEVEL
| LIKE
| LIMIT
| LINEAR
| LINES
| LIST
| LN
| LOAD
| LOAD_FILE
| LOCAL
| LOCALTIME
| LOCALTIMESTAMP
| LOCATE
| LOCK
| LOCKED
| LOCKS
| LOG
| LOG10
| LOG2
| LOGFILE
| LOGS
| LONG
| LONGBLOB
| LONGTEXT
| LOOP
| LOW_PRIORITY
| LOWER
| LPAD
| LTRIM
| MAKE_SET
| MAKEDATE
| MAKETIME
| MASTER
| MASTER_CONNECT_RETRY
| MASTER_DELAY
| MASTER_GTID_POS
| MASTER_HEARTBEAT_PERIOD
| MASTER_HOST
| MASTER_LOG_FILE
| MASTER_LOG_POS
| MASTER_PASSWORD
| MASTER_PORT
| MASTER_SERVER_ID
| MASTER_SSL
| MASTER_SSL_CA
| MASTER_SSL_CAPATH
| MASTER_SSL_CERT
| MASTER_SSL_CIPHER
| MASTER_SSL_CRL
| MASTER_SSL_CRLPATH
| MASTER_SSL_KEY
| MASTER_SSL_VERIFY_SERVER_CERT
| MASTER_USE_GTID
| MASTER_USER
| MATCH
| MAX
| MAX_CONNECTIONS_PER_HOUR
| MAX_QUERIES_PER_HOUR
| MAX_ROWS
| MAX_SIZE
| MAX_STATEMENT_TIME
| MAX_UPDATES_PER_HOUR
| MAX_USER_CONNECTIONS
| MAXVALUE
| MEDIUM
| MEDIUMBLOB
| MEDIUMINT
| MEDIUMTEXT
| MEMORY
| MERGE
| MESSAGE_TEXT
| MICROSECOND
| MID
| MIDDLEINT
| MIGRATE
| MIN
| MIN_ROWS
| MINUS
| MINUTE
| MINUTE_MICROSECOND
| MINUTE_SECOND
| MINVALUE
| MOD
| MODE
| MODIFIES
| MODIFY
| MONITOR
| MONTH
| MONTHNAME
| MUTEX
| MYSQL
| MYSQL_ERRNO
| NAME
| NAMES
| NATIONAL
| NATURAL
| NATURAL_SORT_KEY
| NCHAR
| NESTED
| NEVER
| NEW
| NEXT
| NEXTVAL
| NO
| NO_WAIT
| NO_WRITE_TO_BINLOG
| NOCACHE
| NOCYCLE
| NODEGROUP
| NOMAXVALUE
| NOMINVALUE
| NONE
| NOT
| NOTFOUND
| NOW
| NOWAIT
| NULL
| NULLIF
| NUMBER
| NUMERIC
| NVARCHAR
| NVL
| NVL2
| OCT
| OCTET_LENGTH
| OF
| OFFSET
| OLD_PASSWORD
| ON
| ONE
| ONLINE
| ONLY
| OPEN
| OPTIMIZE
| OPTION
| OPTIONALLY
| OPTIONS
| OR
| ORD
| ORDER
| ORDINALITY
| OTHERS
| OUT
| OUTER
| OUTFILE
| OVER
| OVERLAPS
| OWNER
| PACK_KEYS
| PACKAGE
| PAGE
| PAGE_CHECKSUM
| PARSE_VCOL_EXPR
| PARSER
| PARTIAL
| PARTITION
| PARTITIONING
| PARTITIONS
| PASSWORD
| PATH
| PERIOD
| PERIOD_ADD
| PERIOD_DIFF
| PERSISTENT
| PHASE
| PI
| PLUGIN
| PLUGINS
| PORT
| PORTION
| POSITION
| POW
| POWER
| PRECEDES
| PRECEDING
| PRECISION
| PREPARE
| PRESERVE
| PREV
| PREVIOUS
| PRIMARY
| PRIVILEGES
| PROCEDURE
| PROCESS
| PROCESSLIST
| PROFILE
| PROFILES
| PROXY
| PURGE
| QUARTER
| QUERY
| QUICK
| QUOTE
| RADIANS
| RAISE
| RAND
| RANGE
| RAW
| READ
| READ_ONLY
| READ_WRITE
| READS
| REAL
| REBUILD
| RECOVER
| RECURSIVE
| REDO_BUFFER_SIZE
| REDOFILE
| REDUNDANT
| REF_SYSTEM_ID
| REFERENCES
| REGEXP
| RELAY
| RELAY_LOG_FILE
| RELAY_LOG_POS
| RELAY_THREAD
| RELAYLOG
| RELEASE
| RELOAD
| REMOVE
| RENAME
| REORGANIZE
| REPAIR
| REPEAT
| REPEATABLE
| REPLACE
| REPLAY
| REPLICA
| REPLICA_POS
| REPLICAS
| REPLICATION
| REQUIRE
| RESET
| RESIGNAL
| RESTART
| RESTORE
| RESTRICT
| RESUME
| RETURN
| RETURNED_SQLSTATE
| RETURNING
| RETURNS
| REUSE
| REVERSE
| REVOKE
| RIGHT
| RLIKE
| ROLE
| ROLLBACK
| ROLLUP
| ROUND
| ROUTINE
| ROW
| ROW_COUNT
| ROW_FORMAT
| ROWCOUNT
| ROWNUM
| ROWS
| ROWTYPE
| RPAD
| RTREE
| RTRIM
| SAVEPOINT
| SCHEDULE
| SCHEMA
| SCHEMA_NAME
| SCHEMAS
| SEC_TO_TIME
| SECOND
| SECOND_MICROSECOND
| SECURITY
| SELECT
| SENSITIVE
| SEPARATOR
| SEQUENCE
| SERIAL
| SERIALIZABLE
| SERVER
| SESSION
| SET
| SETVAL
| SFORMAT
| SHARE
| SHOW
| SHUTDOWN
| SIGN
| SIGNAL
| SIGNED
| SIMPLE
| SIN
| SKIP
| SLAVE
| SLAVE_POS
| SLAVES
| SLOW
| SMALLINT
| SNAPSHOT
| SOCKET
| SOFT
| SOME
| SONAME
| SOUNDEX
| SOUNDS
| SOURCE
| SPACE
| SPATIAL
| SPECIFIC
| SQL
| SQL_BIG_RESULT
| SQL_BUFFER_RESULT
| SQL_CACHE
| SQL_CALC_FOUND_ROWS
| SQL_NO_CACHE
| SQL_SMALL_RESULT
| SQL_THREAD
| SQL_TSI_DAY
| SQL_TSI_HOUR
| SQL_TSI_MINUTE
| SQL_TSI_MONTH
| SQL_TSI_QUARTER
| SQL_TSI_SECOND
| SQL_TSI_WEEK
| SQL_TSI_YEAR
| SQLEXCEPTION
| SQLSTATE
| SQLWARNING
| SQRT
| SSL
| STAGE
| START
| STARTING
| STARTS
| STATEMENT
| STATS_AUTO_RECALC
| STATS_PERSISTENT
| STATS_SAMPLE_PAGES
| STATUS
| STDIN
| STOP
| STORAGE
| STORED
| STR_TO_DATE
| STRAIGHT_JOIN
| STRCMP
| STRING
| SUBCLASS_ORIGIN
| SUBDATE
| SUBJECT
| SUBPARTITION
| SUBPARTITIONS
| SUBSTR
| SUBSTRING
| SUBSTRING_INDEX
| SUBTIME
| SUM
| SUPER
| SUSPEND
| SWAPS
| SWITCHES
| SYSDATE
| SYSTEM
| SYSTEM_TIME
| TABLE
| TABLE_CHECKSUM
| TABLE_NAME
| TABLES
| TABLESPACE
| TAN
| TEMPORARY
| TEMPTABLE
| TERMINATED
| TEXT
| THAN
| THEN
| THREADS
| TIES
| TIME
| TIME_FORMAT
| TIME_TO_SEC
| TIMEDIFF
| TIMESTAMP
| TIMESTAMPADD
| TIMESTAMPDIFF
| TINYBLOB
| TINYINT
| TINYTEXT
| TO
| TO_BASE64
| TO_CHAR
| TO_DAYS
| TO_SECONDS
| TRAILING
| TRANSACTION
| TRANSACTIONAL
| TRIGGER
| TRIGGERS
| TRUE
| TRUNCATE
| TYPE
| TYPES
| UCASE
| UNBOUNDED
| UNCOMMITTED
| UNCOMPRESSED_LENGTH
| UNDEFINED
| UNDO
| UNDO_BUFFER_SIZE
| UNDOFILE
| UNHEX
| UNICODE
| UNINSTALL
| UNION
| UNIQUE
| UNIX_TIMESTAMP
| UNKNOWN
| UNLOCK
| UNSIGNED
| UNTIL
| UPDATE
| UPDATEXML
| UPGRADE
| UPPER
| USAGE
| USE
| USE_FRM
| USER
| USER_RESOURCES
| USING
| UTC_DATE
| UTC_TIME
| UTC_TIMESTAMP
| VALUE
| VALUES
| VARBINARY
| VARCHAR
| VARCHAR2
| VARCHARACTER
| VARIABLES
| VARYING
| VERSIONING
| VIA
| VIEW
| VIRTUAL
| VISIBLE
| WAIT
| WARNINGS
| WEEK
| WEEKDAY
| WEEKOFYEAR
| WEIGHT_STRING
| WHEN
| WHERE
| WHILE
| WINDOW
| WITH
| WITHIN
| WITHOUT
| WORK
| WRAPPER
| WRITE
| X509
| XA
| XML
| XOR
| YEAR
| YEAR_MONTH
| ZEROFILL
| ZONE
deriving DecidableEq, Repr

namespace Keyword

/-- Keyword::name from src/keywords.rs: the stringified identifier of each keyword. -/
def name : Keyword -> String := fun k =>
match k with
| ABS => "ABS"
| ACCESSIBLE => "ACCESSIBLE"
| ACCOUNT => "ACCOUNT"
| ACOS => "ACOS"
| ACTION => "ACTION"
| ADD => "ADD"
| ADD_MONTHS => "ADD_MONTHS"
| ADDDATE => "ADDDATE"
| ADDTIME => "ADDTIME"
| ADMIN => "ADMIN"
| AFTER => "AFTER"
| AGAINST => "AGAINST"
| AGGREGATE => "AGGREGATE"
| ALGORITHM => "ALGORITHM"
| ALL => "ALL"
| ALTER => "ALTER"
| ALWAYS => "ALWAYS"
| ANALYZE => "ANALYZE"
| AND => "AND"
| ANY => "ANY"
| AS => "AS"
| ASC => "ASC"
| ASCII => "ASCII"
| ASENSITIVE => "ASENSITIVE"
| ASIN => "ASIN"
| AT => "AT"
| ATAN => "ATAN"
| ATAN2 => "ATAN2"
| ATOMIC => "ATOMIC"
| AUTHORS => "AUTHORS"
| AUTO => "AUTO"
| AUTO_INCREMENT => "AUTO_INCREMENT"
| AUTOEXTEND_SIZE => "AUTOEXTEND_SIZE"
| AVG => "AVG"
| AVG_ROW_LENGTH => "AVG_ROW_LENGTH"
| BACKUP => "BACKUP"
| BEFORE => "BEFORE"
| BEGIN => "BEGIN"
| BETWEEN => "BETWEEN"
| BIGINT => "BIGINT"
| BIN => "BIN"
| BINARY => "BINARY"
| BINLOG => "BINLOG"
| BIT => "BIT"
| BIT_LENGTH => "BIT_LENGTH"
| BLOB => "BLOB"
| BLOCK => "BLOCK"
| BODY => "BODY"
| BOOL => "BOOL"
| BOOLEAN => "BOOLEAN"
| BOTH => "BOTH"
| BTREE => "BTREE"
| BY => "BY"
| BYTE => "BYTE"
| CACHE => "CACHE"
| CALL => "CALL"
| CASCADE => "CASCADE"
| CASCADED => "CASCADED"
| CASE => "CASE"
| CAST => "CAST"
| CATALOG_NAME => "CATALOG_NAME"
| CEIL => "CEIL"
| CEILING => "CEILING"
| CHAIN => "CHAIN"
| CHANGE => "CHANGE"
| CHANGED => "CHANGED"
| CHAR => "CHAR"
| CHAR_LENGTH => "CHAR_LENGTH"
| CHARACTER => "CHARACTER"
| CHARACTER_LENGTH => "CHARACTER_LENGTH"
| CHARSET => "CHARSET"
| CHECK => "CHECK"
| CHECKPOINT => "CHECKPOINT"
| CHECKSUM => "CHECKSUM"
| CHR => "CHR"
| CIPHER => "CIPHER"
| CLASS_ORIGIN => "CLASS_ORIGIN"
| CLIENT => "CLIENT"
| CLOB => "CLOB"
| CLOSE => "CLOSE"
| COALESCE => "COALESCE"
| CODE => "CODE"
| COLLATE => "COLLATE"
| COLLATION => "COLLATION"
| COLUMN => "COLUMN"
| COLUMN_ADD => "COLUMN_ADD"
| COLUMN_CHECK => "COLUMN_CHECK"
| COLUMN_CREATE => "COLUMN_CREATE"
| COLUMN_DELETE => "COLUMN_DELETE"
| COLUMN_GET => "COLUMN_GET"
| COLUMN_NAME => "COLUMN_NAME"
| COLUMNS => "COLUMNS"
| COMMENT => "COMMENT"
| COMMIT => "COMMIT"
| COMMITTED => "COMMITTED"
| COMPACT => "COMPACT"
| COMPLETION => "COMPLETION"
| COMPRESSED => "COMPRESSED"
| CONCAT => "CONCAT"
| CONCAT_WS => "CONCAT_WS"
| CONCURRENT => "CONCURRENT"
| CONDITION => "CONDITION"
| CONNECTION => "CONNECTION"
| CONSISTENT => "CONSISTENT"
| CONSTRAINT => "CONSTRAINT"
| CONSTRAINT_CATALOG => "CONSTRAINT_CATALOG"
| CONSTRAINT_NAME => "CONSTRAINT_NAME"
| CONSTRAINT_SCHEMA => "CONSTRAINT_SCHEMA"
| CONTAINS => "CONTAINS"
| CONTEXT => "CONTEXT"
| CONTINUE => "CONTINUE"
| CONTRIBUTORS => "CONTRIBUTORS"
| CONV => "CONV"
| CONVERT => "CONVERT"
| CONVERT_TS => "CONVERT_TS"
| COPY => "COPY"
| COS => "COS"
| COT => "COT"
| COUNT => "COUNT"
| CPU => "CPU"
| CRC32 => "CRC32"
| CRC32C => "CRC32C"
| CREATE => "CREATE"
| CROSS => "CROSS"
| CUBE => "CUBE"
| CURDATE => "CURDATE"
| CURRENT => "CURRENT"
| CURRENT_DATE => "CURRENT_DATE"
| CURRENT_POS => "CURRENT_POS"
| CURRENT_ROLE => "CURRENT_ROLE"
| CURRENT_TIME => "CURRENT_TIME"
| CURRENT_TIMESTAMP => "CURRENT_TIMESTAMP"
| CURRENT_USER => "CURRENT_USER"
| CURSOR => "CURSOR"
| CURSOR_NAME => "CURSOR_NAME"
| CURTIME => "CURTIME"
| CYCLE => "CYCLE"
| DATA => "DATA"
| DATABASE => "DATABASE"
| DATABASES => "DATABASES"
| DATAFILE => "DATAFILE"
| DATE => "DATE"
| DATE_ADD => "DATE_ADD"
| DATE_FORMAT => "DATE_FORMAT"
| DATE_SUB => "DATE_SUB"
| DATEDIFF => "DATEDIFF"
| DATETIME => "DATETIME"
| DAY => "DAY"
| DAY_HOUR => "DAY_HOUR"
| DAY_MICROSECOND => "DAY_MICROSECOND"
| DAY_MINUTE => "DAY_MINUTE"
| DAY_SECOND => "DAY_SECOND"
| DAYNAME => "DAYNAME"
| DAYOFMONTH => "DAYOFMONTH"
| DAYOFWEEK => "DAYOFWEEK"
| DAYOFYEAR => "DAYOFYEAR"
| DEALLOCATE => "DEALLOCATE"
| DEC => "DEC"
| DECIMAL => "DECIMAL"
| DECLARE => "DECLARE"
| DEFAULT => "DEFAULT"
| DEFINER => "DEFINER"
| DEGREES => "DEGREES"
| DELAY_KEY_WRITE => "DELAY_KEY_WRITE"
| DELAYED => "DELAYED"
| DELETE => "DELETE"
| DELETE_DOMAIN_ID => "DELETE_DOMAIN_ID"
| DELIMITER => "DELIMITER"
| DES_KEY_FILE => "DES_KEY_FILE"
| DESC => "DESC"
| DESCRIBE => "DESCRIBE"
| DETERMINISTIC => "DETERMINISTIC"
| DIAGNOSTICS => "DIAGNOSTICS"
| DIRECTORY => "DIRECTORY"
| DISABLE => "DISABLE"
| DISCARD => "DISCARD"
| DISK => "DISK"
| DISTINCT => "DISTINCT"
| DISTINCTROW => "DISTINCTROW"
| DIV => "DIV"
| DO => "DO"
| DO_DOMAIN_IDS => "DO_DOMAIN_IDS"
| DOUBLE => "DOUBLE"
| DROP => "DROP"
| DUAL => "DUAL"
| DUMPFILE => "DUMPFILE"
| DUPLICATE => "DUPLICATE"
| DYNAMIC => "DYNAMIC"
| EACH => "EACH"
| ELSE => "ELSE"
| ELSEIF => "ELSEIF"
| ELSIF => "ELSIF"
| ELT => "ELT"
| EMPTY => "EMPTY"
| ENABLE => "ENABLE"
| ENCLOSED => "ENCLOSED"
| END => "END"
| ENDS => "ENDS"
| ENGINE => "ENGINE"
| ENGINES => "ENGINES"
| ENUM => "ENUM"
| ERROR => "ERROR"
| ERRORS => "ERRORS"
| ESCAPE => "ESCAPE"
| ESCAPED => "ESCAPED"
| EVENT => "EVENT"
| EVENTS => "EVENTS"
| EVERY => "EVERY"
| EXAMINED => "EXAMINED"
| EXCEPT => "EXCEPT"
| EXCEPTION => "EXCEPTION"
| EXCHANGE => "EXCHANGE"
| EXCLUDE => "EXCLUDE"
| EXECUTE => "EXECUTE"
| EXISTS => "EXISTS"
| EXIT => "EXIT"
| EXP => "EXP"
| EXPANSION => "EXPANSION"
| EXPIRE => "EXPIRE"
| EXPLAIN => "EXPLAIN"
| EXPORT => "EXPORT"
| EXPORT_SET => "EXPORT_SET"
| EXTENDED => "EXTENDED"
| EXTENT_SIZE => "EXTENT_SIZE"
| EXTRACTVALUE => "EXTRACTVALUE"
| FALSE => "FALSE"
| FAST => "FAST"
| FAULTS => "FAULTS"
| FEDERATED => "FEDERATED"
| FETCH => "FETCH"
| FIELD => "FIELD"
| FIELDS => "FIELDS"
| FILE => "FILE"
| FIND_IN_SET => "FIND_IN_SET"
| FIRST => "FIRST"
| FIXED => "FIXED"
| FLOAT => "FLOAT"
| FLOAT4 => "FLOAT4"
| FLOAT8 => "FLOAT8"
| FLOOR => "FLOOR"
| FLUSH => "FLUSH"
| FOLLOWING => "FOLLOWING"
| FOLLOWS => "FOLLOWS"
| FOR => "FOR"
| FORCE => "FORCE"
| FOREIGN => "FOREIGN"
| FORMAT => "FORMAT"
| FOUND => "FOUND"
| FROM => "FROM"
| FROM_BASE64 => "FROM_BASE64"
| FROM_DAYS => "FROM_DAYS"
| FROM_UNIXTIME => "FROM_UNIXTIME"
| FULL => "FULL"
| FULLTEXT => "FULLTEXT"
| FUNCTION => "FUNCTION"
| GENERAL => "GENERAL"
| GENERATED => "GENERATED"
| GET => "GET"
| GET_FORMAT => "GET_FORMAT"
| GIST => "GIST"
| GLOBAL => "GLOBAL"
| GOTO => "GOTO"
| GRANT => "GRANT"
| GRANTS => "GRANTS"
| GREATEST => "GREATEST"
| GROUP => "GROUP"
| HANDLER => "HANDLER"
| HARD => "HARD"
| HASH => "HASH"
| HAVING => "HAVING"
| HELP => "HELP"
| HEX => "HEX"
| HIGH_PRIORITY => "HIGH_PRIORITY"
| HISTORY => "HISTORY"
| HOST => "HOST"
| HOSTS => "HOSTS"
| HOUR => "HOUR"
| HOUR_MICROSECOND => "HOUR_MICROSECOND"
| HOUR_MINUTE => "HOUR_MINUTE"
| HOUR_SECOND => "HOUR_SECOND"
| ID => "ID"
| IDENTIFIED => "IDENTIFIED"
| IF => "IF"
| IFNULL => "IFNULL"
| IGNORE => "IGNORE"
| IGNORE_DOMAIN_IDS => "IGNORE_DOMAIN_IDS"
| IGNORE_SERVER_IDS => "IGNORE_SERVER_IDS"
| IGNORED => "IGNORED"
| IMMEDIATE => "IMMEDIATE"
| IMPORT => "IMPORT"
| IN => "IN"
| INCREMENT => "INCREMENT"
| INDEX => "INDEX"
| INDEXES => "INDEXES"
| INFILE => "INFILE"
| INITIAL_SIZE => "INITIAL_SIZE"
| INNER => "INNER"
| INOUT => "INOUT"
| INSENSITIVE => "INSENSITIVE"
| INSERT => "INSERT"
| INSERT_METHOD => "INSERT_METHOD"
| INSTALL => "INSTALL"
| INSTR => "INSTR"
| INT => "INT"
| INT1 => "INT1"
| INT2 => "INT2"
| INT3 => "INT3"
| INT4 => "INT4"
| INT8 => "INT8"
| INTEGER => "INTEGER"
| INTERSECT => "INTERSECT"
| INTERSECTA => "INTERSECTA"
| INTERVAL => "INTERVAL"
| INTO => "INTO"
| INVISIBLE => "INVISIBLE"
| INVOKER => "INVOKER"
| IO_KW => "IO"
| IO_THREAD => "IO_THREAD"
| IPC => "IPC"
| IS => "IS"
| ISOLATION => "ISOLATION"
| ISOPEN => "ISOPEN"
| ISSUER => "ISSUER"
| ITERATE => "ITERATE"
| JOIN => "JOIN"
| JSON => "JSON"
| JSON_ARRAY => "JSON_ARRAY"
| JSON_ARRAY_APPEND => "JSON_ARRAY_APPEND"
| JSON_ARRAY_INSERT => "JSON_ARRAY_INSERT"
| JSON_ARRAYAGG => "JSON_ARRAYAGG"
| JSON_COMPACT => "JSON_COMPACT"
| JSON_CONTAINS => "JSON_CONTAINS"
| JSON_CONTAINS_PATH => "JSON_CONTAINS_PATH"
| JSON_DEPTH => "JSON_DEPTH"
| JSON_DETAILED => "JSON_DETAILED"
| JSON_EQUALS => "JSON_EQUALS"
| JSON_EXISTS => "JSON_EXISTS"
| JSON_EXTRACT => "JSON_EXTRACT"
| JSON_INSERT => "JSON_INSERT"
| JSON_KEYS => "JSON_KEYS"
| JSON_LENGTH => "JSON_LENGTH"
| JSON_LOOSE => "JSON_LOOSE"
| JSON_MERGE => "JSON_MERGE"
| JSON_MERGE_PATCH => "JSON_MERGE_PATCH"
| JSON_MERGE_PRESERVE => "JSON_MERGE_PRESERVE"
| JSON_NORMALIZE => "JSON_NORMALIZE"
| JSON_OBJECT => "JSON_OBJECT"
| JSON_OBJECTAGG => "JSON_OBJECTAGG"
| JSON_QUERY => "JSON_QUERY"
| JSON_QUOTE => "JSON_QUOTE"
| JSON_REMOVE => "JSON_REMOVE"
| JSON_REPLACE => "JSON_REPLACE"
| JSON_SEARCH => "JSON_SEARCH"
| JSON_SET => "JSON_SET"
| JSON_TABLE => "JSON_TABLE"
| JSON_TYPE => "JSON_TYPE"
| JSON_UNQUOTE => "JSON_UNQUOTE"
| JSON_VALID => "JSON_VALID"
| JSON_VALUE => "JSON_VALUE"
| KEY => "KEY"
| KEY_BLOCK_SIZE => "KEY_BLOCK_SIZE"
| KEYS => "KEYS"
| KILL => "KILL"
| LANGUAGE => "LANGUAGE"
| LAST => "LAST"
| LAST_VALUE => "LAST_VALUE"
| LASTVAL => "LASTVAL"
| LCASE => "LCASE"
| LEADING => "LEADING"
| LEAST => "LEAST"
| LEAVE => "LEAVE"
| LEAVES => "LEAVES"
| LEFT => "LEFT"
| LENGTH => "LENGTH"
| LENGTHB => "LENGTHB"
| LESS => "LESS"
| LEVEL => "LEVEL"
| LIKE => "LIKE"
| LIMIT => "LIMIT"
| LINEAR => "LINEAR"
| LINES => "LINES"
| LIST => "LIST"
| LN => "LN"
| LOAD => "LOAD"
| LOAD_FILE => "LOAD_FILE"
| LOCAL => "LOCAL"
| LOCALTIME => "LOCALTIME"
| LOCALTIMESTAMP => "LOCALTIMESTAMP"
| LOCATE => "LOCATE"
| LOCK => "LOCK"
| LOCKED => "LOCKED"
| LOCKS => "LOCKS"
| LOG => "LOG"
| LOG10 => "LOG10"
| LOG2 => "LOG2"
| LOGFILE => "LOGFILE"
| LOGS => "LOGS"
| LONG => "LONG"
| LONGBLOB => "LONGBLOB"
| LONGTEXT => "LONGTEXT"
| LOOP => "LOOP"
| LOW_PRIORITY => "LOW_PRIORITY"
| LOWER => "LOWER"
| LPAD => "LPAD"
| LTRIM => "LTRIM"
| MAKE_SET => "MAKE_SET"
| MAKEDATE => "MAKEDATE"
| MAKETIME => "MAKETIME"
| MASTER => "MASTER"
| MASTER_CONNECT_RETRY => "MASTER_CONNECT_RETRY"
| MASTER_DELAY => "MASTER_DELAY"
| MASTER_GTID_POS => "MASTER_GTID_POS"
| MASTER_HEARTBEAT_PERIOD => "MASTER_HEARTBEAT_PERIOD"
| MASTER_HOST => "MASTER_HOST"
| MASTER_LOG_FILE => "MASTER_LOG_FILE"
| MASTER_LOG_POS => "MASTER_LOG_POS"
| MASTER_PASSWORD => "MASTER_PASSWORD"
| MASTER_PORT => "MASTER_PORT"
| MASTER_SERVER_ID => "MASTER_SERVER_ID"
| MASTER_SSL => "MASTER_SSL"
| MASTER_SSL_CA => "MASTER_SSL_CA"
| MASTER_SSL_CAPATH => "MASTER_SSL_CAPATH"
| MASTER_SSL_CERT => "MASTER_SSL_CERT"
| MASTER_SSL_CIPHER => "MASTER_SSL_CIPHER"
| MASTER_SSL_CRL => "MASTER_SSL_CRL"
| MASTER_SSL_CRLPATH => "MASTER_SSL_CRLPATH"
| MASTER_SSL_KEY => "MASTER_SSL_KEY"
| MASTER_SSL_VERIFY_SERVER_CERT => "MASTER_SSL_VERIFY_SERVER_CERT"
| MASTER_USE_GTID => "MASTER_USE_GTID"
| MASTER_USER => "MASTER_USER"
| MATCH => "MATCH"
| MAX => "MAX"
| MAX_CONNECTIONS_PER_HOUR => "MAX_CONNECTIONS_PER_HOUR"
| MAX_QUERIES_PER_HOUR => "MAX_QUERIES_PER_HOUR"
| MAX_ROWS => "MAX_ROWS"
| MAX_SIZE => "MAX_SIZE"
| MAX_STATEMENT_TIME => "MAX_STATEMENT_TIME"
| MAX_UPDATES_PER_HOUR => "MAX_UPDATES_PER_HOUR"
| MAX_USER_CONNECTIONS => "MAX_USER_CONNECTIONS"
| MAXVALUE => "MAXVALUE"
| MEDIUM => "MEDIUM"
| MEDIUMBLOB => "MEDIUMBLOB"
| MEDIUMINT => "MEDIUMINT"
| MEDIUMTEXT => "MEDIUMTEXT"
| MEMORY => "MEMORY"
| MERGE => "MERGE"
| MESSAGE_TEXT => "MESSAGE_TEXT"
| MICROSECOND => "MICROSECOND"
| MID => "MID"
| MIDDLEINT => "MIDDLEINT"
| MIGRATE => "MIGRATE"
| MIN => "MIN"
| MIN_ROWS => "MIN_ROWS"
| MINUS => "MINUS"
| MINUTE => "MINUTE"
| MINUTE_MICROSECOND => "MINUTE_MICROSECOND"
| MINUTE_SECOND => "MINUTE_SECOND"
| MINVALUE => "MINVALUE"
| MOD => "MOD"
| MODE => "MODE"
| MODIFIES => "MODIFIES"
| MODIFY => "MODIFY"
| MONITOR => "MONITOR"
| MONTH => "MONTH"
| MONTHNAME => "MONTHNAME"
| MUTEX => "MUTEX"
| MYSQL => "MYSQL"
| MYSQL_ERRNO => "MYSQL_ERRNO"
| NAME => "NAME"
| NAMES => "NAMES"
| NATIONAL => "NATIONAL"
| NATURAL => "NATURAL"
| NATURAL_SORT_KEY => "NATURAL_SORT_KEY"
| NCHAR => "NCHAR"
| NESTED => "NESTED"
| NEVER => "NEVER"
| NEW => "NEW"
| NEXT => "NEXT"
| NEXTVAL => "NEXTVAL"
| NO => "NO"
| NO_WAIT => "NO_WAIT"
| NO_WRITE_TO_BINLOG => "NO_WRITE_TO_BINLOG"
| NOCACHE => "NOCACHE"
| NOCYCLE => "NOCYCLE"
| NODEGROUP => "NODEGROUP"
| NOMAXVALUE => "NOMAXVALUE"
| NOMINVALUE => "NOMINVALUE"
| NONE => "NONE"
| NOT => "NOT"
| NOTFOUND => "NOTFOUND"
| NOW => "NOW"
| NOWAIT => "NOWAIT"
| NULL => "NULL"
| NULLIF => "NULLIF"
| NUMBER => "NUMBER"
| NUMERIC => "NUMERIC"
| NVARCHAR => "NVARCHAR"
| NVL => "NVL"
| NVL2 => "NVL2"
| OCT => "OCT"
| OCTET_LENGTH => "OCTET_LENGTH"
| OF => "OF"
| OFFSET => "OFFSET"
| OLD_PASSWORD => "OLD_PASSWORD"
| ON => "ON"
| ONE => "ONE"
| ONLINE => "ONLINE"
| ONLY => "ONLY"
| OPEN => "OPEN"
| OPTIMIZE => "OPTIMIZE"
| OPTION => "OPTION"
| OPTIONALLY => "OPTIONALLY"
| OPTIONS => "OPTIONS"
| OR => "OR"
| ORD => "ORD"
| ORDER => "ORDER"
| ORDINALITY => "ORDINALITY"
| OTHERS => "OTHERS"
| OUT => "OUT"
| OUTER => "OUTER"
| OUTFILE => "OUTFILE"
| OVER => "OVER"
| OVERLAPS => "OVERLAPS"
| OWNER => "OWNER"
| PACK_KEYS => "PACK_KEYS"
| PACKAGE => "PACKAGE"
| PAGE => "PAGE"
| PAGE_CHECKSUM => "PAGE_CHECKSUM"
| PARSE_VCOL_EXPR => "PARSE_VCOL_EXPR"
| PARSER => "PARSER"
| PARTIAL => "PARTIAL"
| PARTITION => "PARTITION"
| PARTITIONING => "PARTITIONING"
| PARTITIONS => "PARTITIONS"
| PASSWORD => "PASSWORD"
| PATH => "PATH"
| PERIOD => "PERIOD"
| PERIOD_ADD => "PERIOD_ADD"
| PERIOD_DIFF => "PERIOD_DIFF"
| PERSISTENT => "PERSISTENT"
| PHASE => "PHASE"
| PI => "PI"
| PLUGIN => "PLUGIN"
| PLUGINS => "PLUGINS"
| PORT => "PORT"
| PORTION => "PORTION"
| POSITION => "POSITION"
| POW => "POW"
| POWER => "POWER"
| PRECEDES => "PRECEDES"
| PRECEDING => "PRECEDING"
| PRECISION => "PRECISION"
| PREPARE => "PREPARE"
| PRESERVE => "PRESERVE"
| PREV => "PREV"
| PREVIOUS => "PREVIOUS"
| PRIMARY => "PRIMARY"
| PRIVILEGES => "PRIVILEGES"
| PROCEDURE => "PROCEDURE"
| PROCESS => "PROCESS"
| PROCESSLIST => "PROCESSLIST"
| PROFILE => "PROFILE"
| PROFILES => "PROFILES"
| PROXY => "PROXY"
| PURGE => "PURGE"
| QUARTER => "QUARTER"
| QUERY => "QUERY"
| QUICK => "QUICK"
| QUOTE => "QUOTE"
| RADIANS => "RADIANS"
| RAISE => "RAISE"
| RAND => "RAND"
| RANGE => "RANGE"
| RAW => "RAW"
| READ => "READ"
| READ_ONLY => "READ_ONLY"
| READ_WRITE => "READ_WRITE"
| READS => "READS"
| REAL => "REAL"
| REBUILD => "REBUILD"
| RECOVER => "RECOVER"
| RECURSIVE => "RECURSIVE"
| REDO_BUFFER_SIZE => "REDO_BUFFER_SIZE"
| REDOFILE => "REDOFILE"
| REDUNDANT => "REDUNDANT"
| REF_SYSTEM_ID => "REF_SYSTEM_ID"
| REFERENCES => "REFERENCES"
| REGEXP => "REGEXP"
| RELAY => "RELAY"
| RELAY_LOG_FILE => "RELAY_LOG_FILE"
| RELAY_LOG_POS => "RELAY_LOG_POS"
| RELAY_THREAD => "RELAY_THREAD"
| RELAYLOG => "RELAYLOG"
| RELEASE => "RELEASE"
| RELOAD => "RELOAD"
| REMOVE => "REMOVE"
| RENAME => "RENAME"
| REORGANIZE => "REORGANIZE"
| REPAIR => "REPAIR"
| REPEAT => "REPEAT"
| REPEATABLE => "REPEATABLE"
| REPLACE => "REPLACE"
| REPLAY => "REPLAY"
| REPLICA => "REPLICA"
| REPLICA_POS => "REPLICA_POS"
| REPLICAS => "REPLICAS"
| REPLICATION => "REPLICATION"
| REQUIRE => "REQUIRE"
| RESET => "RESET"
| RESIGNAL => "RESIGNAL"
| RESTART => "RESTART"
| RESTORE => "RESTORE"
| RESTRICT => "RESTRICT"
| RESUME => "RESUME"
| RETURN => "RETURN"
| RETURNED_SQLSTATE => "RETURNED_SQLSTATE"
| RETURNING => "RETURNING"
| RETURNS => "RETURNS"
| REUSE => "REUSE"
| REVERSE => "REVERSE"
| REVOKE => "REVOKE"
| RIGHT => "RIGHT"
| RLIKE => "RLIKE"
| ROLE => "ROLE"
| ROLLBACK => "ROLLBACK"
| ROLLUP => "ROLLUP"
| ROUND => "ROUND"
| ROUTINE => "ROUTINE"
| ROW => "ROW"
| ROW_COUNT => "ROW_COUNT"
| ROW_FORMAT => "ROW_FORMAT"
| ROWCOUNT => "ROWCOUNT"
| ROWNUM => "ROWNUM"
| ROWS => "ROWS"
| ROWTYPE => "ROWTYPE"
| RPAD => "RPAD"
| RTREE => "RTREE"
| RTRIM => "RTRIM"
| SAVEPOINT => "SAVEPOINT"
| SCHEDULE => "SCHEDULE"
| SCHEMA => "SCHEMA"
| SCHEMA_NAME => "SCHEMA_NAME"
| SCHEMAS => "SCHEMAS"
| SEC_TO_TIME => "SEC_TO_TIME"
| SECOND => "SECOND"
| SECOND_MICROSECOND => "SECOND_MICROSECOND"
| SECURITY => "SECURITY"
| SELECT => "SELECT"
| SENSITIVE => "SENSITIVE"
| SEPARATOR => "SEPARATOR"
| SEQUENCE => "SEQUENCE"
| SERIAL => "SERIAL"
| SERIALIZABLE => "SERIALIZABLE"
| SERVER => "SERVER"
| SESSION => "SESSION"
| SET => "SET"
| SETVAL => "SETVAL"
| SFORMAT => "SFORMAT"
| SHARE => "SHARE"
| SHOW => "SHOW"
| SHUTDOWN => "SHUTDOWN"
| SIGN => "SIGN"
| SIGNAL => "SIGNAL"
| SIGNED => "SIGNED"
| SIMPLE => "SIMPLE"
| SIN => "SIN"
| SKIP => "SKIP"
| SLAVE => "SLAVE"
| SLAVE_POS => "SLAVE_POS"
| SLAVES => "SLAVES"
| SLOW => "SLOW"
| SMALLINT => "SMALLINT"
| SNAPSHOT => "SNAPSHOT"
| SOCKET => "SOCKET"
| SOFT => "SOFT"
| SOME => "SOME"
| SONAME => "SONAME"
| SOUNDEX => "SOUNDEX"
| SOUNDS => "SOUNDS"
| SOURCE => "SOURCE"
| SPACE => "SPACE"
| SPATIAL => "SPATIAL"
| SPECIFIC => "SPECIFIC"
| SQL => "SQL"
| SQL_BIG_RESULT => "SQL_BIG_RESULT"
| SQL_BUFFER_RESULT => "SQL_BUFFER_RESULT"
| SQL_CACHE => "SQL_CACHE"
| SQL_CALC_FOUND_ROWS => "SQL_CALC_FOUND_ROWS"
| SQL_NO_CACHE => "SQL_NO_CACHE"
| SQL_SMALL_RESULT => "SQL_SMALL_RESULT"
| SQL_THREAD => "SQL_THREAD"
| SQL_TSI_DAY => "SQL_TSI_DAY"
| SQL_TSI_HOUR => "SQL_TSI_HOUR"
| SQL_TSI_MINUTE => "SQL_TSI_MINUTE"
| SQL_TSI_MONTH => "SQL_TSI_MONTH"
| SQL_TSI_QUARTER => "SQL_TSI_QUARTER"
| SQL_TSI_SECOND => "SQL_TSI_SECOND"
| SQL_TSI_WEEK => "SQL_TSI_WEEK"
| SQL_TSI_YEAR => "SQL_TSI_YEAR"
| SQLEXCEPTION => "SQLEXCEPTION"
| SQLSTATE => "SQLSTATE"
| SQLWARNING => "SQLWARNING"
| SQRT => "SQRT"
| SSL => "SSL"
| STAGE => "STAGE"
| START => "START"
| STARTING => "STARTING"
| STARTS => "STARTS"
| STATEMENT => "STATEMENT"
| STATS_AUTO_RECALC => "STATS_AUTO_RECALC"
| STATS_PERSISTENT => "STATS_PERSISTENT"
| STATS_SAMPLE_PAGES => "STATS_SAMPLE_PAGES"
| STATUS => "STATUS"
| STDIN => "STDIN"
| STOP => "STOP"
| STORAGE => "STORAGE"
| STORED => "STORED"
| STR_TO_DATE => "STR_TO_DATE"
| STRAIGHT_JOIN => "STRAIGHT_JOIN"
| STRCMP => "STRCMP"
| STRING => "STRING"
| SUBCLASS_ORIGIN => "SUBCLASS_ORIGIN"
| SUBDATE => "SUBDATE"
| SUBJECT => "SUBJECT"
| SUBPARTITION => "SUBPARTITION"
| SUBPARTITIONS => "SUBPARTITIONS"
| SUBSTR => "SUBSTR"
| SUBSTRING => "SUBSTRING"
| SUBSTRING_INDEX => "SUBSTRING_INDEX"
| SUBTIME => "SUBTIME"
| SUM => "SUM"
| SUPER => "SUPER"
| SUSPEND => "SUSPEND"
| SWAPS => "SWAPS"
| SWITCHES => "SWITCHES"
| SYSDATE => "SYSDATE"
| SYSTEM => "SYSTEM"
| SYSTEM_TIME => "SYSTEM_TIME"
| TABLE => "TABLE"
| TABLE_CHECKSUM => "TABLE_CHECKSUM"
| TABLE_NAME => "TABLE_NAME"
| TABLES => "TABLES"
| TABLESPACE => "TABLESPACE"
| TAN => "TAN"
| TEMPORARY => "TEMPORARY"
| TEMPTABLE => "TEMPTABLE"
| TERMINATED => "TERMINATED"
| TEXT => "TEXT"
| THAN => "THAN"
| THEN => "THEN"
| THREADS => "THREADS"
| TIES => "TIES"
| TIME => "TIME"
| TIME_FORMAT => "TIME_FORMAT"
| TIME_TO_SEC => "TIME_TO_SEC"
| TIMEDIFF => "TIMEDIFF"
| TIMESTAMP => "TIMESTAMP"
| TIMESTAMPADD => "TIMESTAMPADD"
| TIMESTAMPDIFF => "TIMESTAMPDIFF"
| TINYBLOB => "TINYBLOB"
| TINYINT => "TINYINT"
| TINYTEXT => "TINYTEXT"
| TO => "TO"
| TO_BASE64 => "TO_BASE64"
| TO_CHAR => "TO_CHAR"
| TO_DAYS => "TO_DAYS"
| TO_SECONDS => "TO_SECONDS"
| TRAILING => "TRAILING"
| TRANSACTION => "TRANSACTION"
| TRANSACTIONAL => "TRANSACTIONAL"
| TRIGGER => "TRIGGER"
| TRIGGERS => "TRIGGERS"
| TRUE => "TRUE"
| TRUNCATE => "TRUNCATE"
| TYPE => "TYPE"
| TYPES => "TYPES"
| UCASE => "UCASE"
| UNBOUNDED => "UNBOUNDED"
| UNCOMMITTED => "UNCOMMITTED"
| UNCOMPRESSED_LENGTH => "UNCOMPRESSED_LENGTH"
| UNDEFINED => "UNDEFINED"
| UNDO => "UNDO"
| UNDO_BUFFER_SIZE => "UNDO_BUFFER_SIZE"
| UNDOFILE => "UNDOFILE"
| UNHEX => "UNHEX"
| UNICODE => "UNICODE"
| UNINSTALL => "UNINSTALL"
| UNION => "UNION"
| UNIQUE => "UNIQUE"
| UNIX_TIMESTAMP => "UNIX_TIMESTAMP"
| UNKNOWN => "UNKNOWN"
| UNLOCK => "UNLOCK"
| UNSIGNED => "UNSIGNED"
| UNTIL => "UNTIL"
| UPDATE => "UPDATE"
| UPDATEXML => "UPDATEXML"
| UPGRADE => "UPGRADE"
| UPPER => "UPPER"
| USAGE => "USAGE"
| USE => "USE"
| USE_FRM => "USE_FRM"
| USER => "USER"
| USER_RESOURCES => "USER_RESOURCES"
| USING => "USING"
| UTC_DATE => "UTC_DATE"
| UTC_TIME => "UTC_TIME"
| UTC_TIMESTAMP => "UTC_TIMESTAMP"
| VALUE => "VALUE"
| VALUES => "VALUES"
| VARBINARY => "VARBINARY"
| VARCHAR => "VARCHAR"
| VARCHAR2 => "VARCHAR2"
| VARCHARACTER => "VARCHARACTER"
| VARIABLES => "VARIABLES"
| VARYING => "VARYING"
| VERSIONING => "VERSIONING"
| VIA => "VIA"
| VIEW => "VIEW"
| VIRTUAL => "VIRTUAL"
| VISIBLE => "VISIBLE"
| WAIT => "WAIT"
| WARNINGS => "WARNINGS"
| WEEK => "WEEK"
| WEEKDAY => "WEEKDAY"
| WEEKOFYEAR => "WEEKOFYEAR"
| WEIGHT_STRING => "WEIGHT_STRING"
| WHEN => "WHEN"
| WHERE => "WHERE"
| WHILE => "WHILE"
| WINDOW => "WINDOW"
| WITH => "WITH"
| WITHIN => "WITHIN"
| WITHOUT => "WITHOUT"
| WORK => "WORK"
| WRAPPER => "WRAPPER"
| WRITE => "WRITE"
| X509 => "X509"
| XA => "XA"
| XML => "XML"
| XOR => "XOR"
| YEAR => "YEAR"
| YEAR_MONTH => "YEAR_MONTH"
| ZEROFILL => "ZEROFILL"
| ZONE => "ZONE"
| NOT_A_KEYWORD => "NOT_A_KEYWORD"
| QUOTED_IDENTIFIER => "QUOTED_IDENTIFIER"

/-- The keyword entries of the keywords! macro invocation in src/keywords.rs, in source order (the macro prepends NOT_A_KEYWORD and QUOTED_IDENTIFIER, which are not entries of the list). -/
def entries : List Keyword :=
[ ABS, ACCESSIBLE, ACCOUNT, ACOS, ACTION, ADD, ADD_MONTHS, ADDDATE, ADDTIME, ADMIN
, AFTER, AGAINST, AGGREGATE, ALGORITHM, ALL, ALTER, ALWAYS, ANALYZE, AND, ANY
, AS, ASC, ASCII, ASENSITIVE, ASIN, AT, ATAN, ATAN2, ATOMIC, AUTHORS
, AUTO, AUTO_INCREMENT, AUTOEXTEND_SIZE, AVG, AVG_ROW_LENGTH, BACKUP, BEFORE, BEGIN, BETWEEN, BIGINT
, BIN, BINARY, BINLOG, BIT, BIT_LENGTH, BLOB, BLOCK, BODY, BOOL, BOOLEAN
, BOTH, BTREE, BY, BYTE, CACHE, CALL, CASCADE, CASCADED, CASE, CAST
, CATALOG_NAME, CEIL, CEILING, CHAIN, CHANGE, CHANGED, CHAR, CHAR_LENGTH, CHARACTER, CHARACTER_LENGTH
, CHARSET, CHECK, CHECKPOINT, CHECKSUM, CHR, CIPHER, CLASS_ORIGIN, CLIENT, CLOB, CLOSE
, COALESCE, CODE, COLLATE, COLLATION, COLUMN, COLUMN_ADD, COLUMN_CHECK, COLUMN_CREATE, COLUMN_DELETE, COLUMN_GET
, COLUMN_NAME, COLUMNS, COMMENT, COMMIT, COMMITTED, COMPACT, COMPLETION, COMPRESSED, CONCAT, CONCAT_WS
, CONCURRENT, CONDITION, CONNECTION, CONSISTENT, CONSTRAINT, CONSTRAINT_CATALOG, CONSTRAINT_NAME, CONSTRAINT_SCHEMA, CONTAINS, CONTEXT
, CONTINUE, CONTRIBUTORS, CONV, CONVERT, CONVERT_TS, COPY, COS, COT, COUNT, CPU
, CRC32, CRC32C, CREATE, CROSS, CUBE, CURDATE, CURRENT, CURRENT_DATE, CURRENT_POS, CURRENT_ROLE
, CURRENT_TIME, CURRENT_TIMESTAMP, CURRENT_USER, CURSOR, CURSOR_NAME, CURTIME, CYCLE, DATA, DATABASE, DATABASES
, DATAFILE, DATE, DATE_ADD, DATE_FORMAT, DATE_SUB, DATEDIFF, DATETIME, DAY, DAY_HOUR, DAY_MICROSECOND
, DAY_MINUTE, DAY_SECOND, DAYNAME, DAYOFMONTH, DAYOFWEEK, DAYOFYEAR, DEALLOCATE, DEC, DECIMAL, DECLARE
, DEFAULT, DEFINER, DEGREES, DELAY_KEY_WRITE, DELAYED, DELETE, DELETE_DOMAIN_ID, DELIMITER, DES_KEY_FILE, DESC
, DESCRIBE, DETERMINISTIC, DIAGNOSTICS, DIRECTORY, DISABLE, DISCARD, DISK, DISTINCT, DISTINCTROW, DIV
, DO, DO_DOMAIN_IDS, DOUBLE, DROP, DUAL, DUMPFILE, DUPLICATE, DYNAMIC, EACH, ELSE
, ELSEIF, ELSIF, ELT, EMPTY, ENABLE, ENCLOSED, END, ENDS, ENGINE, ENGINES
, ENUM, ERROR, ERRORS, ESCAPE, ESCAPED, EVENT, EVENTS, EVERY, EXAMINED, EXCEPT
, EXCEPTION, EXCHANGE, EXCLUDE, EXECUTE, EXISTS, EXIT, EXP, EXPANSION, EXPIRE, EXPLAIN
, EXPORT, EXPORT_SET, EXTENDED, EXTENT_SIZE, EXTRACTVALUE, FALSE, FAST, FAULTS, FEDERATED, FETCH
, FIELD, FIELDS, FILE, FIND_IN_SET, FIRST, FIXED, FLOAT, FLOAT4, FLOAT8, FLOOR
, FLUSH, FOLLOWING, FOLLOWS, FOR, FORCE, FOREIGN, FORMAT, FOUND, FROM, FROM_BASE64
, FROM_DAYS, FROM_UNIXTIME, FULL, FULLTEXT, FUNCTION, GENERAL, GENERATED, GET, GET_FORMAT, GIST
, GLOBAL, GOTO, GRANT, GRANTS, GREATEST, GROUP, HANDLER, HARD, HASH, HAVING
, HELP, HEX, HIGH_PRIORITY, HISTORY, HOST, HOSTS, HOUR, HOUR_MICROSECOND, HOUR_MINUTE, HOUR_SECOND
, ID, IDENTIFIED, IF, IFNULL, IGNORE, IGNORE_DOMAIN_IDS, IGNORE_SERVER_IDS, IGNORED, IMMEDIATE, IMPORT
, IN, INCREMENT, INDEX, INDEXES, INFILE, INITIAL_SIZE, INNER, INOUT, INSENSITIVE, INSERT
, INSERT_METHOD, INSTALL, INSTR, INT, INT1, INT2, INT3, INT4, INT8, INTEGER
, INTERSECT, INTERSECTA, INTERVAL, INTO, INVISIBLE, INVOKER, IO_KW, IO_THREAD, IPC, IS
, ISOLATION, ISOPEN, ISSUER, ITERATE, JOIN, JSON, JSON_ARRAY, JSON_ARRAY_APPEND, JSON_ARRAY_INSERT, JSON_ARRAYAGG
, JSON_COMPACT, JSON_CONTAINS, JSON_CONTAINS_PATH, JSON_DEPTH, JSON_DETAILED, JSON_EQUALS, JSON_EXISTS, JSON_EXTRACT, JSON_INSERT, JSON_KEYS
, JSON_LENGTH, JSON_LOOSE, JSON_MERGE, JSON_MERGE_PATCH, JSON_MERGE_PRESERVE, JSON_NORMALIZE, JSON_OBJECT, JSON_OBJECTAGG, JSON_QUERY, JSON_QUOTE
, JSON_REMOVE, JSON_REPLACE, JSON_SEARCH, JSON_SET, JSON_TABLE, JSON_TYPE, JSON_UNQUOTE, JSON_VALID, JSON_VALUE, KEY
, KEY_BLOCK_SIZE, KEYS, KILL, LANGUAGE, LAST, LAST_VALUE, LASTVAL, LCASE, LEADING, LEAST
, LEAVE, LEAVES, LEFT, LENGTH, LENGTHB, LESS, LEVEL, LIKE, LIMIT, LINEAR
, LINES, LIST, LN, LOAD, LOAD_FILE, LOCAL, LOCALTIME, LOCALTIMESTAMP, LOCATE, LOCK
, LOCKED, LOCKS, LOG, LOG10, LOG2, LOGFILE, LOGS, LONG, LONGBLOB, LONGTEXT
, LOOP, LOW_PRIORITY, LOWER, LPAD, LTRIM, MAKE_SET, MAKEDATE, MAKETIME, MASTER, MASTER_CONNECT_RETRY
, MASTER_DELAY, MASTER_GTID_POS, MASTER_HEARTBEAT_PERIOD, MASTER_HOST, MASTER_LOG_FILE, MASTER_LOG_POS, MASTER_PASSWORD, MASTER_PORT, MASTER_SERVER_ID, MASTER_SSL
, MASTER_SSL_CA, MASTER_SSL_CAPATH, MASTER_SSL_CERT, MASTER_SSL_CIPHER, MASTER_SSL_CRL, MASTER_SSL_CRLPATH, MASTER_SSL_KEY, MASTER_SSL_VERIFY_SERVER_CERT, MASTER_USE_GTID, MASTER_USER
, MATCH, MAX, MAX_CONNECTIONS_PER_HOUR, MAX_QUERIES_PER_HOUR, MAX_ROWS, MAX_SIZE, MAX_STATEMENT_TIME, MAX_UPDATES_PER_HOUR, MAX_USER_CONNECTIONS, MAXVALUE
, MEDIUM, MEDIUMBLOB, MEDIUMINT, MEDIUMTEXT, MEMORY, MERGE, MESSAGE_TEXT, MICROSECOND, MID, MIDDLEINT
, MIGRATE, MIN, MIN_ROWS, MINUS, MINUTE, MINUTE_MICROSECOND, MINUTE_SECOND, MINVALUE, MOD, MODE
, MODIFIES, MODIFY, MONITOR, MONTH, MONTHNAME, MUTEX, MYSQL, MYSQL_ERRNO, NAME, NAMES
, NATIONAL, NATURAL, NATURAL_SORT_KEY, NCHAR, NESTED, NEVER, NEW, NEXT, NEXTVAL, NO
, NO_WAIT, NO_WRITE_TO_BINLOG, NOCACHE, NOCYCLE, NODEGROUP, NOMAXVALUE, NOMINVALUE, NONE, NOT, NOTFOUND
, NOW, NOWAIT, NULL, NULLIF, NUMBER, NUMERIC, NVARCHAR, NVL, NVL2, OCT
, OCTET_LENGTH, OF, OFFSET, OLD_PASSWORD, ON, ONE, ONLINE, ONLY, OPEN, OPTIMIZE
, OPTION, OPTIONALLY, OPTIONS, OR, ORD, ORDER, ORDINALITY, OTHERS, OUT, OUTER
, OUTFILE, OVER, OVERLAPS, OWNER, PACK_KEYS, PACKAGE, PAGE, PAGE_CHECKSUM, PARSE_VCOL_EXPR, PARSER
, PARTIAL, PARTITION, PARTITIONING, PARTITIONS, PASSWORD, PATH, PERIOD, PERIOD_ADD, PERIOD_DIFF, PERSISTENT
, PHASE, PI, PLUGIN, PLUGINS, PORT, PORTION, POSITION, POW, POWER, PRECEDES
, PRECEDING, PRECISION, PREPARE, PRESERVE, PREV, PREVIOUS, PRIMARY, PRIVILEGES, PROCEDURE, PROCESS
, PROCESSLIST, PROFILE, PROFILES, PROXY, PURGE, QUARTER, QUERY, QUICK, QUOTE, RADIANS
, RAISE, RAND, RANGE, RAW, READ, READ_ONLY, READ_WRITE, READS, REAL, REBUILD
, RECOVER, RECURSIVE, REDO_BUFFER_SIZE, REDOFILE, REDUNDANT, REF_SYSTEM_ID, REFERENCES, REGEXP, RELAY, RELAY_LOG_FILE
, RELAY_LOG_POS, RELAY_THREAD, RELAYLOG, RELEASE, RELOAD, REMOVE, RENAME, REORGANIZE, REPAIR, REPEAT
, REPEATABLE, REPLACE, REPLAY, REPLICA, REPLICA_POS, REPLICAS, REPLICATION, REQUIRE, RESET, RESIGNAL
, RESTART, RESTORE, RESTRICT, RESUME, RETURN, RETURNED_SQLSTATE, RETURNING, RETURNS, REUSE, REVERSE
, REVOKE, RIGHT, RLIKE, ROLE, ROLLBACK, ROLLUP, ROUND, ROUTINE, ROW, ROW_COUNT
, ROW_FORMAT, ROWCOUNT, ROWNUM, ROWS, ROWTYPE, RPAD, RTREE, RTRIM, SAVEPOINT, SCHEDULE
, SCHEMA, SCHEMA_NAME, SCHEMAS, SEC_TO_TIME, SECOND, SECOND_MICROSECOND, SECURITY, SELECT, SENSITIVE, SEPARATOR
, SEQUENCE, SERIAL, SERIALIZABLE, SERVER, SESSION, SET, SETVAL, SFORMAT, SHARE, SHOW
, SHUTDOWN, SIGN, SIGNAL, SIGNED, SIMPLE, SIN, SKIP, SLAVE, SLAVE_POS, SLAVES
, SLOW, SMALLINT, SNAPSHOT, SOCKET, SOFT, SOME, SONAME, SOUNDEX, SOUNDS, SOURCE
, SPACE, SPATIAL, SPECIFIC, SQL, SQL_BIG_RESULT, SQL_BUFFER_RESULT, SQL_CACHE, SQL_CALC_FOUND_ROWS, SQL_NO_CACHE, SQL_SMALL_RESULT
, SQL_THREAD, SQL_TSI_DAY, SQL_TSI_HOUR, SQL_TSI_MINUTE, SQL_TSI_MONTH, SQL_TSI_QUARTER, SQL_TSI_SECOND, SQL_TSI_WEEK, SQL_TSI_YEAR, SQLEXCEPTION
, SQLSTATE, SQLWARNING, SQRT, SSL, STAGE, START, STARTING, STARTS, STATEMENT, STATS_AUTO_RECALC
, STATS_PERSISTENT, STATS_SAMPLE_PAGES, STATUS, STDIN, STOP, STORAGE, STORED, STR_TO_DATE, STRAIGHT_JOIN, STRCMP
, STRING, SUBCLASS_ORIGIN, SUBDATE, SUBJECT, SUBPARTITION, SUBPARTITIONS, SUBSTR, SUBSTRING, SUBSTRING_INDEX, SUBTIME
, SUM, SUPER, SUSPEND, SWAPS, SWITCHES, SYSDATE, SYSTEM, SYSTEM_TIME, TABLE, TABLE_CHECKSUM
, TABLE_NAME, TABLES, TABLESPACE, TAN, TEMPORARY, TEMPTABLE, TERMINATED, TEXT, THAN, THEN
, THREADS, TIES, TIME, TIME_FORMAT, TIME_TO_SEC, TIMEDIFF, TIMESTAMP, TIMESTAMPADD, TIMESTAMPDIFF, TINYBLOB
, TINYINT, TINYTEXT, TO, TO_BASE64, TO_CHAR, TO_DAYS, TO_SECONDS, TRAILING, TRANSACTION, TRANSACTIONAL
, TRIGGER, TRIGGERS, TRUE, TRUNCATE, TYPE, TYPES, UCASE, UNBOUNDED, UNCOMMITTED, UNCOMPRESSED_LENGTH
, UNDEFINED, UNDO, UNDO_BUFFER_SIZE, UNDOFILE, UNHEX, UNICODE, UNINSTALL, UNION, UNIQUE, UNIX_TIMESTAMP
, UNKNOWN, UNLOCK, UNSIGNED, UNTIL, UPDATE, UPDATEXML, UPGRADE, UPPER, USAGE, USE
, USE_FRM, USER, USER_RESOURCES, USING, UTC_DATE, UTC_TIME, UTC_TIMESTAMP, VALUE, VALUES, VARBINARY
, VARCHAR, VARCHAR2, VARCHARACTER, VARIABLES, VARYING, VERSIONING, VIA, VIEW, VIRTUAL, VISIBLE
, WAIT, WARNINGS, WEEK, WEEKDAY, WEEKOFYEAR, WEIGHT_STRING, WHEN, WHERE, WHILE, WINDOW
, WITH, WITHIN, WITHOUT, WORK, WRAPPER, WRITE, X509, XA, XML, XOR
, YEAR, YEAR_MONTH, ZEROFILL, ZONE ]

/-- Keyword conversion from strings (impl From for Keyword in src/keywords.rs): the keywords! macro generates one match arm per entry, mapping its stringified identifier to the keyword, with fallback NOT_A_KEYWORD; since entry names are distinct, this equals taking the first entry whose name is the argument, else NOT_A_KEYWORD. -/
def fromStr (v : String) : Keyword :=
match entries.find? (fun k => k.name == v) with
| some k => k
| none => NOT_A_KEYWORD

/-- Keyword::reserved from src/keywords.rs (reserved! macro): true for the listed entries, false otherwise. -/
def reserved : Keyword -> Bool := fun k =>
match k with
| ACCESSIBLE => true
| ADD => true
| ALL => true
| ALTER => true
| ANALYZE => true
| AND => true
| AS => true
| ASC => true
| ASENSITIVE => true
| BEFORE => true
| BETWEEN => true
| BIGINT => true
| BINARY => true
| BLOB => true
| BOTH => true
| BY => true
| CALL => true
| CASCADE => true
| CASE => true
| CHANGE => true
| CHAR => true
| CHARACTER => true
| CHECK => true
| COLLATE => true
| COLUMN => true
| COMMENT => true
| CONDITION => true
| CONSTRAINT => true
| CONTINUE => true
| CONVERT => true
| CREATE => true
| CROSS => true
| CURRENT_DATE => true
| CURRENT_ROLE => true
| CURRENT_TIME => true
| CURRENT_TIMESTAMP => true
| CURRENT_USER => true
| CURSOR => true
| DATABASE => true
| DATABASES => true
| DAY_HOUR => true
| DAY_MICROSECOND => true
| DAY_MINUTE => true
| DAY_SECOND => true
| DEC => true
| DECIMAL => true
| DECLARE => true
| DEFAULT => true
| DELAYED => true
| DELETE => true
| DELETE_DOMAIN_ID => true
| DESC => true
| DESCRIBE => true
| DETERMINISTIC => true
| DISTINCT => true
| DISTINCTROW => true
| DIV => true
| DO_DOMAIN_IDS => true
| DOUBLE => true
| DROP => true
| DUAL => true
| EACH => true
| ELSE => true
| ELSEIF => true
| ENCLOSED => true
| ESCAPED => true
| EXCEPT => true
| EXISTS => true
| EXIT => true
| EXPLAIN => true
| FALSE => true
| FETCH => true
| FLOAT => true
| FLOAT4 => true
| FLOAT8 => true
| FOR => true
| FORCE => true
| FOREIGN => true
| FROM => true
| FULLTEXT => true
| GENERAL => true
| GRANT => true
| GROUP => true
| HAVING => true
| HIGH_PRIORITY => true
| HOUR_MICROSECOND => true
| HOUR_MINUTE => true
| HOUR_SECOND => true
| IF => true
| IGNORE => true
| IGNORE_DOMAIN_IDS => true
| IGNORE_SERVER_IDS => true
| IN => true
| INDEX => true
| INFILE => true
| INNER => true
| INOUT => true
| INSENSITIVE => true
| INSERT => true
| INT => true
| INT1 => true
| INT2 => true
| INT3 => true
| INT4 => true
| INT8 => true
| INTEGER => true
| INTERSECTA => true
| INTERVAL => true
| INTO => true
| IS => true
| ITERATE => true
| JOIN => true
| KEY => true
| KEYS => true
| KILL => true
| LEADING => true
| LEAVE => true
| LEFT => true
| LIKE => true
| LIMIT => true
| LINEAR => true
| LINES => true
| LOAD => true
| LOCALTIME => true
| LOCALTIMESTAMP => true
| LOCK => true
| LONG => true
| LONGBLOB => true
| LONGTEXT => true
| LOOP => true
| LOW_PRIORITY => true
| MASTER_HEARTBEAT_PERIOD => true
| MASTER_SSL_VERIFY_SERVER_CERT => true
| MATCH => true
| MAXVALUE => true
| MEDIUMBLOB => true
| MEDIUMINT => true
| MEDIUMTEXT => true
| MIDDLEINT => true
| MINUTE_MICROSECOND => true
| MINUTE_SECOND => true
| MOD => true
| MODIFIES => true
| NATURAL => true
| NO_WRITE_TO_BINLOG => true
| NOT => true
| NULL => true
| NUMERIC => true
| OFFSET => true
| ON => true
| OPTIMIZE => true
| OPTION => true
| OPTIONALLY => true
| OR => true
| ORDER => true
| OUT => true
| OUTER => true
| OUTFILE => true
| OVER => true
| PAGE_CHECKSUM => true
| PARSE_VCOL_EXPR => true
| PARTITION => true
| POSITION => true
| PRECISION => true
| PRIMARY => true
| PROCEDURE => true
| PURGE => true
| RANGE => true
| READ => true
| READ_WRITE => true
| READS => true
| REAL => true
| RECURSIVE => true
| REF_SYSTEM_ID => true
| REFERENCES => true
| REGEXP => true
| RENAME => true
| REPEAT => true
| REPLACE => true
| REQUIRE => true
| RESIGNAL => true
| RESTRICT => true
| RETURN => true
| RETURNING => true
| REVOKE => true
| RIGHT => true
| RLIKE => true
| ROWS => true
| SCHEMA => true
| SCHEMAS => true
| SECOND_MICROSECOND => true
| SELECT => true
| SENSITIVE => true
| SEPARATOR => true
| SET => true
| SHOW => true
| SIGNAL => true
| SLOW => true
| SMALLINT => true
| SPATIAL => true
| SPECIFIC => true
| SQL => true
| SQL_BIG_RESULT => true
| SQL_CALC_FOUND_ROWS => true
| SQL_SMALL_RESULT => true
| SQLEXCEPTION => true
| SQLSTATE => true
| SQLWARNING => true
| SSL => true
| STARTING => true
| STATS_AUTO_RECALC => true
| STATS_PERSISTENT => true
| STATS_SAMPLE_PAGES => true
| STRAIGHT_JOIN => true
| TABLE => true
| TERMINATED => true
| THEN => true
| TINYBLOB => true
| TINYINT => true
| TINYTEXT => true
| TO => true
| TRAILING => true
| TRIGGER => true
| TRUE => true
| UNDO => true
| UNION => true
| UNIQUE => true
| UNLOCK => true
| UNSIGNED => true
| UPDATE => true
| USAGE => true
| USE => true
| USING => true
| UTC_DATE => true
| UTC_TIME => true
| UTC_TIMESTAMP => true
| VALUES => true
| VARBINARY => true
| VARCHAR => true
| VARCHARACTER => true
| VARYING => true
| WHEN => true
| WHERE => true
| WHILE => true
| WINDOW => true
| WITH => true
| WRITE => true
| XOR => true
| YEAR_MONTH => true
| ZEROFILL => true
| END => true
| _ => false

/-- Keyword::expr_ident from src/keywords.rs (expr_ident! macro): true for the ten listed entries, else the negation of reserved. -/
def expr_ident : Keyword -> Bool := fun k =>
match k with
| CURRENT_DATE => true
| CURRENT_TIME => true
| CURRENT_TIMESTAMP => true
| IF => true
| REPLACE => true
| RIGHT => true
| UTC_DATE => true
| UTC_TIME => true
| UTC_TIMESTAMP => true
| VALUES => true
| k => !k.reserved

/-- The entries of the expr_ident! macro invocation in src/keywords.rs, in source order. -/
def exprIdentEntries : List Keyword := [ CURRENT_DATE, CURRENT_TIME, CURRENT_TIMESTAMP, IF, REPLACE, RIGHT, UTC_DATE, UTC_TIME, UTC_TIMESTAMP, VALUES ]

/-- Auxiliary (proof infrastructure, not part of the source model): the constructor index of a keyword. -/
def idx : Keyword -> Nat := fun k =>
match k with
| NOT_A_KEYWORD => 0
| QUOTED_IDENTIFIER => 1
| ABS => 2
| ACCESSIBLE => 3
| ACCOUNT => 4
| ACOS => 5
| ACTION => 6
| ADD => 7
| ADD_MONTHS => 8
| ADDDATE => 9
| ADDTIME => 10
| ADMIN => 11
| AFTER => 12
| AGAINST => 13
| AGGREGATE => 14
| ALGORITHM => 15
| ALL => 16
| ALTER => 17
| ALWAYS => 18
| ANALYZE => 19
| AND => 20
| ANY => 21
| AS => 22
| ASC => 23
| ASCII => 24
| ASENSITIVE => 25
| ASIN => 26
| AT => 27
| ATAN => 28
| ATAN2 => 29
| ATOMIC => 30
| AUTHORS => 31
| AUTO => 32
| AUTO_INCREMENT => 33
| AUTOEXTEND_SIZE => 34
| AVG => 35
| AVG_ROW_LENGTH => 36
| BACKUP => 37
| BEFORE => 38
| BEGIN => 39
| BETWEEN => 40
| BIGINT => 41
| BIN => 42
| BINARY => 43
| BINLOG => 44
| BIT => 45
| BIT_LENGTH => 46
| BLOB => 47
| BLOCK => 48
| BODY => 49
| BOOL => 50
| BOOLEAN => 51
| BOTH => 52
| BTREE => 53
| BY => 54
| BYTE => 55
| CACHE => 56
| CALL => 57
| CASCADE => 58
| CASCADED => 59
| CASE => 60
| CAST => 61
| CATALOG_NAME => 62
| CEIL => 63
| CEILING => 64
| CHAIN => 65
| CHANGE => 66
| CHANGED => 67
| CHAR => 68
| CHAR_LENGTH => 69
| CHARACTER => 70
| CHARACTER_LENGTH => 71
| CHARSET => 72
| CHECK => 73
| CHECKPOINT => 74
| CHECKSUM => 75
| CHR => 76
| CIPHER => 77
| CLASS_ORIGIN => 78
| CLIENT => 79
| CLOB => 80
| CLOSE => 81
| COALESCE => 82
| CODE => 83
| COLLATE => 84
| COLLATION => 85
| COLUMN => 86
| COLUMN_ADD => 87
| COLUMN_CHECK => 88
| COLUMN_CREATE => 89
| COLUMN_DELETE => 90
| COLUMN_GET => 91
| COLUMN_NAME => 92
| COLUMNS => 93
| COMMENT => 94
| COMMIT => 95
| COMMITTED => 96
| COMPACT => 97
| COMPLETION => 98
| COMPRESSED => 99
| CONCAT => 100
| CONCAT_WS => 101
| CONCURRENT => 102
| CONDITION => 103
| CONNECTION => 104
| CONSISTENT => 105
| CONSTRAINT => 106
| CONSTRAINT_CATALOG => 107
| CONSTRAINT_NAME => 108
| CONSTRAINT_SCHEMA => 109
| CONTAINS => 110
| CONTEXT => 111
| CONTINUE => 112
| CONTRIBUTORS => 113
| CONV => 114
| CONVERT => 115
| CONVERT_TS => 116
| COPY => 117
| COS => 118
| COT => 119
| COUNT => 120
| CPU => 121
| CRC32 => 122
| CRC32C => 123
| CREATE => 124
| CROSS => 125
| CUBE => 126
| CURDATE => 127
| CURRENT => 128
| CURRENT_DATE => 129
| CURRENT_POS => 130
| CURRENT_ROLE => 131
| CURRENT_TIME => 132
| CURRENT_TIMESTAMP => 133
| CURRENT_USER => 134
| CURSOR => 135
| CURSOR_NAME => 136
| CURTIME => 137
| CYCLE => 138
| DATA => 139
| DATABASE => 140
| DATABASES => 141
| DATAFILE => 142
| DATE => 143
| DATE_ADD => 144
| DATE_FORMAT => 145
| DATE_SUB => 146
| DATEDIFF => 147
| DATETIME => 148
| DAY => 149
| DAY_HOUR => 150
| DAY_MICROSECOND => 151
| DAY_MINUTE => 152
| DAY_SECOND => 153
| DAYNAME => 154
| DAYOFMONTH => 155
| DAYOFWEEK => 156
| DAYOFYEAR => 157
| DEALLOCATE => 158
| DEC => 159
| DECIMAL => 160
| DECLARE => 161
| DEFAULT => 162
| DEFINER => 163
| DEGREES => 164
| DELAY_KEY_WRITE => 165
| DELAYED => 166
| DELETE => 167
| DELETE_DOMAIN_ID => 168
| DELIMITER => 169
| DES_KEY_FILE => 170
| DESC => 171
| DESCRIBE => 172
| DETERMINISTIC => 173
| DIAGNOSTICS => 174
| DIRECTORY => 175
| DISABLE => 176
| DISCARD => 177
| DISK => 178
| DISTINCT => 179
| DISTINCTROW => 180
| DIV => 181
| DO => 182
| DO_DOMAIN_IDS => 183
| DOUBLE => 184
| DROP => 185
| DUAL => 186
| DUMPFILE => 187
| DUPLICATE => 188
| DYNAMIC => 189
| EACH => 190
| ELSE => 191
| ELSEIF => 192
| ELSIF => 193
| ELT => 194
| EMPTY => 195
| ENABLE => 196
| ENCLOSED => 197
| END => 198
| ENDS => 199
| ENGINE => 200
| ENGINES => 201
| ENUM => 202
| ERROR => 203
| ERRORS => 204
| ESCAPE => 205
| ESCAPED => 206
| EVENT => 207
| EVENTS => 208
| EVERY => 209
| EXAMINED => 210
| EXCEPT => 211
| EXCEPTION => 212
| EXCHANGE => 213
| EXCLUDE => 214
| EXECUTE => 215
| EXISTS => 216
| EXIT => 217
| EXP => 218
| EXPANSION => 219
| EXPIRE => 220
| EXPLAIN => 221
| EXPORT => 222
| EXPORT_SET => 223
| EXTENDED => 224
| EXTENT_SIZE => 225
| EXTRACTVALUE => 226
| FALSE => 227
| FAST => 228
| FAULTS => 229
| FEDERATED => 230
| FETCH => 231
| FIELD => 232
| FIELDS => 233
| FILE => 234
| FIND_IN_SET => 235
| FIRST => 236
| FIXED => 237
| FLOAT => 238
| FLOAT4 => 239
| FLOAT8 => 240
| FLOOR => 241
| FLUSH => 242
| FOLLOWING => 243
| FOLLOWS => 244
| FOR => 245
| FORCE => 246
| FOREIGN => 247
| FORMAT => 248
| FOUND => 249
| FROM => 250
| FROM_BASE64 => 251
| FROM_DAYS => 252
| FROM_UNIXTIME => 253
| FULL => 254
| FULLTEXT => 255
| FUNCTION => 256
| GENERAL => 257
| GENERATED => 258
| GET => 259
| GET_FORMAT => 260
| GIST => 261
| GLOBAL => 262
| GOTO => 263
| GRANT => 264
| GRANTS => 265
| GREATEST => 266
| GROUP => 267
| HANDLER => 268
| HARD => 269
| HASH => 270
| HAVING => 271
| HELP => 272
| HEX => 273
| HIGH_PRIORITY => 274
| HISTORY => 275
| HOST => 276
| HOSTS => 277
| HOUR => 278
| HOUR_MICROSECOND => 279
| HOUR_MINUTE => 280
| HOUR_SECOND => 281
| ID => 282
| IDENTIFIED => 283
| IF => 284
| IFNULL => 285
| IGNORE => 286
| IGNORE_DOMAIN_IDS => 287
| IGNORE_SERVER_IDS => 288
| IGNORED => 289
| IMMEDIATE => 290
| IMPORT => 291
| IN => 292
| INCREMENT => 293
| INDEX => 294
| INDEXES => 295
| INFILE => 296
| INITIAL_SIZE => 297
| INNER => 298
| INOUT => 299
| INSENSITIVE => 300
| INSERT => 301
| INSERT_METHOD => 302
| INSTALL => 303
| INSTR => 304
| INT => 305
| INT1 => 306
| INT2 => 307
| INT3 => 308
| INT4 => 309
| INT8 => 310
| INTEGER => 311
| INTERSECT => 312
| INTERSECTA => 313
| INTERVAL => 314
| INTO => 315
| INVISIBLE => 316
| INVOKER => 317
| IO_KW => 318
| IO_THREAD => 319
| IPC => 320
| IS => 321
| ISOLATION => 322
| ISOPEN => 323
| ISSUER => 324
| ITERATE => 325
| JOIN => 326
| JSON => 327
| JSON_ARRAY => 328
| JSON_ARRAY_APPEND => 329
| JSON_ARRAY_INSERT => 330
| JSON_ARRAYAGG => 331
| JSON_COMPACT => 332
| JSON_CONTAINS => 333
| JSON_CONTAINS_PATH => 334
| JSON_DEPTH => 335
| JSON_DETAILED => 336
| JSON_EQUALS => 337
| JSON_EXISTS => 338
| JSON_EXTRACT => 339
| JSON_INSERT => 340
| JSON_KEYS => 341
| JSON_LENGTH => 342
| JSON_LOOSE => 343
| JSON_MERGE => 344
| JSON_MERGE_PATCH => 345
| JSON_MERGE_PRESERVE => 346
| JSON_NORMALIZE => 347
| JSON_OBJECT => 348
| JSON_OBJECTAGG => 349
| JSON_QUERY => 350
| JSON_QUOTE => 351
| JSON_REMOVE => 352
| JSON_REPLACE => 353
| JSON_SEARCH => 354
| JSON_SET => 355
| JSON_TABLE => 356
| JSON_TYPE => 357
| JSON_UNQUOTE => 358
| JSON_VALID => 359
| JSON_VALUE => 360
| KEY => 361
| KEY_BLOCK_SIZE => 362
| KEYS => 363
| KILL => 364
| LANGUAGE => 365
| LAST => 366
| LAST_VALUE => 367
| LASTVAL => 368
| LCASE => 369
| LEADING => 370
| LEAST => 371
| LEAVE => 372
| LEAVES => 373
| LEFT => 374
| LENGTH => 375
| LENGTHB => 376
| LESS => 377
| LEVEL => 378
| LIKE => 379
| LIMIT => 380
| LINEAR => 381
| LINES => 382
| LIST => 383
| LN => 384
| LOAD => 385
| LOAD_FILE => 386
| LOCAL => 387
| LOCALTIME => 388
| LOCALTIMESTAMP => 389
| LOCATE => 390
| LOCK => 391
| LOCKED => 392
| LOCKS => 393
| LOG => 394
| LOG10 => 395
| LOG2 => 396
| LOGFILE => 397
| LOGS => 398
| LONG => 399
| LONGBLOB => 400
| LONGTEXT => 401
| LOOP => 402
| LOW_PRIORITY => 403
| LOWER => 404
| LPAD => 405
| LTRIM => 406
| MAKE_SET => 407
| MAKEDATE => 408
| MAKETIME => 409
| MASTER => 410
| MASTER_CONNECT_RETRY => 411
| MASTER_DELAY => 412
| MASTER_GTID_POS => 413
| MASTER_HEARTBEAT_PERIOD => 414
| MASTER_HOST => 415
| MASTER_LOG_FILE => 416
| MASTER_LOG_POS => 417
| MASTER_PASSWORD => 418
| MASTER_PORT => 419
| MASTER_SERVER_ID => 420
| MASTER_SSL => 421
| MASTER_SSL_CA => 422
| MASTER_SSL_CAPATH => 423
| MASTER_SSL_CERT => 424
| MASTER_SSL_CIPHER => 425
| MASTER_SSL_CRL => 426
| MASTER_SSL_CRLPATH => 427
| MASTER_SSL_KEY => 428
| MASTER_SSL_VERIFY_SERVER_CERT => 429
| MASTER_USE_GTID => 430
| MASTER_USER => 431
| MATCH => 432
| MAX => 433
| MAX_CONNECTIONS_PER_HOUR => 434
| MAX_QUERIES_PER_HOUR => 435
| MAX_ROWS => 436
| MAX_SIZE => 437
| MAX_STATEMENT_TIME => 438
| MAX_UPDATES_PER_HOUR => 439
| MAX_USER_CONNECTIONS => 440
| MAXVALUE => 441
| MEDIUM => 442
| MEDIUMBLOB => 443
| MEDIUMINT => 444
| MEDIUMTEXT => 445
| MEMORY => 446
| MERGE => 447
| MESSAGE_TEXT => 448
| MICROSECOND => 449
| MID => 450
| MIDDLEINT => 451
| MIGRATE => 452
| MIN => 453
| MIN_ROWS => 454
| MINUS => 455
| MINUTE => 456
| MINUTE_MICROSECOND => 457
| MINUTE_SECOND => 458
| MINVALUE => 459
| MOD => 460
| MODE => 461
| MODIFIES => 462
| MODIFY => 463
| MONITOR => 464
| MONTH => 465
| MONTHNAME => 466
| MUTEX => 467
| MYSQL => 468
| MYSQL_ERRNO => 469
| NAME => 470
| NAMES => 471
| NATIONAL => 472
| NATURAL => 473
| NATURAL_SORT_KEY => 474
| NCHAR => 475
| NESTED => 476
| NEVER => 477
| NEW => 478
| NEXT => 479
| NEXTVAL => 480
| NO => 481
| NO_WAIT => 482
| NO_WRITE_TO_BINLOG => 483
| NOCACHE => 484
| NOCYCLE => 485
| NODEGROUP => 486
| NOMAXVALUE => 487
| NOMINVALUE => 488
| NONE => 489
| NOT => 490
| NOTFOUND => 491
| NOW => 492
| NOWAIT => 493
| NULL => 494
| NULLIF => 495
| NUMBER => 496
| NUMERIC => 497
| NVARCHAR => 498
| NVL => 499
| NVL2 => 500
| OCT => 501
| OCTET_LENGTH => 502
| OF => 503
| OFFSET => 504
| OLD_PASSWORD => 505
| ON => 506
| ONE => 507
| ONLINE => 508
| ONLY => 509
| OPEN => 510
| OPTIMIZE => 511
| OPTION => 512
| OPTIONALLY => 513
| OPTIONS => 514
| OR => 515
| ORD => 516
| ORDER => 517
| ORDINALITY => 518
| OTHERS => 519
| OUT => 520
| OUTER => 521
| OUTFILE => 522
| OVER => 523
| OVERLAPS => 524
| OWNER => 525
| PACK_KEYS => 526
| PACKAGE => 527
| PAGE => 528
| PAGE_CHECKSUM => 529
| PARSE_VCOL_EXPR => 530
| PARSER => 531
| PARTIAL => 532
| PARTITION => 533
| PARTITIONING => 534
| PARTITIONS => 535
| PASSWORD => 536
| PATH => 537
| PERIOD => 538
| PERIOD_ADD => 539
| PERIOD_DIFF => 540
| PERSISTENT => 541
| PHASE => 542
| PI => 543
| PLUGIN => 544
| PLUGINS => 545
| PORT => 546
| PORTION => 547
| POSITION => 548
| POW => 549
| POWER => 550
| PRECEDES => 551
| PRECEDING => 552
| PRECISION => 553
| PREPARE => 554
| PRESERVE => 555
| PREV => 556
| PREVIOUS => 557
| PRIMARY => 558
| PRIVILEGES => 559
| PROCEDURE => 560
| PROCESS => 561
| PROCESSLIST => 562
| PROFILE => 563
| PROFILES => 564
| PROXY => 565
| PURGE => 566
| QUARTER => 567
| QUERY => 568
| QUICK => 569
| QUOTE => 570
| RADIANS => 571
| RAISE => 572
| RAND => 573
| RANGE => 574
| RAW => 575
| READ => 576
| READ_ONLY => 577
| READ_WRITE => 578
| READS => 579
| REAL => 580
| REBUILD => 581
| RECOVER => 582
| RECURSIVE => 583
| REDO_BUFFER_SIZE => 584
| REDOFILE => 585
| REDUNDANT => 586
| REF_SYSTEM_ID => 587
| REFERENCES => 588
| REGEXP => 589
| RELAY => 590
| RELAY_LOG_FILE => 591
| RELAY_LOG_POS => 592
| RELAY_THREAD => 593
| RELAYLOG => 594
| RELEASE => 595
| RELOAD => 596
| REMOVE => 597
| RENAME => 598
| REORGANIZE => 599
| REPAIR => 600
| REPEAT => 601
| REPEATABLE => 602
| REPLACE => 603
| REPLAY => 604
| REPLICA => 605
| REPLICA_POS => 606
| REPLICAS => 607
| REPLICATION => 608
| REQUIRE => 609
| RESET => 610
| RESIGNAL => 611
| RESTART => 612
| RESTORE => 613
| RESTRICT => 614
| RESUME => 615
| RETURN => 616
| RETURNED_SQLSTATE => 617
| RETURNING => 618
| RETURNS => 619
| REUSE => 620
| REVERSE => 621
| REVOKE => 622
| RIGHT => 623
| RLIKE => 624
| ROLE => 625
| ROLLBACK => 626
| ROLLUP => 627
| ROUND => 628
| ROUTINE => 629
| ROW => 630
| ROW_COUNT => 631
| ROW_FORMAT => 632
| ROWCOUNT => 633
| ROWNUM => 634
| ROWS => 635
| ROWTYPE => 636
| RPAD => 637
| RTREE => 638
| RTRIM => 639
| SAVEPOINT => 640
| SCHEDULE => 641
| SCHEMA => 642
| SCHEMA_NAME => 643
| SCHEMAS => 644
| SEC_TO_TIME => 645
| SECOND => 646
| SECOND_MICROSECOND => 647
| SECURITY => 648
| SELECT => 649
| SENSITIVE => 650
| SEPARATOR => 651
| SEQUENCE => 652
| SERIAL => 653
| SERIALIZABLE => 654
| SERVER => 655
| SESSION => 656
| SET => 657
| SETVAL => 658
| SFORMAT => 659
| SHARE => 660
| SHOW => 661
| SHUTDOWN => 662
| SIGN => 663
| SIGNAL => 664
| SIGNED => 665
| SIMPLE => 666
| SIN => 667
| SKIP => 668
| SLAVE => 669
| SLAVE_POS => 670
| SLAVES => 671
| SLOW => 672
| SMALLINT => 673
| SNAPSHOT => 674
| SOCKET => 675
| SOFT => 676
| SOME => 677
| SONAME => 678
| SOUNDEX => 679
| SOUNDS => 680
| SOURCE => 681
| SPACE => 682
| SPATIAL => 683
| SPECIFIC => 684
| SQL => 685
| SQL_BIG_RESULT => 686
| SQL_BUFFER_RESULT => 687
| SQL_CACHE => 688
| SQL_CALC_FOUND_ROWS => 689
| SQL_NO_CACHE => 690
| SQL_SMALL_RESULT => 691
| SQL_THREAD => 692
| SQL_TSI_DAY => 693
| SQL_TSI_HOUR => 694
| SQL_TSI_MINUTE => 695
| SQL_TSI_MONTH => 696
| SQL_TSI_QUARTER => 697
| SQL_TSI_SECOND => 698
| SQL_TSI_WEEK => 699
| SQL_TSI_YEAR => 700
| SQLEXCEPTION => 701
| SQLSTATE => 702
| SQLWARNING => 703
| SQRT => 704
| SSL => 705
| STAGE => 706
| START => 707
| STARTING => 708
| STARTS => 709
| STATEMENT => 710
| STATS_AUTO_RECALC => 711
| STATS_PERSISTENT => 712
| STATS_SAMPLE_PAGES => 713
| STATUS => 714
| STDIN => 715
| STOP => 716
| STORAGE => 717
| STORED => 718
| STR_TO_DATE => 719
| STRAIGHT_JOIN => 720
| STRCMP => 721
| STRING => 722
| SUBCLASS_ORIGIN => 723
| SUBDATE => 724
| SUBJECT => 725
| SUBPARTITION => 726
| SUBPARTITIONS => 727
| SUBSTR => 728
| SUBSTRING => 729
| SUBSTRING_INDEX => 730
| SUBTIME => 731
| SUM => 732
| SUPER => 733
| SUSPEND => 734
| SWAPS => 735
| SWITCHES => 736
| SYSDATE => 737
| SYSTEM => 738
| SYSTEM_TIME => 739
| TABLE => 740
| TABLE_CHECKSUM => 741
| TABLE_NAME => 742
| TABLES => 743
| TABLESPACE => 744
| TAN => 745
| TEMPORARY => 746
| TEMPTABLE => 747
| TERMINATED => 748
| TEXT => 749
| THAN => 750
| THEN => 751
| THREADS => 752
| TIES => 753
| TIME => 754
| TIME_FORMAT => 755
| TIME_TO_SEC => 756
| TIMEDIFF => 757
| TIMESTAMP => 758
| TIMESTAMPADD => 759
| TIMESTAMPDIFF => 760
| TINYBLOB => 761
| TINYINT => 762
| TINYTEXT => 763
| TO => 764
| TO_BASE64 => 765
| TO_CHAR => 766
| TO_DAYS => 767
| TO_SECONDS => 768
| TRAILING => 769
| TRANSACTION => 770
| TRANSACTIONAL => 771
| TRIGGER => 772
| TRIGGERS => 773
| TRUE => 774
| TRUNCATE => 775
| TYPE => 776
| TYPES => 777
| UCASE => 778
| UNBOUNDED => 779
| UNCOMMITTED => 780
| UNCOMPRESSED_LENGTH => 781
| UNDEFINED => 782
| UNDO => 783
| UNDO_BUFFER_SIZE => 784
| UNDOFILE => 785
| UNHEX => 786
| UNICODE => 787
| UNINSTALL => 788
| UNION => 789
| UNIQUE => 790
| UNIX_TIMESTAMP => 791
| UNKNOWN => 792
| UNLOCK => 793
| UNSIGNED => 794
| UNTIL => 795
| UPDATE => 796
| UPDATEXML => 797
| UPGRADE => 798
| UPPER => 799
| USAGE => 800
| USE => 801
| USE_FRM => 802
| USER => 803
| USER_RESOURCES => 804
| USING => 805
| UTC_DATE => 806
| UTC_TIME => 807
| UTC_TIMESTAMP => 808
| VALUE => 809
| VALUES => 810
| VARBINARY => 811
| VARCHAR => 812
| VARCHAR2 => 813
| VARCHARACTER => 814
| VARIABLES => 815
| VARYING => 816
| VERSIONING => 817
| VIA => 818
| VIEW => 819
| VIRTUAL => 820
| VISIBLE => 821
| WAIT => 822
| WARNINGS => 823
| WEEK => 824
| WEEKDAY => 825
| WEEKOFYEAR => 826
| WEIGHT_STRING => 827
| WHEN => 828
| WHERE => 829
| WHILE => 830
| WINDOW => 831
| WITH => 832
| WITHIN => 833
| WITHOUT => 834
| WORK => 835
| WRAPPER => 836
| WRITE => 837
| X509 => 838
| XA => 839
| XML => 840
| XOR => 841
| YEAR => 842
| YEAR_MONTH => 843
| ZEROFILL => 844
| ZONE => 845

/-- Auxiliary (proof infrastructure): inverse of idx, as a balanced decision tree. -/
def ofIdx : Nat -> Keyword := fun n =>
(if n < 423 then (if n < 211 then (if n < 105 then (if n < 52 then (if n < 26 then (if n < 13 then
(if n < 6 then (if n < 3 then (if n < 1 then (if n = 0 then NOT_A_KEYWORD else NOT_A_KEYWORD) else
(if n < 2 then (if n = 1 then QUOTED_IDENTIFIER else NOT_A_KEYWORD) else (if n = 2 then ABS else
NOT_A_KEYWORD))) else (if n < 4 then (if n = 3 then ACCESSIBLE else NOT_A_KEYWORD) else (if n < 5
then (if n = 4 then ACCOUNT else NOT_A_KEYWORD) else (if n = 5 then ACOS else NOT_A_KEYWORD)))) else
(if n < 9 then (if n < 7 then (if n = 6 then ACTION else NOT_A_KEYWORD) else (if n < 8 then (if n = 7
then ADD else NOT_A_KEYWORD) else (if n = 8 then ADD_MONTHS else NOT_A_KEYWORD))) else (if n < 11
then (if n < 10 then (if n = 9 then ADDDATE else NOT_A_KEYWORD) else (if n = 10 then ADDTIME else
NOT_A_KEYWORD)) else (if n < 12 then (if n = 11 then ADMIN else NOT_A_KEYWORD) else (if n = 12 then
AFTER else NOT_A_KEYWORD))))) else (if n < 19 then (if n < 16 then (if n < 14 then (if n = 13 then
AGAINST else NOT_A_KEYWORD) else (if n < 15 then (if n = 14 then AGGREGATE else NOT_A_KEYWORD) else
(if n = 15 then ALGORITHM else NOT_A_KEYWORD))) else (if n < 17 then (if n = 16 then ALL else
NOT_A_KEYWORD) else (if n < 18 then (if n = 17 then ALTER else NOT_A_KEYWORD) else (if n = 18 then
ALWAYS else NOT_A_KEYWORD)))) else (if n < 22 then (if n < 20 then (if n = 19 then ANALYZE else
NOT_A_KEYWORD) else (if n < 21 then (if n = 20 then AND else NOT_A_KEYWORD) else (if n = 21 then ANY
else NOT_A_KEYWORD))) else (if n < 24 then (if n < 23 then (if n = 22 then AS else NOT_A_KEYWORD)
else (if n = 23 then ASC else NOT_A_KEYWORD)) else (if n < 25 then (if n = 24 then ASCII else
NOT_A_KEYWORD) else (if n = 25 then ASENSITIVE else NOT_A_KEYWORD)))))) else (if n < 39 then (if n <
32 then (if n < 29 then (if n < 27 then (if n = 26 then ASIN else NOT_A_KEYWORD) else (if n < 28 then
(if n = 27 then AT else NOT_A_KEYWORD) else (if n = 28 then ATAN else NOT_A_KEYWORD))) else (if n <
30 then (if n = 29 then ATAN2 else NOT_A_KEYWORD) else (if n < 31 then (if n = 30 then ATOMIC else
NOT_A_KEYWORD) else (if n = 31 then AUTHORS else NOT_A_KEYWORD)))) else (if n < 35 then (if n < 33
then (if n = 32 then AUTO else NOT_A_KEYWORD) else (if n < 34 then (if n = 33 then AUTO_INCREMENT
else NOT_A_KEYWORD) else (if n = 34 then AUTOEXTEND_SIZE else NOT_A_KEYWORD))) else (if n < 37 then
(if n < 36 then (if n = 35 then AVG else NOT_A_KEYWORD) else (if n = 36 then AVG_ROW_LENGTH else
NOT_A_KEYWORD)) else (if n < 38 then (if n = 37 then BACKUP else NOT_A_KEYWORD) else (if n = 38 then
BEFORE else NOT_A_KEYWORD))))) else (if n < 45 then (if n < 42 then (if n < 40 then (if n = 39 then
BEGIN else NOT_A_KEYWORD) else (if n < 41 then (if n = 40 then BETWEEN else NOT_A_KEYWORD) else (if n
= 41 then BIGINT else NOT_A_KEYWORD))) else (if n < 43 then (if n = 42 then BIN else NOT_A_KEYWORD)
else (if n < 44 then (if n = 43 then BINARY else NOT_A_KEYWORD) else (if n = 44 then BINLOG else
NOT_A_KEYWORD)))) else (if n < 48 then (if n < 46 then (if n = 45 then BIT else NOT_A_KEYWORD) else
(if n < 47 then (if n = 46 then BIT_LENGTH else NOT_A_KEYWORD) else (if n = 47 then BLOB else
NOT_A_KEYWORD))) else (if n < 50 then (if n < 49 then (if n = 48 then BLOCK else NOT_A_KEYWORD) else
(if n = 49 then BODY else NOT_A_KEYWORD)) else (if n < 51 then (if n = 50 then BOOL else
NOT_A_KEYWORD) else (if n = 51 then BOOLEAN else NOT_A_KEYWORD))))))) else (if n < 78 then (if n < 65
then (if n < 58 then (if n < 55 then (if n < 53 then (if n = 52 then BOTH else NOT_A_KEYWORD) else
(if n < 54 then (if n = 53 then BTREE else NOT_A_KEYWORD) else (if n = 54 then BY else
NOT_A_KEYWORD))) else (if n < 56 then (if n = 55 then BYTE else NOT_A_KEYWORD) else (if n < 57 then
(if n = 56 then CACHE else NOT_A_KEYWORD) else (if n = 57 then CALL else NOT_A_KEYWORD)))) else (if n
< 61 then (if n < 59 then (if n = 58 then CASCADE else NOT_A_KEYWORD) else (if n < 60 then (if n = 59
then CASCADED else NOT_A_KEYWORD) else (if n = 60 then CASE else NOT_A_KEYWORD))) else (if n < 63
then (if n < 62 then (if n = 61 then CAST else NOT_A_KEYWORD) else (if n = 62 then CATALOG_NAME else
NOT_A_KEYWORD)) else (if n < 64 then (if n = 63 then CEIL else NOT_A_KEYWORD) else (if n = 64 then
CEILING else NOT_A_KEYWORD))))) else (if n < 71 then (if n < 68 then (if n < 66 then (if n = 65 then
CHAIN else NOT_A_KEYWORD) else (if n < 67 then (if n = 66 then CHANGE else NOT_A_KEYWORD) else (if n
= 67 then CHANGED else NOT_A_KEYWORD))) else (if n < 69 then (if n = 68 then CHAR else NOT_A_KEYWORD)
else (if n < 70 then (if n = 69 then CHAR_LENGTH else NOT_A_KEYWORD) else (if n = 70 then CHARACTER
else NOT_A_KEYWORD)))) else (if n < 74 then (if n < 72 then (if n = 71 then CHARACTER_LENGTH else
NOT_A_KEYWORD) else (if n < 73 then (if n = 72 then CHARSET else NOT_A_KEYWORD) else (if n = 73 then
CHECK else NOT_A_KEYWORD))) else (if n < 76 then (if n < 75 then (if n = 74 then CHECKPOINT else
NOT_A_KEYWORD) else (if n = 75 then CHECKSUM else NOT_A_KEYWORD)) else (if n < 77 then (if n = 76
then CHR else NOT_A_KEYWORD) else (if n = 77 then CIPHER else NOT_A_KEYWORD)))))) else (if n < 91
then (if n < 84 then (if n < 81 then (if n < 79 then (if n = 78 then CLASS_ORIGIN else NOT_A_KEYWORD)
else (if n < 80 then (if n = 79 then CLIENT else NOT_A_KEYWORD) else (if n = 80 then CLOB else
NOT_A_KEYWORD))) else (if n < 82 then (if n = 81 then CLOSE else NOT_A_KEYWORD) else (if n < 83 then
(if n = 82 then COALESCE else NOT_A_KEYWORD) else (if n = 83 then CODE else NOT_A_KEYWORD)))) else
(if n < 87 then (if n < 85 then (if n = 84 then COLLATE else NOT_A_KEYWORD) else (if n < 86 then (if
n = 85 then COLLATION else NOT_A_KEYWORD) else (if n = 86 then COLUMN else NOT_A_KEYWORD))) else (if
n < 89 then (if n < 88 then (if n = 87 then COLUMN_ADD else NOT_A_KEYWORD) else (if n = 88 then
COLUMN_CHECK else NOT_A_KEYWORD)) else (if n < 90 then (if n = 89 then COLUMN_CREATE else
NOT_A_KEYWORD) else (if n = 90 then COLUMN_DELETE else NOT_A_KEYWORD))))) else (if n < 98 then (if n
< 94 then (if n < 92 then (if n = 91 then COLUMN_GET else NOT_A_KEYWORD) else (if n < 93 then (if n =
92 then COLUMN_NAME else NOT_A_KEYWORD) else (if n = 93 then COLUMNS else NOT_A_KEYWORD))) else (if n
< 96 then (if n < 95 then (if n = 94 then COMMENT else NOT_A_KEYWORD) else (if n = 95 then COMMIT
else NOT_A_KEYWORD)) else (if n < 97 then (if n = 96 then COMMITTED else NOT_A_KEYWORD) else (if n =
97 then COMPACT else NOT_A_KEYWORD)))) else (if n < 101 then (if n < 99 then (if n = 98 then
COMPLETION else NOT_A_KEYWORD) else (if n < 100 then (if n = 99 then COMPRESSED else NOT_A_KEYWORD)
else (if n = 100 then CONCAT else NOT_A_KEYWORD))) else (if n < 103 then (if n < 102 then (if n = 101
then CONCAT_WS else NOT_A_KEYWORD) else (if n = 102 then CONCURRENT else NOT_A_KEYWORD)) else (if n <
104 then (if n = 103 then CONDITION else NOT_A_KEYWORD) else (if n = 104 then CONNECTION else
NOT_A_KEYWORD)))))))) else (if n < 158 then (if n < 131 then (if n < 118 then (if n < 111 then (if n
< 108 then (if n < 106 then (if n = 105 then CONSISTENT else NOT_A_KEYWORD) else (if n < 107 then (if
n = 106 then CONSTRAINT else NOT_A_KEYWORD) else (if n = 107 then CONSTRAINT_CATALOG else
NOT_A_KEYWORD))) else (if n < 109 then (if n = 108 then CONSTRAINT_NAME else NOT_A_KEYWORD) else (if
n < 110 then (if n = 109 then CONSTRAINT_SCHEMA else NOT_A_KEYWORD) else (if n = 110 then CONTAINS
else NOT_A_KEYWORD)))) else (if n < 114 then (if n < 112 then (if n = 111 then CONTEXT else
NOT_A_KEYWORD) else (if n < 113 then (if n = 112 then CONTINUE else NOT_A_KEYWORD) else (if n = 113
then CONTRIBUTORS else NOT_A_KEYWORD))) else (if n < 116 then (if n < 115 then (if n = 114 then CONV
else NOT_A_KEYWORD) else (if n = 115 then CONVERT else NOT_A_KEYWORD)) else (if n < 117 then (if n =
116 then CONVERT_TS else NOT_A_KEYWORD) else (if n = 117 then COPY else NOT_A_KEYWORD))))) else (if n
< 124 then (if n < 121 then (if n < 119 then (if n = 118 then COS else NOT_A_KEYWORD) else (if n <
120 then (if n = 119 then COT else NOT_A_KEYWORD) else (if n = 120 then COUNT else NOT_A_KEYWORD)))
else (if n < 122 then (if n = 121 then CPU else NOT_A_KEYWORD) else (if n < 123 then (if n = 122 then
CRC32 else NOT_A_KEYWORD) else (if n = 123 then CRC32C else NOT_A_KEYWORD)))) else (if n < 127 then
(if n < 125 then (if n = 124 then CREATE else NOT_A_KEYWORD) else (if n < 126 then (if n = 125 then
CROSS else NOT_A_KEYWORD) else (if n = 126 then CUBE else NOT_A_KEYWORD))) else (if n < 129 then (if
n < 128 then (if n = 127 then CURDATE else NOT_A_KEYWORD) else (if n = 128 then CURRENT else
NOT_A_KEYWORD)) else (if n < 130 then (if n = 129 then CURRENT_DATE else NOT_A_KEYWORD) else (if n =
130 then CURRENT_POS else NOT_A_KEYWORD)))))) else (if n < 144 then (if n < 137 then (if n < 134 then
(if n < 132 then (if n = 131 then CURRENT_ROLE else NOT_A_KEYWORD) else (if n < 133 then (if n = 132
then CURRENT_TIME else NOT_A_KEYWORD) else (if n = 133 then CURRENT_TIMESTAMP else NOT_A_KEYWORD)))
else (if n < 135 then (if n = 134 then CURRENT_USER else NOT_A_KEYWORD) else (if n < 136 then (if n =
135 then CURSOR else NOT_A_KEYWORD) else (if n = 136 then CURSOR_NAME else NOT_A_KEYWORD)))) else (if
n < 140 then (if n < 138 then (if n = 137 then CURTIME else NOT_A_KEYWORD) else (if n < 139 then (if
n = 138 then CYCLE else NOT_A_KEYWORD) else (if n = 139 then DATA else NOT_A_KEYWORD))) else (if n <
142 then (if n < 141 then (if n = 140 then DATABASE else NOT_A_KEYWORD) else (if n = 141 then
DATABASES else NOT_A_KEYWORD)) else (if n < 143 then (if n = 142 then DATAFILE else NOT_A_KEYWORD)
else (if n = 143 then DATE else NOT_A_KEYWORD))))) else (if n < 151 then (if n < 147 then (if n < 145
then (if n = 144 then DATE_ADD else NOT_A_KEYWORD) else (if n < 146 then (if n = 145 then DATE_FORMAT
else NOT_A_KEYWORD) else (if n = 146 then DATE_SUB else NOT_A_KEYWORD))) else (if n < 149 then (if n
< 148 then (if n = 147 then DATEDIFF else NOT_A_KEYWORD) else (if n = 148 then DATETIME else
NOT_A_KEYWORD)) else (if n < 150 then (if n = 149 then DAY else NOT_A_KEYWORD) else (if n = 150 then
DAY_HOUR else NOT_A_KEYWORD)))) else (if n < 154 then (if n < 152 then (if n = 151 then
DAY_MICROSECOND else NOT_A_KEYWORD) else (if n < 153 then (if n = 152 then DAY_MINUTE else
NOT_A_KEYWORD) else (if n = 153 then DAY_SECOND else NOT_A_KEYWORD))) else (if n < 156 then (if n <
155 then (if n = 154 then DAYNAME else NOT_A_KEYWORD) else (if n = 155 then DAYOFMONTH else
NOT_A_KEYWORD)) else (if n < 157 then (if n = 156 then DAYOFWEEK else NOT_A_KEYWORD) else (if n = 157
then DAYOFYEAR else NOT_A_KEYWORD))))))) else (if n < 184 then (if n < 171 then (if n < 164 then (if
n < 161 then (if n < 159 then (if n = 158 then DEALLOCATE else NOT_A_KEYWORD) else (if n < 160 then
(if n = 159 then DEC else NOT_A_KEYWORD) else (if n = 160 then DECIMAL else NOT_A_KEYWORD))) else (if
n < 162 then (if n = 161 then DECLARE else NOT_A_KEYWORD) else (if n < 163 then (if n = 162 then
DEFAULT else NOT_A_KEYWORD) else (if n = 163 then DEFINER else NOT_A_KEYWORD)))) else (if n < 167
then (if n < 165 then (if n = 164 then DEGREES else NOT_A_KEYWORD) else (if n < 166 then (if n = 165
then DELAY_KEY_WRITE else NOT_A_KEYWORD) else (if n = 166 then DELAYED else NOT_A_KEYWORD))) else (if
n < 169 then (if n < 168 then (if n = 167 then DELETE else NOT_A_KEYWORD) else (if n = 168 then
DELETE_DOMAIN_ID else NOT_A_KEYWORD)) else (if n < 170 then (if n = 169 then DELIMITER else
NOT_A_KEYWORD) else (if n = 170 then DES_KEY_FILE else NOT_A_KEYWORD))))) else (if n < 177 then (if n
< 174 then (if n < 172 then (if n = 171 then DESC else NOT_A_KEYWORD) else (if n < 173 then (if n =
172 then DESCRIBE else NOT_A_KEYWORD) else (if n = 173 then DETERMINISTIC else NOT_A_KEYWORD))) else
(if n < 175 then (if n = 174 then DIAGNOSTICS else NOT_A_KEYWORD) else (if n < 176 then (if n = 175
then DIRECTORY else NOT_A_KEYWORD) else (if n = 176 then DISABLE else NOT_A_KEYWORD)))) else (if n <
180 then (if n < 178 then (if n = 177 then DISCARD else NOT_A_KEYWORD) else (if n < 179 then (if n =
178 then DISK else NOT_A_KEYWORD) else (if n = 179 then DISTINCT else NOT_A_KEYWORD))) else (if n <
182 then (if n < 181 then (if n = 180 then DISTINCTROW else NOT_A_KEYWORD) else (if n = 181 then DIV
else NOT_A_KEYWORD)) else (if n < 183 then (if n = 182 then DO else NOT_A_KEYWORD) else (if n = 183
then DO_DOMAIN_IDS else NOT_A_KEYWORD)))))) else (if n < 197 then (if n < 190 then (if n < 187 then
(if n < 185 then (if n = 184 then DOUBLE else NOT_A_KEYWORD) else (if n < 186 then (if n = 185 then
DROP else NOT_A_KEYWORD) else (if n = 186 then DUAL else NOT_A_KEYWORD))) else (if n < 188 then (if n
= 187 then DUMPFILE else NOT_A_KEYWORD) else (if n < 189 then (if n = 188 then DUPLICATE else
NOT_A_KEYWORD) else (if n = 189 then DYNAMIC else NOT_A_KEYWORD)))) else (if n < 193 then (if n < 191
then (if n = 190 then EACH else NOT_A_KEYWORD) else (if n < 192 then (if n = 191 then ELSE else
NOT_A_KEYWORD) else (if n = 192 then ELSEIF else NOT_A_KEYWORD))) else (if n < 195 then (if n < 194
then (if n = 193 then ELSIF else NOT_A_KEYWORD) else (if n = 194 then ELT else NOT_A_KEYWORD)) else
(if n < 196 then (if n = 195 then EMPTY else NOT_A_KEYWORD) else (if n = 196 then ENABLE else
NOT_A_KEYWORD))))) else (if n < 204 then (if n < 200 then (if n < 198 then (if n = 197 then ENCLOSED
else NOT_A_KEYWORD) else (if n < 199 then (if n = 198 then END else NOT_A_KEYWORD) else (if n = 199
then ENDS else NOT_A_KEYWORD))) else (if n < 202 then (if n < 201 then (if n = 200 then ENGINE else
NOT_A_KEYWORD) else (if n = 201 then ENGINES else NOT_A_KEYWORD)) else (if n < 203 then (if n = 202
then ENUM else NOT_A_KEYWORD) else (if n = 203 then ERROR else NOT_A_KEYWORD)))) else (if n < 207
then (if n < 205 then (if n = 204 then ERRORS else NOT_A_KEYWORD) else (if n < 206 then (if n = 205
then ESCAPE else NOT_A_KEYWORD) else (if n = 206 then ESCAPED else NOT_A_KEYWORD))) else (if n < 209
then (if n < 208 then (if n = 207 then EVENT else NOT_A_KEYWORD) else (if n = 208 then EVENTS else
NOT_A_KEYWORD)) else (if n < 210 then (if n = 209 then EVERY else NOT_A_KEYWORD) else (if n = 210
then EXAMINED else NOT_A_KEYWORD))))))))) else (if n < 317 then (if n < 264 then (if n < 237 then (if
n < 224 then (if n < 217 then (if n < 214 then (if n < 212 then (if n = 211 then EXCEPT else
NOT_A_KEYWORD) else (if n < 213 then (if n = 212 then EXCEPTION else NOT_A_KEYWORD) else (if n = 213
then EXCHANGE else NOT_A_KEYWORD))) else (if n < 215 then (if n = 214 then EXCLUDE else
NOT_A_KEYWORD) else (if n < 216 then (if n = 215 then EXECUTE else NOT_A_KEYWORD) else (if n = 216
then EXISTS else NOT_A_KEYWORD)))) else (if n < 220 then (if n < 218 then (if n = 217 then EXIT else
NOT_A_KEYWORD) else (if n < 219 then (if n = 218 then EXP else NOT_A_KEYWORD) else (if n = 219 then
EXPANSION else NOT_A_KEYWORD))) else (if n < 222 then (if n < 221 then (if n = 220 then EXPIRE else
NOT_A_KEYWORD) else (if n = 221 then EXPLAIN else NOT_A_KEYWORD)) else (if n < 223 then (if n = 222
then EXPORT else NOT_A_KEYWORD) else (if n = 223 then EXPORT_SET else NOT_A_KEYWORD))))) else (if n <
230 then (if n < 227 then (if n < 225 then (if n = 224 then EXTENDED else NOT_A_KEYWORD) else (if n <
226 then (if n = 225 then EXTENT_SIZE else NOT_A_KEYWORD) else (if n = 226 then EXTRACTVALUE else
NOT_A_KEYWORD))) else (if n < 228 then (if n = 227 then FALSE else NOT_A_KEYWORD) else (if n < 229
then (if n = 228 then FAST else NOT_A_KEYWORD) else (if n = 229 then FAULTS else NOT_A_KEYWORD))))
else (if n < 233 then (if n < 231 then (if n = 230 then FEDERATED else NOT_A_KEYWORD) else (if n <
232 then (if n = 231 then FETCH else NOT_A_KEYWORD) else (if n = 232 then FIELD else NOT_A_KEYWORD)))
else (if n < 235 then (if n < 234 then (if n = 233 then FIELDS else NOT_A_KEYWORD) else (if n = 234
then FILE else NOT_A_KEYWORD)) else (if n < 236 then (if n = 235 then FIND_IN_SET else NOT_A_KEYWORD)
else (if n = 236 then FIRST else NOT_A_KEYWORD)))))) else (if n < 250 then (if n < 243 then (if n <
240 then (if n < 238 then (if n = 237 then FIXED else NOT_A_KEYWORD) else (if n < 239 then (if n =
238 then FLOAT else NOT_A_KEYWORD) else (if n = 239 then FLOAT4 else NOT_A_KEYWORD))) else (if n <
241 then (if n = 240 then FLOAT8 else NOT_A_KEYWORD) else (if n < 242 then (if n = 241 then FLOOR
else NOT_A_KEYWORD) else (if n = 242 then FLUSH else NOT_A_KEYWORD)))) else (if n < 246 then (if n <
244 then (if n = 243 then FOLLOWING else NOT_A_KEYWORD) else (if n < 245 then (if n = 244 then
FOLLOWS else NOT_A_KEYWORD) else (if n = 245 then FOR else NOT_A_KEYWORD))) else (if n < 248 then (if
n < 247 then (if n = 246 then FORCE else NOT_A_KEYWORD) else (if n = 247 then FOREIGN else
NOT_A_KEYWORD)) else (if n < 249 then (if n = 248 then FORMAT else NOT_A_KEYWORD) else (if n = 249
then FOUND else NOT_A_KEYWORD))))) else (if n < 257 then (if n < 253 then (if n < 251 then (if n =
250 then FROM else NOT_A_KEYWORD) else (if n < 252 then (if n = 251 then FROM_BASE64 else
NOT_A_KEYWORD) else (if n = 252 then FROM_DAYS else NOT_A_KEYWORD))) else (if n < 255 then (if n <
254 then (if n = 253 then FROM_UNIXTIME else NOT_A_KEYWORD) else (if n = 254 then FULL else
NOT_A_KEYWORD)) else (if n < 256 then (if n = 255 then FULLTEXT else NOT_A_KEYWORD) else (if n = 256
then FUNCTION else NOT_A_KEYWORD)))) else (if n < 260 then (if n < 258 then (if n = 257 then GENERAL
else NOT_A_KEYWORD) else (if n < 259 then (if n = 258 then GENERATED else NOT_A_KEYWORD) else (if n =
259 then GET else NOT_A_KEYWORD))) else (if n < 262 then (if n < 261 then (if n = 260 then GET_FORMAT
else NOT_A_KEYWORD) else (if n = 261 then GIST else NOT_A_KEYWORD)) else (if n < 263 then (if n = 262
then GLOBAL else NOT_A_KEYWORD) else (if n = 263 then GOTO else NOT_A_KEYWORD))))))) else (if n < 290
then (if n < 277 then (if n < 270 then (if n < 267 then (if n < 265 then (if n = 264 then GRANT else
NOT_A_KEYWORD) else (if n < 266 then (if n = 265 then GRANTS else NOT_A_KEYWORD) else (if n = 266
then GREATEST else NOT_A_KEYWORD))) else (if n < 268 then (if n = 267 then GROUP else NOT_A_KEYWORD)
else (if n < 269 then (if n = 268 then HANDLER else NOT_A_KEYWORD) else (if n = 269 then HARD else
NOT_A_KEYWORD)))) else (if n < 273 then (if n < 271 then (if n = 270 then HASH else NOT_A_KEYWORD)
else (if n < 272 then (if n = 271 then HAVING else NOT_A_KEYWORD) else (if n = 272 then HELP else
NOT_A_KEYWORD))) else (if n < 275 then (if n < 274 then (if n = 273 then HEX else NOT_A_KEYWORD) else
(if n = 274 then HIGH_PRIORITY else NOT_A_KEYWORD)) else (if n < 276 then (if n = 275 then HISTORY
else NOT_A_KEYWORD) else (if n = 276 then HOST else NOT_A_KEYWORD))))) else (if n < 283 then (if n <
280 then (if n < 278 then (if n = 277 then HOSTS else NOT_A_KEYWORD) else (if n < 279 then (if n =
278 then HOUR else NOT_A_KEYWORD) else (if n = 279 then HOUR_MICROSECOND else NOT_A_KEYWORD))) else
(if n < 281 then (if n = 280 then HOUR_MINUTE else NOT_A_KEYWORD) else (if n < 282 then (if n = 281
then HOUR_SECOND else NOT_A_KEYWORD) else (if n = 282 then ID else NOT_A_KEYWORD)))) else (if n < 286
then (if n < 284 then (if n = 283 then IDENTIFIED else NOT_A_KEYWORD) else (if n < 285 then (if n =
284 then IF else NOT_A_KEYWORD) else (if n = 285 then IFNULL else NOT_A_KEYWORD))) else (if n < 288
then (if n < 287 then (if n = 286 then IGNORE else NOT_A_KEYWORD) else (if n = 287 then
IGNORE_DOMAIN_IDS else NOT_A_KEYWORD)) else (if n < 289 then (if n = 288 then IGNORE_SERVER_IDS else
NOT_A_KEYWORD) else (if n = 289 then IGNORED else NOT_A_KEYWORD)))))) else (if n < 303 then (if n <
296 then (if n < 293 then (if n < 291 then (if n = 290 then IMMEDIATE else NOT_A_KEYWORD) else (if n
< 292 then (if n = 291 then IMPORT else NOT_A_KEYWORD) else (if n = 292 then IN else NOT_A_KEYWORD)))
else (if n < 294 then (if n = 293 then INCREMENT else NOT_A_KEYWORD) else (if n < 295 then (if n =
294 then INDEX else NOT_A_KEYWORD) else (if n = 295 then INDEXES else NOT_A_KEYWORD)))) else (if n <
299 then (if n < 297 then (if n = 296 then INFILE else NOT_A_KEYWORD) else (if n < 298 then (if n =
297 then INITIAL_SIZE else NOT_A_KEYWORD) else (if n = 298 then INNER else NOT_A_KEYWORD))) else (if
n < 301 then (if n < 300 then (if n = 299 then INOUT else NOT_A_KEYWORD) else (if n = 300 then
INSENSITIVE else NOT_A_KEYWORD)) else (if n < 302 then (if n = 301 then INSERT else NOT_A_KEYWORD)
else (if n = 302 then INSERT_METHOD else NOT_A_KEYWORD))))) else (if n < 310 then (if n < 306 then
(if n < 304 then (if n = 303 then INSTALL else NOT_A_KEYWORD) else (if n < 305 then (if n = 304 then
INSTR else NOT_A_KEYWORD) else (if n = 305 then INT else NOT_A_KEYWORD))) else (if n < 308 then (if n
< 307 then (if n = 306 then INT1 else NOT_A_KEYWORD) else (if n = 307 then INT2 else NOT_A_KEYWORD))
else (if n < 309 then (if n = 308 then INT3 else NOT_A_KEYWORD) else (if n = 309 then INT4 else
NOT_A_KEYWORD)))) else (if n < 313 then (if n < 311 then (if n = 310 then INT8 else NOT_A_KEYWORD)
else (if n < 312 then (if n = 311 then INTEGER else NOT_A_KEYWORD) else (if n = 312 then INTERSECT
else NOT_A_KEYWORD))) else (if n < 315 then (if n < 314 then (if n = 313 then INTERSECTA else
NOT_A_KEYWORD) else (if n = 314 then INTERVAL else NOT_A_KEYWORD)) else (if n < 316 then (if n = 315
then INTO else NOT_A_KEYWORD) else (if n = 316 then INVISIBLE else NOT_A_KEYWORD)))))))) else (if n <
370 then (if n < 343 then (if n < 330 then (if n < 323 then (if n < 320 then (if n < 318 then (if n =
317 then INVOKER else NOT_A_KEYWORD) else (if n < 319 then (if n = 318 then IO_KW else NOT_A_KEYWORD)
else (if n = 319 then IO_THREAD else NOT_A_KEYWORD))) else (if n < 321 then (if n = 320 then IPC else
NOT_A_KEYWORD) else (if n < 322 then (if n = 321 then IS else NOT_A_KEYWORD) else (if n = 322 then
ISOLATION else NOT_A_KEYWORD)))) else (if n < 326 then (if n < 324 then (if n = 323 then ISOPEN else
NOT_A_KEYWORD) else (if n < 325 then (if n = 324 then ISSUER else NOT_A_KEYWORD) else (if n = 325
then ITERATE else NOT_A_KEYWORD))) else (if n < 328 then (if n < 327 then (if n = 326 then JOIN else
NOT_A_KEYWORD) else (if n = 327 then JSON else NOT_A_KEYWORD)) else (if n < 329 then (if n = 328 then
JSON_ARRAY else NOT_A_KEYWORD) else (if n = 329 then JSON_ARRAY_APPEND else NOT_A_KEYWORD))))) else
(if n < 336 then (if n < 333 then (if n < 331 then (if n = 330 then JSON_ARRAY_INSERT else
NOT_A_KEYWORD) else (if n < 332 then (if n = 331 then JSON_ARRAYAGG else NOT_A_KEYWORD) else (if n =
332 then JSON_COMPACT else NOT_A_KEYWORD))) else (if n < 334 then (if n = 333 then JSON_CONTAINS else
NOT_A_KEYWORD) else (if n < 335 then (if n = 334 then JSON_CONTAINS_PATH else NOT_A_KEYWORD) else (if
n = 335 then JSON_DEPTH else NOT_A_KEYWORD)))) else (if n < 339 then (if n < 337 then (if n = 336
then JSON_DETAILED else NOT_A_KEYWORD) else (if n < 338 then (if n = 337 then JSON_EQUALS else
NOT_A_KEYWORD) else (if n = 338 then JSON_EXISTS else NOT_A_KEYWORD))) else (if n < 341 then (if n <
340 then (if n = 339 then JSON_EXTRACT else NOT_A_KEYWORD) else (if n = 340 then JSON_INSERT else
NOT_A_KEYWORD)) else (if n < 342 then (if n = 341 then JSON_KEYS else NOT_A_KEYWORD) else (if n = 342
then JSON_LENGTH else NOT_A_KEYWORD)))))) else (if n < 356 then (if n < 349 then (if n < 346 then (if
n < 344 then (if n = 343 then JSON_LOOSE else NOT_A_KEYWORD) else (if n < 345 then (if n = 344 then
JSON_MERGE else NOT_A_KEYWORD) else (if n = 345 then JSON_MERGE_PATCH else NOT_A_KEYWORD))) else (if
n < 347 then (if n = 346 then JSON_MERGE_PRESERVE else NOT_A_KEYWORD) else (if n < 348 then (if n =
347 then JSON_NORMALIZE else NOT_A_KEYWORD) else (if n = 348 then JSON_OBJECT else NOT_A_KEYWORD))))
else (if n < 352 then (if n < 350 then (if n = 349 then JSON_OBJECTAGG else NOT_A_KEYWORD) else (if n
< 351 then (if n = 350 then JSON_QUERY else NOT_A_KEYWORD) else (if n = 351 then JSON_QUOTE else
NOT_A_KEYWORD))) else (if n < 354 then (if n < 353 then (if n = 352 then JSON_REMOVE else
NOT_A_KEYWORD) else (if n = 353 then JSON_REPLACE else NOT_A_KEYWORD)) else (if n < 355 then (if n =
354 then JSON_SEARCH else NOT_A_KEYWORD) else (if n = 355 then JSON_SET else NOT_A_KEYWORD))))) else
(if n < 363 then (if n < 359 then (if n < 357 then (if n = 356 then JSON_TABLE else NOT_A_KEYWORD)
else (if n < 358 then (if n = 357 then JSON_TYPE else NOT_A_KEYWORD) else (if n = 358 then
JSON_UNQUOTE else NOT_A_KEYWORD))) else (if n < 361 then (if n < 360 then (if n = 359 then JSON_VALID
else NOT_A_KEYWORD) else (if n = 360 then JSON_VALUE else NOT_A_KEYWORD)) else (if n < 362 then (if n
= 361 then KEY else NOT_A_KEYWORD) else (if n = 362 then KEY_BLOCK_SIZE else NOT_A_KEYWORD)))) else
(if n < 366 then (if n < 364 then (if n = 363 then KEYS else NOT_A_KEYWORD) else (if n < 365 then (if
n = 364 then KILL else NOT_A_KEYWORD) else (if n = 365 then LANGUAGE else NOT_A_KEYWORD))) else (if n
< 368 then (if n < 367 then (if n = 366 then LAST else NOT_A_KEYWORD) else (if n = 367 then
LAST_VALUE else NOT_A_KEYWORD)) else (if n < 369 then (if n = 368 then LASTVAL else NOT_A_KEYWORD)
else (if n = 369 then LCASE else NOT_A_KEYWORD))))))) else (if n < 396 then (if n < 383 then (if n <
376 then (if n < 373 then (if n < 371 then (if n = 370 then LEADING else NOT_A_KEYWORD) else (if n <
372 then (if n = 371 then LEAST else NOT_A_KEYWORD) else (if n = 372 then LEAVE else NOT_A_KEYWORD)))
else (if n < 374 then (if n = 373 then LEAVES else NOT_A_KEYWORD) else (if n < 375 then (if n = 374
then LEFT else NOT_A_KEYWORD) else (if n = 375 then LENGTH else NOT_A_KEYWORD)))) else (if n < 379
then (if n < 377 then (if n = 376 then LENGTHB else NOT_A_KEYWORD) else (if n < 378 then (if n = 377
then LESS else NOT_A_KEYWORD) else (if n = 378 then LEVEL else NOT_A_KEYWORD))) else (if n < 381 then
(if n < 380 then (if n = 379 then LIKE else NOT_A_KEYWORD) else (if n = 380 then LIMIT else
NOT_A_KEYWORD)) else (if n < 382 then (if n = 381 then LINEAR else NOT_A_KEYWORD) else (if n = 382
then LINES else NOT_A_KEYWORD))))) else (if n < 389 then (if n < 386 then (if n < 384 then (if n =
383 then LIST else NOT_A_KEYWORD) else (if n < 385 then (if n = 384 then LN else NOT_A_KEYWORD) else
(if n = 385 then LOAD else NOT_A_KEYWORD))) else (if n < 387 then (if n = 386 then LOAD_FILE else
NOT_A_KEYWORD) else (if n < 388 then (if n = 387 then LOCAL else NOT_A_KEYWORD) else (if n = 388 then
LOCALTIME else NOT_A_KEYWORD)))) else (if n < 392 then (if n < 390 then (if n = 389 then
LOCALTIMESTAMP else NOT_A_KEYWORD) else (if n < 391 then (if n = 390 then LOCATE else NOT_A_KEYWORD)
else (if n = 391 then LOCK else NOT_A_KEYWORD))) else (if n < 394 then (if n < 393 then (if n = 392
then LOCKED else NOT_A_KEYWORD) else (if n = 393 then LOCKS else NOT_A_KEYWORD)) else (if n < 395
then (if n = 394 then LOG else NOT_A_KEYWORD) else (if n = 395 then LOG10 else NOT_A_KEYWORD))))))
else (if n < 409 then (if n < 402 then (if n < 399 then (if n < 397 then (if n = 396 then LOG2 else
NOT_A_KEYWORD) else (if n < 398 then (if n = 397 then LOGFILE else NOT_A_KEYWORD) else (if n = 398
then LOGS else NOT_A_KEYWORD))) else (if n < 400 then (if n = 399 then LONG else NOT_A_KEYWORD) else
(if n < 401 then (if n = 400 then LONGBLOB else NOT_A_KEYWORD) else (if n = 401 then LONGTEXT else
NOT_A_KEYWORD)))) else (if n < 405 then (if n < 403 then (if n = 402 then LOOP else NOT_A_KEYWORD)
else (if n < 404 then (if n = 403 then LOW_PRIORITY else NOT_A_KEYWORD) else (if n = 404 then LOWER
else NOT_A_KEYWORD))) else (if n < 407 then (if n < 406 then (if n = 405 then LPAD else
NOT_A_KEYWORD) else (if n = 406 then LTRIM else NOT_A_KEYWORD)) else (if n < 408 then (if n = 407
then MAKE_SET else NOT_A_KEYWORD) else (if n = 408 then MAKEDATE else NOT_A_KEYWORD))))) else (if n <
416 then (if n < 412 then (if n < 410 then (if n = 409 then MAKETIME else NOT_A_KEYWORD) else (if n <
411 then (if n = 410 then MASTER else NOT_A_KEYWORD) else (if n = 411 then MASTER_CONNECT_RETRY else
NOT_A_KEYWORD))) else (if n < 414 then (if n < 413 then (if n = 412 then MASTER_DELAY else
NOT_A_KEYWORD) else (if n = 413 then MASTER_GTID_POS else NOT_A_KEYWORD)) else (if n < 415 then (if n
= 414 then MASTER_HEARTBEAT_PERIOD else NOT_A_KEYWORD) else (if n = 415 then MASTER_HOST else
NOT_A_KEYWORD)))) else (if n < 419 then (if n < 417 then (if n = 416 then MASTER_LOG_FILE else
NOT_A_KEYWORD) else (if n < 418 then (if n = 417 then MASTER_LOG_POS else NOT_A_KEYWORD) else (if n =
418 then MASTER_PASSWORD else NOT_A_KEYWORD))) else (if n < 421 then (if n < 420 then (if n = 419
then MASTER_PORT else NOT_A_KEYWORD) else (if n = 420 then MASTER_SERVER_ID else NOT_A_KEYWORD)) else
(if n < 422 then (if n = 421 then MASTER_SSL else NOT_A_KEYWORD) else (if n = 422 then MASTER_SSL_CA
else NOT_A_KEYWORD)))))))))) else (if n < 634 then (if n < 528 then (if n < 475 then (if n < 449 then
(if n < 436 then (if n < 429 then (if n < 426 then (if n < 424 then (if n = 423 then
MASTER_SSL_CAPATH else NOT_A_KEYWORD) else (if n < 425 then (if n = 424 then MASTER_SSL_CERT else
NOT_A_KEYWORD) else (if n = 425 then MASTER_SSL_CIPHER else NOT_A_KEYWORD))) else (if n < 427 then
(if n = 426 then MASTER_SSL_CRL else NOT_A_KEYWORD) else (if n < 428 then (if n = 427 then
MASTER_SSL_CRLPATH else NOT_A_KEYWORD) else (if n = 428 then MASTER_SSL_KEY else NOT_A_KEYWORD))))
else (if n < 432 then (if n < 430 then (if n = 429 then MASTER_SSL_VERIFY_SERVER_CERT else
NOT_A_KEYWORD) else (if n < 431 then (if n = 430 then MASTER_USE_GTID else NOT_A_KEYWORD) else (if n
= 431 then MASTER_USER else NOT_A_KEYWORD))) else (if n < 434 then (if n < 433 then (if n = 432 then
MATCH else NOT_A_KEYWORD) else (if n = 433 then MAX else NOT_A_KEYWORD)) else (if n < 435 then (if n
= 434 then MAX_CONNECTIONS_PER_HOUR else NOT_A_KEYWORD) else (if n = 435 then MAX_QUERIES_PER_HOUR
else NOT_A_KEYWORD))))) else (if n < 442 then (if n < 439 then (if n < 437 then (if n = 436 then
MAX_ROWS else NOT_A_KEYWORD) else (if n < 438 then (if n = 437 then MAX_SIZE else NOT_A_KEYWORD) else
(if n = 438 then MAX_STATEMENT_TIME else NOT_A_KEYWORD))) else (if n < 440 then (if n = 439 then
MAX_UPDATES_PER_HOUR else NOT_A_KEYWORD) else (if n < 441 then (if n = 440 then MAX_USER_CONNECTIONS
else NOT_A_KEYWORD) else (if n = 441 then MAXVALUE else NOT_A_KEYWORD)))) else (if n < 445 then (if n
< 443 then (if n = 442 then MEDIUM else NOT_A_KEYWORD) else (if n < 444 then (if n = 443 then
MEDIUMBLOB else NOT_A_KEYWORD) else (if n = 444 then MEDIUMINT else NOT_A_KEYWORD))) else (if n < 447
then (if n < 446 then (if n = 445 then MEDIUMTEXT else NOT_A_KEYWORD) else (if n = 446 then MEMORY
else NOT_A_KEYWORD)) else (if n < 448 then (if n = 447 then MERGE else NOT_A_KEYWORD) else (if n =
448 then MESSAGE_TEXT else NOT_A_KEYWORD)))))) else (if n < 462 then (if n < 455 then (if n < 452
then (if n < 450 then (if n = 449 then MICROSECOND else NOT_A_KEYWORD) else (if n < 451 then (if n =
450 then MID else NOT_A_KEYWORD) else (if n = 451 then MIDDLEINT else NOT_A_KEYWORD))) else (if n <
453 then (if n = 452 then MIGRATE else NOT_A_KEYWORD) else (if n < 454 then (if n = 453 then MIN else
NOT_A_KEYWORD) else (if n = 454 then MIN_ROWS else NOT_A_KEYWORD)))) else (if n < 458 then (if n <
456 then (if n = 455 then MINUS else NOT_A_KEYWORD) else (if n < 457 then (if n = 456 then MINUTE
else NOT_A_KEYWORD) else (if n = 457 then MINUTE_MICROSECOND else NOT_A_KEYWORD))) else (if n < 460
then (if n < 459 then (if n = 458 then MINUTE_SECOND else NOT_A_KEYWORD) else (if n = 459 then
MINVALUE else NOT_A_KEYWORD)) else (if n < 461 then (if n = 460 then MOD else NOT_A_KEYWORD) else (if
n = 461 then MODE else NOT_A_KEYWORD))))) else (if n < 468 then (if n < 465 then (if n < 463 then (if
n = 462 then MODIFIES else NOT_A_KEYWORD) else (if n < 464 then (if n = 463 then MODIFY else
NOT_A_KEYWORD) else (if n = 464 then MONITOR else NOT_A_KEYWORD))) else (if n < 466 then (if n = 465
then MONTH else NOT_A_KEYWORD) else (if n < 467 then (if n = 466 then MONTHNAME else NOT_A_KEYWORD)
else (if n = 467 then MUTEX else NOT_A_KEYWORD)))) else (if n < 471 then (if n < 469 then (if n = 468
then MYSQL else NOT_A_KEYWORD) else (if n < 470 then (if n = 469 then MYSQL_ERRNO else NOT_A_KEYWORD)
else (if n = 470 then NAME else NOT_A_KEYWORD))) else (if n < 473 then (if n < 472 then (if n = 471
then NAMES else NOT_A_KEYWORD) else (if n = 472 then NATIONAL else NOT_A_KEYWORD)) else (if n < 474
then (if n = 473 then NATURAL else NOT_A_KEYWORD) else (if n = 474 then NATURAL_SORT_KEY else
NOT_A_KEYWORD))))))) else (if n < 501 then (if n < 488 then (if n < 481 then (if n < 478 then (if n <
476 then (if n = 475 then NCHAR else NOT_A_KEYWORD) else (if n < 477 then (if n = 476 then NESTED
else NOT_A_KEYWORD) else (if n = 477 then NEVER else NOT_A_KEYWORD))) else (if n < 479 then (if n =
478 then NEW else NOT_A_KEYWORD) else (if n < 480 then (if n = 479 then NEXT else NOT_A_KEYWORD) else
(if n = 480 then NEXTVAL else NOT_A_KEYWORD)))) else (if n < 484 then (if n < 482 then (if n = 481
then NO else NOT_A_KEYWORD) else (if n < 483 then (if n = 482 then NO_WAIT else NOT_A_KEYWORD) else
(if n = 483 then NO_WRITE_TO_BINLOG else NOT_A_KEYWORD))) else (if n < 486 then (if n < 485 then (if
n = 484 then NOCACHE else NOT_A_KEYWORD) else (if n = 485 then NOCYCLE else NOT_A_KEYWORD)) else (if
n < 487 then (if n = 486 then NODEGROUP else NOT_A_KEYWORD) else (if n = 487 then NOMAXVALUE else
NOT_A_KEYWORD))))) else (if n < 494 then (if n < 491 then (if n < 489 then (if n = 488 then
NOMINVALUE else NOT_A_KEYWORD) else (if n < 490 then (if n = 489 then NONE else NOT_A_KEYWORD) else
(if n = 490 then NOT else NOT_A_KEYWORD))) else (if n < 492 then (if n = 491 then NOTFOUND else
NOT_A_KEYWORD) else (if n < 493 then (if n = 492 then NOW else NOT_A_KEYWORD) else (if n = 493 then
NOWAIT else NOT_A_KEYWORD)))) else (if n < 497 then (if n < 495 then (if n = 494 then NULL else
NOT_A_KEYWORD) else (if n < 496 then (if n = 495 then NULLIF else NOT_A_KEYWORD) else (if n = 496
then NUMBER else NOT_A_KEYWORD))) else (if n < 499 then (if n < 498 then (if n = 497 then NUMERIC
else NOT_A_KEYWORD) else (if n = 498 then NVARCHAR else NOT_A_KEYWORD)) else (if n < 500 then (if n =
499 then NVL else NOT_A_KEYWORD) else (if n = 500 then NVL2 else NOT_A_KEYWORD)))))) else (if n < 514
then (if n < 507 then (if n < 504 then (if n < 502 then (if n = 501 then OCT else NOT_A_KEYWORD) else
(if n < 503 then (if n = 502 then OCTET_LENGTH else NOT_A_KEYWORD) else (if n = 503 then OF else
NOT_A_KEYWORD))) else (if n < 505 then (if n = 504 then OFFSET else NOT_A_KEYWORD) else (if n < 506
then (if n = 505 then OLD_PASSWORD else NOT_A_KEYWORD) else (if n = 506 then ON else
NOT_A_KEYWORD)))) else (if n < 510 then (if n < 508 then (if n = 507 then ONE else NOT_A_KEYWORD)
else (if n < 509 then (if n = 508 then ONLINE else NOT_A_KEYWORD) else (if n = 509 then ONLY else
NOT_A_KEYWORD))) else (if n < 512 then (if n < 511 then (if n = 510 then OPEN else NOT_A_KEYWORD)
else (if n = 511 then OPTIMIZE else NOT_A_KEYWORD)) else (if n < 513 then (if n = 512 then OPTION
else NOT_A_KEYWORD) else (if n = 513 then OPTIONALLY else NOT_A_KEYWORD))))) else (if n < 521 then
(if n < 517 then (if n < 515 then (if n = 514 then OPTIONS else NOT_A_KEYWORD) else (if n < 516 then
(if n = 515 then OR else NOT_A_KEYWORD) else (if n = 516 then ORD else NOT_A_KEYWORD))) else (if n <
519 then (if n < 518 then (if n = 517 then ORDER else NOT_A_KEYWORD) else (if n = 518 then ORDINALITY
else NOT_A_KEYWORD)) else (if n < 520 then (if n = 519 then OTHERS else NOT_A_KEYWORD) else (if n =
520 then OUT else NOT_A_KEYWORD)))) else (if n < 524 then (if n < 522 then (if n = 521 then OUTER
else NOT_A_KEYWORD) else (if n < 523 then (if n = 522 then OUTFILE else NOT_A_KEYWORD) else (if n =
523 then OVER else NOT_A_KEYWORD))) else (if n < 526 then (if n < 525 then (if n = 524 then OVERLAPS
else NOT_A_KEYWORD) else (if n = 525 then OWNER else NOT_A_KEYWORD)) else (if n < 527 then (if n =
526 then PACK_KEYS else NOT_A_KEYWORD) else (if n = 527 then PACKAGE else NOT_A_KEYWORD)))))))) else
(if n < 581 then (if n < 554 then (if n < 541 then (if n < 534 then (if n < 531 then (if n < 529 then
(if n = 528 then PAGE else NOT_A_KEYWORD) else (if n < 530 then (if n = 529 then PAGE_CHECKSUM else
NOT_A_KEYWORD) else (if n = 530 then PARSE_VCOL_EXPR else NOT_A_KEYWORD))) else (if n < 532 then (if
n = 531 then PARSER else NOT_A_KEYWORD) else (if n < 533 then (if n = 532 then PARTIAL else
NOT_A_KEYWORD) else (if n = 533 then PARTITION else NOT_A_KEYWORD)))) else (if n < 537 then (if n <
535 then (if n = 534 then PARTITIONING else NOT_A_KEYWORD) else (if n < 536 then (if n = 535 then
PARTITIONS else NOT_A_KEYWORD) else (if n = 536 then PASSWORD else NOT_A_KEYWORD))) else (if n < 539
then (if n < 538 then (if n = 537 then PATH else NOT_A_KEYWORD) else (if n = 538 then PERIOD else
NOT_A_KEYWORD)) else (if n < 540 then (if n = 539 then PERIOD_ADD else NOT_A_KEYWORD) else (if n =
540 then PERIOD_DIFF else NOT_A_KEYWORD))))) else (if n < 547 then (if n < 544 then (if n < 542 then
(if n = 541 then PERSISTENT else NOT_A_KEYWORD) else (if n < 543 then (if n = 542 then PHASE else
NOT_A_KEYWORD) else (if n = 543 then PI else NOT_A_KEYWORD))) else (if n < 545 then (if n = 544 then
PLUGIN else NOT_A_KEYWORD) else (if n < 546 then (if n = 545 then PLUGINS else NOT_A_KEYWORD) else
(if n = 546 then PORT else NOT_A_KEYWORD)))) else (if n < 550 then (if n < 548 then (if n = 547 then
PORTION else NOT_A_KEYWORD) else (if n < 549 then (if n = 548 then POSITION else NOT_A_KEYWORD) else
(if n = 549 then POW else NOT_A_KEYWORD))) else (if n < 552 then (if n < 551 then (if n = 550 then
POWER else NOT_A_KEYWORD) else (if n = 551 then PRECEDES else NOT_A_KEYWORD)) else (if n < 553 then
(if n = 552 then PRECEDING else NOT_A_KEYWORD) else (if n = 553 then PRECISION else
NOT_A_KEYWORD)))))) else (if n < 567 then (if n < 560 then (if n < 557 then (if n < 555 then (if n =
554 then PREPARE else NOT_A_KEYWORD) else (if n < 556 then (if n = 555 then PRESERVE else
NOT_A_KEYWORD) else (if n = 556 then PREV else NOT_A_KEYWORD))) else (if n < 558 then (if n = 557
then PREVIOUS else NOT_A_KEYWORD) else (if n < 559 then (if n = 558 then PRIMARY else NOT_A_KEYWORD)
else (if n = 559 then PRIVILEGES else NOT_A_KEYWORD)))) else (if n < 563 then (if n < 561 then (if n
= 560 then PROCEDURE else NOT_A_KEYWORD) else (if n < 562 then (if n = 561 then PROCESS else
NOT_A_KEYWORD) else (if n = 562 then PROCESSLIST else NOT_A_KEYWORD))) else (if n < 565 then (if n <
564 then (if n = 563 then PROFILE else NOT_A_KEYWORD) else (if n = 564 then PROFILES else
NOT_A_KEYWORD)) else (if n < 566 then (if n = 565 then PROXY else NOT_A_KEYWORD) else (if n = 566
then PURGE else NOT_A_KEYWORD))))) else (if n < 574 then (if n < 570 then (if n < 568 then (if n =
567 then QUARTER else NOT_A_KEYWORD) else (if n < 569 then (if n = 568 then QUERY else NOT_A_KEYWORD)
else (if n = 569 then QUICK else NOT_A_KEYWORD))) else (if n < 572 then (if n < 571 then (if n = 570
then QUOTE else NOT_A_KEYWORD) else (if n = 571 then RADIANS else NOT_A_KEYWORD)) else (if n < 573
then (if n = 572 then RAISE else NOT_A_KEYWORD) else (if n = 573 then RAND else NOT_A_KEYWORD))))
else (if n < 577 then (if n < 575 then (if n = 574 then RANGE else NOT_A_KEYWORD) else (if n < 576
then (if n = 575 then RAW else NOT_A_KEYWORD) else (if n = 576 then READ else NOT_A_KEYWORD))) else
(if n < 579 then (if n < 578 then (if n = 577 then READ_ONLY else NOT_A_KEYWORD) else (if n = 578
then READ_WRITE else NOT_A_KEYWORD)) else (if n < 580 then (if n = 579 then READS else NOT_A_KEYWORD)
else (if n = 580 then REAL else NOT_A_KEYWORD))))))) else (if n < 607 then (if n < 594 then (if n <
587 then (if n < 584 then (if n < 582 then (if n = 581 then REBUILD else NOT_A_KEYWORD) else (if n <
583 then (if n = 582 then RECOVER else NOT_A_KEYWORD) else (if n = 583 then RECURSIVE else
NOT_A_KEYWORD))) else (if n < 585 then (if n = 584 then REDO_BUFFER_SIZE else NOT_A_KEYWORD) else (if
n < 586 then (if n = 585 then REDOFILE else NOT_A_KEYWORD) else (if n = 586 then REDUNDANT else
NOT_A_KEYWORD)))) else (if n < 590 then (if n < 588 then (if n = 587 then REF_SYSTEM_ID else
NOT_A_KEYWORD) else (if n < 589 then (if n = 588 then REFERENCES else NOT_A_KEYWORD) else (if n = 589
then REGEXP else NOT_A_KEYWORD))) else (if n < 592 then (if n < 591 then (if n = 590 then RELAY else
NOT_A_KEYWORD) else (if n = 591 then RELAY_LOG_FILE else NOT_A_KEYWORD)) else (if n < 593 then (if n
= 592 then RELAY_LOG_POS else NOT_A_KEYWORD) else (if n = 593 then RELAY_THREAD else
NOT_A_KEYWORD))))) else (if n < 600 then (if n < 597 then (if n < 595 then (if n = 594 then RELAYLOG
else NOT_A_KEYWORD) else (if n < 596 then (if n = 595 then RELEASE else NOT_A_KEYWORD) else (if n =
596 then RELOAD else NOT_A_KEYWORD))) else (if n < 598 then (if n = 597 then REMOVE else
NOT_A_KEYWORD) else (if n < 599 then (if n = 598 then RENAME else NOT_A_KEYWORD) else (if n = 599
then REORGANIZE else NOT_A_KEYWORD)))) else (if n < 603 then (if n < 601 then (if n = 600 then REPAIR
else NOT_A_KEYWORD) else (if n < 602 then (if n = 601 then REPEAT else NOT_A_KEYWORD) else (if n =
602 then REPEATABLE else NOT_A_KEYWORD))) else (if n < 605 then (if n < 604 then (if n = 603 then
REPLACE else NOT_A_KEYWORD) else (if n = 604 then REPLAY else NOT_A_KEYWORD)) else (if n < 606 then
(if n = 605 then REPLICA else NOT_A_KEYWORD) else (if n = 606 then REPLICA_POS else
NOT_A_KEYWORD)))))) else (if n < 620 then (if n < 613 then (if n < 610 then (if n < 608 then (if n =
607 then REPLICAS else NOT_A_KEYWORD) else (if n < 609 then (if n = 608 then REPLICATION else
NOT_A_KEYWORD) else (if n = 609 then REQUIRE else NOT_A_KEYWORD))) else (if n < 611 then (if n = 610
then RESET else NOT_A_KEYWORD) else (if n < 612 then (if n = 611 then RESIGNAL else NOT_A_KEYWORD)
else (if n = 612 then RESTART else NOT_A_KEYWORD)))) else (if n < 616 then (if n < 614 then (if n =
613 then RESTORE else NOT_A_KEYWORD) else (if n < 615 then (if n = 614 then RESTRICT else
NOT_A_KEYWORD) else (if n = 615 then RESUME else NOT_A_KEYWORD))) else (if n < 618 then (if n < 617
then (if n = 616 then RETURN else NOT_A_KEYWORD) else (if n = 617 then RETURNED_SQLSTATE else
NOT_A_KEYWORD)) else (if n < 619 then (if n = 618 then RETURNING else NOT_A_KEYWORD) else (if n = 619
then RETURNS else NOT_A_KEYWORD))))) else (if n < 627 then (if n < 623 then (if n < 621 then (if n =
620 then REUSE else NOT_A_KEYWORD) else (if n < 622 then (if n = 621 then REVERSE else NOT_A_KEYWORD)
else (if n = 622 then REVOKE else NOT_A_KEYWORD))) else (if n < 625 then (if n < 624 then (if n = 623
then RIGHT else NOT_A_KEYWORD) else (if n = 624 then RLIKE else NOT_A_KEYWORD)) else (if n < 626 then
(if n = 625 then ROLE else NOT_A_KEYWORD) else (if n = 626 then ROLLBACK else NOT_A_KEYWORD)))) else
(if n < 630 then (if n < 628 then (if n = 627 then ROLLUP else NOT_A_KEYWORD) else (if n < 629 then
(if n = 628 then ROUND else NOT_A_KEYWORD) else (if n = 629 then ROUTINE else NOT_A_KEYWORD))) else
(if n < 632 then (if n < 631 then (if n = 630 then ROW else NOT_A_KEYWORD) else (if n = 631 then
ROW_COUNT else NOT_A_KEYWORD)) else (if n < 633 then (if n = 632 then ROW_FORMAT else NOT_A_KEYWORD)
else (if n = 633 then ROWCOUNT else NOT_A_KEYWORD))))))))) else (if n < 740 then (if n < 687 then (if
n < 660 then (if n < 647 then (if n < 640 then (if n < 637 then (if n < 635 then (if n = 634 then
ROWNUM else NOT_A_KEYWORD) else (if n < 636 then (if n = 635 then ROWS else NOT_A_KEYWORD) else (if n
= 636 then ROWTYPE else NOT_A_KEYWORD))) else (if n < 638 then (if n = 637 then RPAD else
NOT_A_KEYWORD) else (if n < 639 then (if n = 638 then RTREE else NOT_A_KEYWORD) else (if n = 639 then
RTRIM else NOT_A_KEYWORD)))) else (if n < 643 then (if n < 641 then (if n = 640 then SAVEPOINT else
NOT_A_KEYWORD) else (if n < 642 then (if n = 641 then SCHEDULE else NOT_A_KEYWORD) else (if n = 642
then SCHEMA else NOT_A_KEYWORD))) else (if n < 645 then (if n < 644 then (if n = 643 then SCHEMA_NAME
else NOT_A_KEYWORD) else (if n = 644 then SCHEMAS else NOT_A_KEYWORD)) else (if n < 646 then (if n =
645 then SEC_TO_TIME else NOT_A_KEYWORD) else (if n = 646 then SECOND else NOT_A_KEYWORD))))) else
(if n < 653 then (if n < 650 then (if n < 648 then (if n = 647 then SECOND_MICROSECOND else
NOT_A_KEYWORD) else (if n < 649 then (if n = 648 then SECURITY else NOT_A_KEYWORD) else (if n = 649
then SELECT else NOT_A_KEYWORD))) else (if n < 651 then (if n = 650 then SENSITIVE else
NOT_A_KEYWORD) else (if n < 652 then (if n = 651 then SEPARATOR else NOT_A_KEYWORD) else (if n = 652
then SEQUENCE else NOT_A_KEYWORD)))) else (if n < 656 then (if n < 654 then (if n = 653 then SERIAL
else NOT_A_KEYWORD) else (if n < 655 then (if n = 654 then SERIALIZABLE else NOT_A_KEYWORD) else (if
n = 655 then SERVER else NOT_A_KEYWORD))) else (if n < 658 then (if n < 657 then (if n = 656 then
SESSION else NOT_A_KEYWORD) else (if n = 657 then SET else NOT_A_KEYWORD)) else (if n < 659 then (if
n = 658 then SETVAL else NOT_A_KEYWORD) else (if n = 659 then SFORMAT else NOT_A_KEYWORD)))))) else
(if n < 673 then (if n < 666 then (if n < 663 then (if n < 661 then (if n = 660 then SHARE else
NOT_A_KEYWORD) else (if n < 662 then (if n = 661 then SHOW else NOT_A_KEYWORD) else (if n = 662 then
SHUTDOWN else NOT_A_KEYWORD))) else (if n < 664 then (if n = 663 then SIGN else NOT_A_KEYWORD) else
(if n < 665 then (if n = 664 then SIGNAL else NOT_A_KEYWORD) else (if n = 665 then SIGNED else
NOT_A_KEYWORD)))) else (if n < 669 then (if n < 667 then (if n = 666 then SIMPLE else NOT_A_KEYWORD)
else (if n < 668 then (if n = 667 then SIN else NOT_A_KEYWORD) else (if n = 668 then SKIP else
NOT_A_KEYWORD))) else (if n < 671 then (if n < 670 then (if n = 669 then SLAVE else NOT_A_KEYWORD)
else (if n = 670 then SLAVE_POS else NOT_A_KEYWORD)) else (if n < 672 then (if n = 671 then SLAVES
else NOT_A_KEYWORD) else (if n = 672 then SLOW else NOT_A_KEYWORD))))) else (if n < 680 then (if n <
676 then (if n < 674 then (if n = 673 then SMALLINT else NOT_A_KEYWORD) else (if n < 675 then (if n =
674 then SNAPSHOT else NOT_A_KEYWORD) else (if n = 675 then SOCKET else NOT_A_KEYWORD))) else (if n <
678 then (if n < 677 then (if n = 676 then SOFT else NOT_A_KEYWORD) else (if n = 677 then SOME else
NOT_A_KEYWORD)) else (if n < 679 then (if n = 678 then SONAME else NOT_A_KEYWORD) else (if n = 679
then SOUNDEX else NOT_A_KEYWORD)))) else (if n < 683 then (if n < 681 then (if n = 680 then SOUNDS
else NOT_A_KEYWORD) else (if n < 682 then (if n = 681 then SOURCE else NOT_A_KEYWORD) else (if n =
682 then SPACE else NOT_A_KEYWORD))) else (if n < 685 then (if n < 684 then (if n = 683 then SPATIAL
else NOT_A_KEYWORD) else (if n = 684 then SPECIFIC else NOT_A_KEYWORD)) else (if n < 686 then (if n =
685 then SQL else NOT_A_KEYWORD) else (if n = 686 then SQL_BIG_RESULT else NOT_A_KEYWORD))))))) else
(if n < 713 then (if n < 700 then (if n < 693 then (if n < 690 then (if n < 688 then (if n = 687 then
SQL_BUFFER_RESULT else NOT_A_KEYWORD) else (if n < 689 then (if n = 688 then SQL_CACHE else
NOT_A_KEYWORD) else (if n = 689 then SQL_CALC_FOUND_ROWS else NOT_A_KEYWORD))) else (if n < 691 then
(if n = 690 then SQL_NO_CACHE else NOT_A_KEYWORD) else (if n < 692 then (if n = 691 then
SQL_SMALL_RESULT else NOT_A_KEYWORD) else (if n = 692 then SQL_THREAD else NOT_A_KEYWORD)))) else (if
n < 696 then (if n < 694 then (if n = 693 then SQL_TSI_DAY else NOT_A_KEYWORD) else (if n < 695 then
(if n = 694 then SQL_TSI_HOUR else NOT_A_KEYWORD) else (if n = 695 then SQL_TSI_MINUTE else
NOT_A_KEYWORD))) else (if n < 698 then (if n < 697 then (if n = 696 then SQL_TSI_MONTH else
NOT_A_KEYWORD) else (if n = 697 then SQL_TSI_QUARTER else NOT_A_KEYWORD)) else (if n < 699 then (if n
= 698 then SQL_TSI_SECOND else NOT_A_KEYWORD) else (if n = 699 then SQL_TSI_WEEK else
NOT_A_KEYWORD))))) else (if n < 706 then (if n < 703 then (if n < 701 then (if n = 700 then
SQL_TSI_YEAR else NOT_A_KEYWORD) else (if n < 702 then (if n = 701 then SQLEXCEPTION else
NOT_A_KEYWORD) else (if n = 702 then SQLSTATE else NOT_A_KEYWORD))) else (if n < 704 then (if n = 703
then SQLWARNING else NOT_A_KEYWORD) else (if n < 705 then (if n = 704 then SQRT else NOT_A_KEYWORD)
else (if n = 705 then SSL else NOT_A_KEYWORD)))) else (if n < 709 then (if n < 707 then (if n = 706
then STAGE else NOT_A_KEYWORD) else (if n < 708 then (if n = 707 then START else NOT_A_KEYWORD) else
(if n = 708 then STARTING else NOT_A_KEYWORD))) else (if n < 711 then (if n < 710 then (if n = 709
then STARTS else NOT_A_KEYWORD) else (if n = 710 then STATEMENT else NOT_A_KEYWORD)) else (if n < 712
then (if n = 711 then STATS_AUTO_RECALC else NOT_A_KEYWORD) else (if n = 712 then STATS_PERSISTENT
else NOT_A_KEYWORD)))))) else (if n < 726 then (if n < 719 then (if n < 716 then (if n < 714 then (if
n = 713 then STATS_SAMPLE_PAGES else NOT_A_KEYWORD) else (if n < 715 then (if n = 714 then STATUS
else NOT_A_KEYWORD) else (if n = 715 then STDIN else NOT_A_KEYWORD))) else (if n < 717 then (if n =
716 then STOP else NOT_A_KEYWORD) else (if n < 718 then (if n = 717 then STORAGE else NOT_A_KEYWORD)
else (if n = 718 then STORED else NOT_A_KEYWORD)))) else (if n < 722 then (if n < 720 then (if n =
719 then STR_TO_DATE else NOT_A_KEYWORD) else (if n < 721 then (if n = 720 then STRAIGHT_JOIN else
NOT_A_KEYWORD) else (if n = 721 then STRCMP else NOT_A_KEYWORD))) else (if n < 724 then (if n < 723
then (if n = 722 then STRING else NOT_A_KEYWORD) else (if n = 723 then SUBCLASS_ORIGIN else
NOT_A_KEYWORD)) else (if n < 725 then (if n = 724 then SUBDATE else NOT_A_KEYWORD) else (if n = 725
then SUBJECT else NOT_A_KEYWORD))))) else (if n < 733 then (if n < 729 then (if n < 727 then (if n =
726 then SUBPARTITION else NOT_A_KEYWORD) else (if n < 728 then (if n = 727 then SUBPARTITIONS else
NOT_A_KEYWORD) else (if n = 728 then SUBSTR else NOT_A_KEYWORD))) else (if n < 731 then (if n < 730
then (if n = 729 then SUBSTRING else NOT_A_KEYWORD) else (if n = 730 then SUBSTRING_INDEX else
NOT_A_KEYWORD)) else (if n < 732 then (if n = 731 then SUBTIME else NOT_A_KEYWORD) else (if n = 732
then SUM else NOT_A_KEYWORD)))) else (if n < 736 then (if n < 734 then (if n = 733 then SUPER else
NOT_A_KEYWORD) else (if n < 735 then (if n = 734 then SUSPEND else NOT_A_KEYWORD) else (if n = 735
then SWAPS else NOT_A_KEYWORD))) else (if n < 738 then (if n < 737 then (if n = 736 then SWITCHES
else NOT_A_KEYWORD) else (if n = 737 then SYSDATE else NOT_A_KEYWORD)) else (if n < 739 then (if n =
738 then SYSTEM else NOT_A_KEYWORD) else (if n = 739 then SYSTEM_TIME else NOT_A_KEYWORD)))))))) else
(if n < 793 then (if n < 766 then (if n < 753 then (if n < 746 then (if n < 743 then (if n < 741 then
(if n = 740 then TABLE else NOT_A_KEYWORD) else (if n < 742 then (if n = 741 then TABLE_CHECKSUM else
NOT_A_KEYWORD) else (if n = 742 then TABLE_NAME else NOT_A_KEYWORD))) else (if n < 744 then (if n =
743 then TABLES else NOT_A_KEYWORD) else (if n < 745 then (if n = 744 then TABLESPACE else
NOT_A_KEYWORD) else (if n = 745 then TAN else NOT_A_KEYWORD)))) else (if n < 749 then (if n < 747
then (if n = 746 then TEMPORARY else NOT_A_KEYWORD) else (if n < 748 then (if n = 747 then TEMPTABLE
else NOT_A_KEYWORD) else (if n = 748 then TERMINATED else NOT_A_KEYWORD))) else (if n < 751 then (if
n < 750 then (if n = 749 then TEXT else NOT_A_KEYWORD) else (if n = 750 then THAN else
NOT_A_KEYWORD)) else (if n < 752 then (if n = 751 then THEN else NOT_A_KEYWORD) else (if n = 752 then
THREADS else NOT_A_KEYWORD))))) else (if n < 759 then (if n < 756 then (if n < 754 then (if n = 753
then TIES else NOT_A_KEYWORD) else (if n < 755 then (if n = 754 then TIME else NOT_A_KEYWORD) else
(if n = 755 then TIME_FORMAT else NOT_A_KEYWORD))) else (if n < 757 then (if n = 756 then TIME_TO_SEC
else NOT_A_KEYWORD) else (if n < 758 then (if n = 757 then TIMEDIFF else NOT_A_KEYWORD) else (if n =
758 then TIMESTAMP else NOT_A_KEYWORD)))) else (if n < 762 then (if n < 760 then (if n = 759 then
TIMESTAMPADD else NOT_A_KEYWORD) else (if n < 761 then (if n = 760 then TIMESTAMPDIFF else
NOT_A_KEYWORD) else (if n = 761 then TINYBLOB else NOT_A_KEYWORD))) else (if n < 764 then (if n < 763
then (if n = 762 then TINYINT else NOT_A_KEYWORD) else (if n = 763 then TINYTEXT else NOT_A_KEYWORD))
else (if n < 765 then (if n = 764 then TO else NOT_A_KEYWORD) else (if n = 765 then TO_BASE64 else
NOT_A_KEYWORD)))))) else (if n < 779 then (if n < 772 then (if n < 769 then (if n < 767 then (if n =
766 then TO_CHAR else NOT_A_KEYWORD) else (if n < 768 then (if n = 767 then TO_DAYS else
NOT_A_KEYWORD) else (if n = 768 then TO_SECONDS else NOT_A_KEYWORD))) else (if n < 770 then (if n =
769 then TRAILING else NOT_A_KEYWORD) else (if n < 771 then (if n = 770 then TRANSACTION else
NOT_A_KEYWORD) else (if n = 771 then TRANSACTIONAL else NOT_A_KEYWORD)))) else (if n < 775 then (if n
< 773 then (if n = 772 then TRIGGER else NOT_A_KEYWORD) else (if n < 774 then (if n = 773 then
TRIGGERS else NOT_A_KEYWORD) else (if n = 774 then TRUE else NOT_A_KEYWORD))) else (if n < 777 then
(if n < 776 then (if n = 775 then TRUNCATE else NOT_A_KEYWORD) else (if n = 776 then TYPE else
NOT_A_KEYWORD)) else (if n < 778 then (if n = 777 then TYPES else NOT_A_KEYWORD) else (if n = 778
then UCASE else NOT_A_KEYWORD))))) else (if n < 786 then (if n < 782 then (if n < 780 then (if n =
779 then UNBOUNDED else NOT_A_KEYWORD) else (if n < 781 then (if n = 780 then UNCOMMITTED else
NOT_A_KEYWORD) else (if n = 781 then UNCOMPRESSED_LENGTH else NOT_A_KEYWORD))) else (if n < 784 then
(if n < 783 then (if n = 782 then UNDEFINED else NOT_A_KEYWORD) else (if n = 783 then UNDO else
NOT_A_KEYWORD)) else (if n < 785 then (if n = 784 then UNDO_BUFFER_SIZE else NOT_A_KEYWORD) else (if
n = 785 then UNDOFILE else NOT_A_KEYWORD)))) else (if n < 789 then (if n < 787 then (if n = 786 then
UNHEX else NOT_A_KEYWORD) else (if n < 788 then (if n = 787 then UNICODE else NOT_A_KEYWORD) else (if
n = 788 then UNINSTALL else NOT_A_KEYWORD))) else (if n < 791 then (if n < 790 then (if n = 789 then
UNION else NOT_A_KEYWORD) else (if n = 790 then UNIQUE else NOT_A_KEYWORD)) else (if n < 792 then (if
n = 791 then UNIX_TIMESTAMP else NOT_A_KEYWORD) else (if n = 792 then UNKNOWN else
NOT_A_KEYWORD))))))) else (if n < 819 then (if n < 806 then (if n < 799 then (if n < 796 then (if n <
794 then (if n = 793 then UNLOCK else NOT_A_KEYWORD) else (if n < 795 then (if n = 794 then UNSIGNED
else NOT_A_KEYWORD) else (if n = 795 then UNTIL else NOT_A_KEYWORD))) else (if n < 797 then (if n =
796 then UPDATE else NOT_A_KEYWORD) else (if n < 798 then (if n = 797 then UPDATEXML else
NOT_A_KEYWORD) else (if n = 798 then UPGRADE else NOT_A_KEYWORD)))) else (if n < 802 then (if n < 800
then (if n = 799 then UPPER else NOT_A_KEYWORD) else (if n < 801 then (if n = 800 then USAGE else
NOT_A_KEYWORD) else (if n = 801 then USE else NOT_A_KEYWORD))) else (if n < 804 then (if n < 803 then
(if n = 802 then USE_FRM else NOT_A_KEYWORD) else (if n = 803 then USER else NOT_A_KEYWORD)) else (if
n < 805 then (if n = 804 then USER_RESOURCES else NOT_A_KEYWORD) else (if n = 805 then USING else
NOT_A_KEYWORD))))) else (if n < 812 then (if n < 809 then (if n < 807 then (if n = 806 then UTC_DATE
else NOT_A_KEYWORD) else (if n < 808 then (if n = 807 then UTC_TIME else NOT_A_KEYWORD) else (if n =
808 then UTC_TIMESTAMP else NOT_A_KEYWORD))) else (if n < 810 then (if n = 809 then VALUE else
NOT_A_KEYWORD) else (if n < 811 then (if n = 810 then VALUES else NOT_A_KEYWORD) else (if n = 811
then VARBINARY else NOT_A_KEYWORD)))) else (if n < 815 then (if n < 813 then (if n = 812 then VARCHAR
else NOT_A_KEYWORD) else (if n < 814 then (if n = 813 then VARCHAR2 else NOT_A_KEYWORD) else (if n =
814 then VARCHARACTER else NOT_A_KEYWORD))) else (if n < 817 then (if n < 816 then (if n = 815 then
VARIABLES else NOT_A_KEYWORD) else (if n = 816 then VARYING else NOT_A_KEYWORD)) else (if n < 818
then (if n = 817 then VERSIONING else NOT_A_KEYWORD) else (if n = 818 then VIA else
NOT_A_KEYWORD)))))) else (if n < 832 then (if n < 825 then (if n < 822 then (if n < 820 then (if n =
819 then VIEW else NOT_A_KEYWORD) else (if n < 821 then (if n = 820 then VIRTUAL else NOT_A_KEYWORD)
else (if n = 821 then VISIBLE else NOT_A_KEYWORD))) else (if n < 823 then (if n = 822 then WAIT else
NOT_A_KEYWORD) else (if n < 824 then (if n = 823 then WARNINGS else NOT_A_KEYWORD) else (if n = 824
then WEEK else NOT_A_KEYWORD)))) else (if n < 828 then (if n < 826 then (if n = 825 then WEEKDAY else
NOT_A_KEYWORD) else (if n < 827 then (if n = 826 then WEEKOFYEAR else NOT_A_KEYWORD) else (if n = 827
then WEIGHT_STRING else NOT_A_KEYWORD))) else (if n < 830 then (if n < 829 then (if n = 828 then WHEN
else NOT_A_KEYWORD) else (if n = 829 then WHERE else NOT_A_KEYWORD)) else (if n < 831 then (if n =
830 then WHILE else NOT_A_KEYWORD) else (if n = 831 then WINDOW else NOT_A_KEYWORD))))) else (if n <
839 then (if n < 835 then (if n < 833 then (if n = 832 then WITH else NOT_A_KEYWORD) else (if n < 834
then (if n = 833 then WITHIN else NOT_A_KEYWORD) else (if n = 834 then WITHOUT else NOT_A_KEYWORD)))
else (if n < 837 then (if n < 836 then (if n = 835 then WORK else NOT_A_KEYWORD) else (if n = 836
then WRAPPER else NOT_A_KEYWORD)) else (if n < 838 then (if n = 837 then WRITE else NOT_A_KEYWORD)
else (if n = 838 then X509 else NOT_A_KEYWORD)))) else (if n < 842 then (if n < 840 then (if n = 839
then XA else NOT_A_KEYWORD) else (if n < 841 then (if n = 840 then XML else NOT_A_KEYWORD) else (if n
= 841 then XOR else NOT_A_KEYWORD))) else (if n < 844 then (if n < 843 then (if n = 842 then YEAR
else NOT_A_KEYWORD) else (if n = 843 then YEAR_MONTH else NOT_A_KEYWORD)) else (if n < 845 then (if n
= 844 then ZEROFILL else NOT_A_KEYWORD) else (if n = 845 then ZONE else NOT_A_KEYWORD)))))))))))

/-- Auxiliary (proof infrastructure): base-256 code of a string; two strings with equal codes here are equal, which lets distinctness of keyword names be checked on natural numbers. -/
def stringCode (s : String) : Nat := s.data.foldl (fun a c => a * 256 + c.toNat) 0

/-- Auxiliary (proof infrastructure): maps the base-256 code of a keyword entry name back to the entry, as a balanced decision tree; fallback NOT_A_KEYWORD. -/
def codeInv : Nat -> Keyword := fun n =>
(if n < 20626074963690820 then (if n < 314846365010 then (if n < 1212240712 then (if n < 5197381 then
(if n < 4409426 then (if n < 20306 then (if n < 18766 then (if n < 17487 then (if n < 16724 then (if
n = 16723 then AS else NOT_A_KEYWORD) else (if n < 16985 then (if n = 16724 then AT else
NOT_A_KEYWORD) else (if n = 16985 then BY else NOT_A_KEYWORD))) else (if n < 18756 then (if n = 17487
then DO else NOT_A_KEYWORD) else (if n < 18758 then (if n = 18756 then ID else NOT_A_KEYWORD) else
(if n = 18758 then IF else NOT_A_KEYWORD)))) else (if n < 19534 then (if n < 18767 then (if n = 18766
then IN else NOT_A_KEYWORD) else (if n < 18771 then (if n = 18767 then IO_KW else NOT_A_KEYWORD) else
(if n = 18771 then IS else NOT_A_KEYWORD))) else (if n < 20294 then (if n < 20047 then (if n = 19534
then LN else NOT_A_KEYWORD) else (if n = 20047 then NO else NOT_A_KEYWORD)) else (if n < 20302 then
(if n = 20294 then OF else NOT_A_KEYWORD) else (if n = 20302 then ON else NOT_A_KEYWORD))))) else (if
n < 4279372 then (if n < 22593 then (if n < 20553 then (if n = 20306 then OR else NOT_A_KEYWORD) else
(if n < 21583 then (if n = 20553 then PI else NOT_A_KEYWORD) else (if n = 21583 then TO else
NOT_A_KEYWORD))) else (if n < 4276819 then (if n = 22593 then XA else NOT_A_KEYWORD) else (if n <
4277316 then (if n = 4276819 then ABS else NOT_A_KEYWORD) else (if n = 4277316 then ADD else
NOT_A_KEYWORD)))) else (if n < 4281155 then (if n < 4279876 then (if n = 4279372 then ALL else
NOT_A_KEYWORD) else (if n < 4279897 then (if n = 4279876 then AND else NOT_A_KEYWORD) else (if n =
4279897 then ANY else NOT_A_KEYWORD))) else (if n < 4344142 then (if n < 4281927 then (if n = 4281155
then ASC else NOT_A_KEYWORD) else (if n = 4281927 then AVG else NOT_A_KEYWORD)) else (if n < 4344148
then (if n = 4344142 then BIN else NOT_A_KEYWORD) else (if n = 4344148 then BIT else
NOT_A_KEYWORD)))))) else (if n < 4804180 then (if n < 4475222 then (if n < 4411477 then (if n <
4411219 then (if n = 4409426 then CHR else NOT_A_KEYWORD) else (if n < 4411220 then (if n = 4411219
then COS else NOT_A_KEYWORD) else (if n = 4411220 then COT else NOT_A_KEYWORD))) else (if n < 4473177
then (if n = 4411477 then CPU else NOT_A_KEYWORD) else (if n < 4474179 then (if n = 4473177 then DAY
else NOT_A_KEYWORD) else (if n = 4474179 then DEC else NOT_A_KEYWORD)))) else (if n < 4544592 then
(if n < 4541524 then (if n = 4475222 then DIV else NOT_A_KEYWORD) else (if n < 4542020 then (if n =
4541524 then ELT else NOT_A_KEYWORD) else (if n = 4542020 then END else NOT_A_KEYWORD))) else (if n <
4670804 then (if n < 4607826 then (if n = 4544592 then EXP else NOT_A_KEYWORD) else (if n = 4607826
then FOR else NOT_A_KEYWORD)) else (if n < 4736344 then (if n = 4670804 then GET else NOT_A_KEYWORD)
else (if n = 4736344 then HEX else NOT_A_KEYWORD))))) else (if n < 5065038 then (if n < 5001031 then
(if n < 4804675 then (if n = 4804180 then INT else NOT_A_KEYWORD) else (if n < 4932953 then (if n =
4804675 then IPC else NOT_A_KEYWORD) else (if n = 4932953 then KEY else NOT_A_KEYWORD))) else (if n <
5063000 then (if n = 5001031 then LOG else NOT_A_KEYWORD) else (if n < 5065028 then (if n = 5063000
then MAX else NOT_A_KEYWORD) else (if n = 5065028 then MID else NOT_A_KEYWORD)))) else (if n <
5132116 then (if n < 5066564 then (if n = 5065038 then MIN else NOT_A_KEYWORD) else (if n < 5129559
then (if n = 5066564 then MOD else NOT_A_KEYWORD) else (if n = 5129559 then NEW else NOT_A_KEYWORD)))
else (if n < 5133900 then (if n < 5132119 then (if n = 5132116 then NOT else NOT_A_KEYWORD) else (if
n = 5132119 then NOW else NOT_A_KEYWORD)) else (if n < 5194580 then (if n = 5133900 then NVL else
NOT_A_KEYWORD) else (if n = 5194580 then OCT else NOT_A_KEYWORD))))))) else (if n < 1128354629 then
(if n < 5654849 then (if n < 5457236 then (if n < 5263191 then (if n < 5198404 then (if n = 5197381
then ONE else NOT_A_KEYWORD) else (if n < 5199188 then (if n = 5198404 then ORD else NOT_A_KEYWORD)
else (if n = 5199188 then OUT else NOT_A_KEYWORD))) else (if n < 5390679 then (if n = 5263191 then
POW else NOT_A_KEYWORD) else (if n < 5394263 then (if n = 5390679 then RAW else NOT_A_KEYWORD) else
(if n = 5394263 then ROW else NOT_A_KEYWORD)))) else (if n < 5460812 then (if n < 5458254 then (if n
= 5457236 then SET else NOT_A_KEYWORD) else (if n < 5460300 then (if n = 5458254 then SIN else
NOT_A_KEYWORD) else (if n = 5460300 then SQL else NOT_A_KEYWORD))) else (if n < 5521742 then (if n <
5461325 then (if n = 5460812 then SSL else NOT_A_KEYWORD) else (if n = 5461325 then SUM else
NOT_A_KEYWORD)) else (if n < 5591877 then (if n = 5521742 then TAN else NOT_A_KEYWORD) else (if n =
5591877 then USE else NOT_A_KEYWORD))))) else (if n < 1096111183 then (if n < 1094930259 then (if n <
5786956 then (if n = 5654849 then VIA else NOT_A_KEYWORD) else (if n < 5787474 then (if n = 5786956
then XML else NOT_A_KEYWORD) else (if n = 5787474 then XOR else NOT_A_KEYWORD))) else (if n <
1095977294 then (if n = 1094930259 then ACOS else NOT_A_KEYWORD) else (if n < 1096040782 then (if n =
1095977294 then ASIN else NOT_A_KEYWORD) else (if n = 1096040782 then ATAN else NOT_A_KEYWORD))))
else (if n < 1112493900 then (if n < 1112297282 then (if n = 1096111183 then AUTO else NOT_A_KEYWORD)
else (if n < 1112491097 then (if n = 1112297282 then BLOB else NOT_A_KEYWORD) else (if n = 1112491097
then BODY else NOT_A_KEYWORD))) else (if n < 1113150533 then (if n < 1112495176 then (if n =
1112493900 then BOOL else NOT_A_KEYWORD) else (if n = 1112495176 then BOTH else NOT_A_KEYWORD)) else
(if n < 1128352844 then (if n = 1113150533 then BYTE else NOT_A_KEYWORD) else (if n = 1128352844 then
CALL else NOT_A_KEYWORD)))))) else (if n < 1146244944 then (if n < 1129270870 then (if n < 1128808786
then (if n < 1128354644 then (if n = 1128354629 then CASE else NOT_A_KEYWORD) else (if n < 1128614220
then (if n = 1128354644 then CAST else NOT_A_KEYWORD) else (if n = 1128614220 then CEIL else
NOT_A_KEYWORD))) else (if n < 1129074498 then (if n = 1128808786 then CHAR else NOT_A_KEYWORD) else
(if n < 1129268293 then (if n = 1129074498 then CLOB else NOT_A_KEYWORD) else (if n = 1129268293 then
CODE else NOT_A_KEYWORD)))) else (if n < 1145132097 then (if n < 1129271385 then (if n = 1129270870
then CONV else NOT_A_KEYWORD) else (if n < 1129660997 then (if n = 1129271385 then COPY else
NOT_A_KEYWORD) else (if n = 1129660997 then CUBE else NOT_A_KEYWORD))) else (if n < 1145393987 then
(if n < 1145132101 then (if n = 1145132097 then DATA else NOT_A_KEYWORD) else (if n = 1145132101 then
DATE else NOT_A_KEYWORD)) else (if n < 1145656139 then (if n = 1145393987 then DESC else
NOT_A_KEYWORD) else (if n = 1145656139 then DISK else NOT_A_KEYWORD))))) else (if n < 1178686292 then
(if n < 1162629957 then (if n < 1146437964 then (if n = 1146244944 then DROP else NOT_A_KEYWORD) else
(if n < 1161904968 then (if n = 1146437964 then DUAL else NOT_A_KEYWORD) else (if n = 1161904968 then
EACH else NOT_A_KEYWORD))) else (if n < 1162761549 then (if n < 1162757203 then (if n = 1162629957
then ELSE else NOT_A_KEYWORD) else (if n = 1162757203 then ENDS else NOT_A_KEYWORD)) else (if n <
1163413844 then (if n = 1162761549 then ENUM else NOT_A_KEYWORD) else (if n = 1163413844 then EXIT
else NOT_A_KEYWORD)))) else (if n < 1179995212 then (if n < 1179208773 then (if n = 1178686292 then
FAST else NOT_A_KEYWORD) else (if n < 1179799373 then (if n = 1179208773 then FILE else
NOT_A_KEYWORD) else (if n = 1179799373 then FROM else NOT_A_KEYWORD))) else (if n < 1196381263 then
(if n < 1195987796 then (if n = 1179995212 then FULL else NOT_A_KEYWORD) else (if n = 1195987796 then
GIST else NOT_A_KEYWORD)) else (if n < 1212240452 then (if n = 1196381263 then GOTO else
NOT_A_KEYWORD) else (if n = 1212240452 then HARD else NOT_A_KEYWORD)))))))) else (if n < 1413830740
then (if n < 1297040453 then (if n < 1263094860 then (if n < 1229870131 then (if n < 1213158738 then
(if n < 1212501072 then (if n = 1212240712 then HASH else NOT_A_KEYWORD) else (if n < 1213158228 then
(if n = 1212501072 then HELP else NOT_A_KEYWORD) else (if n = 1213158228 then HOST else
NOT_A_KEYWORD))) else (if n < 1229870129 then (if n = 1213158738 then HOUR else NOT_A_KEYWORD) else
(if n < 1229870130 then (if n = 1229870129 then INT1 else NOT_A_KEYWORD) else (if n = 1229870130 then
INT2 else NOT_A_KEYWORD)))) else (if n < 1229870159 then (if n < 1229870132 then (if n = 1229870131
then INT3 else NOT_A_KEYWORD) else (if n < 1229870136 then (if n = 1229870132 then INT4 else
NOT_A_KEYWORD) else (if n = 1229870136 then INT8 else NOT_A_KEYWORD))) else (if n < 1246973774 then
(if n < 1246710094 then (if n = 1229870159 then INTO else NOT_A_KEYWORD) else (if n = 1246710094 then
JOIN else NOT_A_KEYWORD)) else (if n < 1262836051 then (if n = 1246973774 then JSON else
NOT_A_KEYWORD) else (if n = 1262836051 then KEYS else NOT_A_KEYWORD))))) else (if n < 1280262468 then
(if n < 1279611731 then (if n < 1279349588 then (if n = 1263094860 then KILL else NOT_A_KEYWORD) else
(if n < 1279608404 then (if n = 1279349588 then LAST else NOT_A_KEYWORD) else (if n = 1279608404 then
LEFT else NOT_A_KEYWORD))) else (if n < 1279871813 then (if n = 1279611731 then LESS else
NOT_A_KEYWORD) else (if n < 1279873876 then (if n = 1279871813 then LIKE else NOT_A_KEYWORD) else (if
n = 1279873876 then LIST else NOT_A_KEYWORD)))) else (if n < 1280264019 then (if n < 1280262987 then
(if n = 1280262468 then LOAD else NOT_A_KEYWORD) else (if n < 1280263986 then (if n = 1280262987 then
LOCK else NOT_A_KEYWORD) else (if n = 1280263986 then LOG2 else NOT_A_KEYWORD))) else (if n <
1280266064 then (if n < 1280265799 then (if n = 1280264019 then LOGS else NOT_A_KEYWORD) else (if n =
1280265799 then LONG else NOT_A_KEYWORD)) else (if n < 1280328004 then (if n = 1280266064 then LOOP
else NOT_A_KEYWORD) else (if n = 1280328004 then LPAD else NOT_A_KEYWORD)))))) else (if n <
1380011588 then (if n < 1330531417 then (if n < 1313820229 then (if n < 1312902469 then (if n =
1297040453 then MODE else NOT_A_KEYWORD) else (if n < 1313167444 then (if n = 1312902469 then NAME
else NOT_A_KEYWORD) else (if n = 1313167444 then NEXT else NOT_A_KEYWORD))) else (if n < 1314212940
then (if n = 1313820229 then NONE else NOT_A_KEYWORD) else (if n < 1314278450 then (if n = 1314212940
then NULL else NOT_A_KEYWORD) else (if n = 1314278450 then NVL2 else NOT_A_KEYWORD)))) else (if n <
1346455365 then (if n < 1330660686 then (if n = 1330531417 then ONLY else NOT_A_KEYWORD) else (if n <
1331053906 then (if n = 1330660686 then OPEN else NOT_A_KEYWORD) else (if n = 1331053906 then OVER
else NOT_A_KEYWORD))) else (if n < 1347375700 then (if n < 1346458696 then (if n = 1346455365 then
PAGE else NOT_A_KEYWORD) else (if n = 1346458696 then PATH else NOT_A_KEYWORD)) else (if n <
1347568982 then (if n = 1347375700 then PORT else NOT_A_KEYWORD) else (if n = 1347568982 then PREV
else NOT_A_KEYWORD))))) else (if n < 1397311310 then (if n < 1380928581 then (if n < 1380270404 then
(if n = 1380011588 then RAND else NOT_A_KEYWORD) else (if n < 1380270412 then (if n = 1380270404 then
READ else NOT_A_KEYWORD) else (if n = 1380270412 then REAL else NOT_A_KEYWORD))) else (if n <
1380991300 then (if n < 1380931411 then (if n = 1380928581 then ROLE else NOT_A_KEYWORD) else (if n =
1380931411 then ROWS else NOT_A_KEYWORD)) else (if n < 1397247831 then (if n = 1380991300 then RPAD
else NOT_A_KEYWORD) else (if n = 1397247831 then SHOW else NOT_A_KEYWORD)))) else (if n < 1397704276
then (if n < 1397442896 then (if n = 1397311310 then SIGN else NOT_A_KEYWORD) else (if n < 1397509975
then (if n = 1397442896 then SKIP else NOT_A_KEYWORD) else (if n = 1397509975 then SLOW else
NOT_A_KEYWORD))) else (if n < 1397838420 then (if n < 1397706053 then (if n = 1397704276 then SOFT
else NOT_A_KEYWORD) else (if n = 1397706053 then SOME else NOT_A_KEYWORD)) else (if n < 1398034256
then (if n = 1397838420 then SQRT else NOT_A_KEYWORD) else (if n = 1398034256 then STOP else
NOT_A_KEYWORD))))))) else (if n < 288857737285 then (if n < 1464423496 then (if n < 1415139397 then
(if n < 1414088019 then (if n < 1414021454 then (if n = 1413830740 then TEXT else NOT_A_KEYWORD) else
(if n < 1414022478 then (if n = 1414021454 then THAN else NOT_A_KEYWORD) else (if n = 1414022478 then
THEN else NOT_A_KEYWORD))) else (if n < 1414090053 then (if n = 1414088019 then TIES else
NOT_A_KEYWORD) else (if n < 1414681925 then (if n = 1414090053 then TIME else NOT_A_KEYWORD) else (if
n = 1414681925 then TRUE else NOT_A_KEYWORD)))) else (if n < 1447642455 then (if n < 1431192655 then
(if n = 1415139397 then TYPE else NOT_A_KEYWORD) else (if n < 1431520594 then (if n = 1431192655 then
UNDO else NOT_A_KEYWORD) else (if n = 1431520594 then USER else NOT_A_KEYWORD))) else (if n <
1464157515 then (if n < 1463896404 then (if n = 1447642455 then VIEW else NOT_A_KEYWORD) else (if n =
1463896404 then WAIT else NOT_A_KEYWORD)) else (if n < 1464354126 then (if n = 1464157515 then WEEK
else NOT_A_KEYWORD) else (if n = 1464354126 then WHEN else NOT_A_KEYWORD))))) else (if n <
280352802130 then (if n < 1497710930 then (if n < 1464816203 then (if n = 1464423496 then WITH else
NOT_A_KEYWORD) else (if n < 1479880761 then (if n = 1464816203 then WORK else NOT_A_KEYWORD) else (if
n = 1479880761 then X509 else NOT_A_KEYWORD))) else (if n < 1515146821 then (if n = 1497710930 then
YEAR else NOT_A_KEYWORD) else (if n < 280318789966 then (if n = 1515146821 then ZONE else
NOT_A_KEYWORD) else (if n = 280318789966 then ADMIN else NOT_A_KEYWORD)))) else (if n < 280586440242
then (if n < 280453465426 then (if n = 280352802130 then AFTER else NOT_A_KEYWORD) else (if n <
280569792841 then (if n = 280453465426 then ALTER else NOT_A_KEYWORD) else (if n = 280569792841 then
ASCII else NOT_A_KEYWORD))) else (if n < 284748104523 then (if n < 284630141262 then (if n =
280586440242 then ATAN2 else NOT_A_KEYWORD) else (if n = 284630141262 then BEGIN else NOT_A_KEYWORD))
else (if n < 284882519365 then (if n = 284748104523 then BLOCK else NOT_A_KEYWORD) else (if n =
284882519365 then BTREE else NOT_A_KEYWORD)))))) else (if n < 301743231813 then (if n < 289143739219
then (if n < 289043075909 then (if n < 288975046990 then (if n = 288857737285 then CACHE else
NOT_A_KEYWORD) else (if n < 288975307595 then (if n = 288975046990 then CHAIN else NOT_A_KEYWORD)
else (if n = 288975307595 then CHECK else NOT_A_KEYWORD))) else (if n < 289093799508 then (if n =
289043075909 then CLOSE else NOT_A_KEYWORD) else (if n < 289142944562 then (if n = 289093799508 then
COUNT else NOT_A_KEYWORD) else (if n = 289142944562 then CRC32 else NOT_A_KEYWORD)))) else (if n <
297649853529 then (if n < 289260391493 then (if n = 289143739219 then CROSS else NOT_A_KEYWORD) else
(if n < 297633270086 then (if n = 289260391493 then CYCLE else NOT_A_KEYWORD) else (if n =
297633270086 then ELSIF else NOT_A_KEYWORD))) else (if n < 297800126036 then (if n < 297733869394
then (if n = 297649853529 then EMPTY else NOT_A_KEYWORD) else (if n = 297733869394 then ERROR else
NOT_A_KEYWORD)) else (if n < 297800127065 then (if n = 297800126036 then EVENT else NOT_A_KEYWORD)
else (if n = 297800127065 then EVERY else NOT_A_KEYWORD))))) else (if n < 301928371016 then (if n <
301877842772 then (if n < 301810860872 then (if n = 301743231813 then FALSE else NOT_A_KEYWORD) else
(if n < 301876988996 then (if n = 301810860872 then FETCH else NOT_A_KEYWORD) else (if n =
301876988996 then FIELD else NOT_A_KEYWORD))) else (if n < 301927973204 then (if n < 301878232388
then (if n = 301877842772 then FIRST else NOT_A_KEYWORD) else (if n = 301878232388 then FIXED else
NOT_A_KEYWORD)) else (if n < 301927976786 then (if n = 301927973204 then FLOAT else NOT_A_KEYWORD)
else (if n = 301927976786 then FLOOR else NOT_A_KEYWORD)))) else (if n < 306322689620 then (if n <
301978501957 then (if n = 301928371016 then FLUSH else NOT_A_KEYWORD) else (if n < 301978701380 then
(if n = 301978501957 then FORCE else NOT_A_KEYWORD) else (if n = 301978701380 then FOUND else
NOT_A_KEYWORD))) else (if n < 310568506451 then (if n < 306323608912 then (if n = 306322689620 then
GRANT else NOT_A_KEYWORD) else (if n = 306323608912 then GROUP else NOT_A_KEYWORD)) else (if n <
314845709656 then (if n = 310568506451 then HOSTS else NOT_A_KEYWORD) else (if n = 314845709656 then
INDEX else NOT_A_KEYWORD))))))))) else (if n < 80600535485509 then (if n < 361872116805 then (if n <
344809624389 then (if n < 327832193357 then (if n < 327580796236 then (if n < 327545869125 then (if n
< 314846434644 then (if n = 314846365010 then INNER else NOT_A_KEYWORD) else (if n < 314846696530
then (if n = 314846434644 then INOUT else NOT_A_KEYWORD) else (if n = 314846696530 then INSTR else
NOT_A_KEYWORD))) else (if n < 327579423572 then (if n = 327545869125 then LCASE else NOT_A_KEYWORD)
else (if n < 327579424325 then (if n = 327579423572 then LEAST else NOT_A_KEYWORD) else (if n =
327579424325 then LEAVE else NOT_A_KEYWORD)))) else (if n < 327747322188 then (if n < 327647316308
then (if n = 327580796236 then LEVEL else NOT_A_KEYWORD) else (if n < 327647380819 then (if n =
327647316308 then LIMIT else NOT_A_KEYWORD) else (if n = 327647380819 then LINES else
NOT_A_KEYWORD))) else (if n < 327747580208 then (if n < 327747324755 then (if n = 327747322188 then
LOCAL else NOT_A_KEYWORD) else (if n = 327747324755 then LOCKS else NOT_A_KEYWORD)) else (if n <
327748633938 then (if n = 327747580208 then LOG10 else NOT_A_KEYWORD) else (if n = 327748633938 then
LOWER else NOT_A_KEYWORD))))) else (if n < 332211114316 then (if n < 331942352211 then (if n <
331808523080 then (if n = 327832193357 then LTRIM else NOT_A_KEYWORD) else (if n < 331875501893 then
(if n = 331808523080 then MATCH else NOT_A_KEYWORD) else (if n = 331875501893 then MERGE else
NOT_A_KEYWORD))) else (if n < 332043015240 then (if n = 331942352211 then MINUS else NOT_A_KEYWORD)
else (if n < 332144067928 then (if n = 332043015240 then MONTH else NOT_A_KEYWORD) else (if n =
332144067928 then MUTEX else NOT_A_KEYWORD)))) else (if n < 336170730834 then (if n < 336103032147
then (if n = 332211114316 then MYSQL else NOT_A_KEYWORD) else (if n < 336136257874 then (if n =
336103032147 then NAMES else NOT_A_KEYWORD) else (if n = 336136257874 then NCHAR else
NOT_A_KEYWORD))) else (if n < 340734002514 then (if n < 340682622290 then (if n = 336170730834 then
NEVER else NOT_A_KEYWORD) else (if n = 340682622290 then ORDER else NOT_A_KEYWORD)) else (if n <
340767163730 then (if n = 340734002514 then OUTER else NOT_A_KEYWORD) else (if n = 340767163730 then
OWNER else NOT_A_KEYWORD)))))) else (if n < 353416726612 then (if n < 349323613253 then (if n <
345028839237 then (if n < 344928503122 then (if n = 344809624389 then PHASE else NOT_A_KEYWORD) else
(if n < 344978315353 then (if n = 344928503122 then POWER else NOT_A_KEYWORD) else (if n =
344978315353 then PROXY else NOT_A_KEYWORD))) else (if n < 349322957401 then (if n = 345028839237
then PURGE else NOT_A_KEYWORD) else (if n < 349323215691 then (if n = 349322957401 then QUERY else
NOT_A_KEYWORD) else (if n = 349323215691 then QUICK else NOT_A_KEYWORD)))) else (if n < 353349223507
then (if n < 353282642757 then (if n = 349323613253 then QUOTE else NOT_A_KEYWORD) else (if n <
353282967365 then (if n = 353282642757 then RAISE else NOT_A_KEYWORD) else (if n = 353282967365 then
RANGE else NOT_A_KEYWORD))) else (if n < 353350403412 then (if n < 353349943641 then (if n =
353349223507 then READS else NOT_A_KEYWORD) else (if n = 353349943641 then RELAY else NOT_A_KEYWORD))
else (if n < 353350538053 then (if n = 353350403412 then RESET else NOT_A_KEYWORD) else (if n =
353350538053 then REUSE else NOT_A_KEYWORD))))) else (if n < 357761635909 then (if n < 353601996101
then (if n < 353467190085 then (if n = 353416726612 then RIGHT else NOT_A_KEYWORD) else (if n <
353518308932 then (if n = 353467190085 then RLIKE else NOT_A_KEYWORD) else (if n = 353518308932 then
ROUND else NOT_A_KEYWORD))) else (if n < 353601997133 then (if n = 353601996101 then RTREE else
NOT_A_KEYWORD) else (if n < 357694526021 then (if n = 353601997133 then RTRIM else NOT_A_KEYWORD)
else (if n = 357694526021 then SHARE else NOT_A_KEYWORD)))) else (if n < 357895852628 then (if n <
357828739909 then (if n = 357761635909 then SLAVE else NOT_A_KEYWORD) else (if n < 357895849797 then
(if n = 357828739909 then SPACE else NOT_A_KEYWORD) else (if n = 357895849797 then STAGE else
NOT_A_KEYWORD))) else (if n < 357913609554 then (if n < 357896046926 then (if n = 357895852628 then
START else NOT_A_KEYWORD) else (if n = 357896046926 then STDIN else NOT_A_KEYWORD)) else (if n <
357946183763 then (if n = 357913609554 then SUPER else NOT_A_KEYWORD) else (if n = 357946183763 then
SWAPS else NOT_A_KEYWORD))))))) else (if n < 74007894507860 then (if n < 71757432704846 then (if n <
366419658066 then (if n < 366385579352 then (if n < 362275685715 then (if n = 361872116805 then TABLE
else NOT_A_KEYWORD) else (if n < 366200574789 then (if n = 362275685715 then TYPES else
NOT_A_KEYWORD) else (if n = 366200574789 then UCASE else NOT_A_KEYWORD))) else (if n < 366385647438
then (if n = 366385579352 then UNHEX else NOT_A_KEYWORD) else (if n < 366386366796 then (if n =
366385647438 then UNION else NOT_A_KEYWORD) else (if n = 366386366796 then UNTIL else
NOT_A_KEYWORD)))) else (if n < 370462709061 then (if n < 366469007173 then (if n = 366419658066 then
UPPER else NOT_A_KEYWORD) else (if n < 366469533255 then (if n = 366469007173 then USAGE else
NOT_A_KEYWORD) else (if n = 366469533255 then USING else NOT_A_KEYWORD))) else (if n < 374874917957
then (if n < 374874657349 then (if n = 370462709061 then VALUE else NOT_A_KEYWORD) else (if n =
374874657349 then WHERE else NOT_A_KEYWORD)) else (if n < 375042692165 then (if n = 374874917957 then
WHILE else NOT_A_KEYWORD) else (if n = 375042692165 then WRITE else NOT_A_KEYWORD))))) else (if n <
72882612949593 then (if n < 72848069317968 then (if n < 71796137220435 then (if n = 71757432704846
then ACTION else NOT_A_KEYWORD) else (if n < 71830363523395 then (if n = 71796137220435 then ALWAYS
else NOT_A_KEYWORD) else (if n = 71830363523395 then ATOMIC else NOT_A_KEYWORD))) else (if n <
72865299780165 then (if n = 72848069317968 then BACKUP else NOT_A_KEYWORD) else (if n <
72882496032340 then (if n = 72865299780165 then BEFORE else NOT_A_KEYWORD) else (if n =
72882496032340 then BIGINT else NOT_A_KEYWORD)))) else (if n < 73982158587218 then (if n <
72882613669703 then (if n = 72882612949593 then BINARY else NOT_A_KEYWORD) else (if n <
73977612355397 then (if n = 72882613669703 then BINLOG else NOT_A_KEYWORD) else (if n =
73977612355397 then CHANGE else NOT_A_KEYWORD))) else (if n < 74007862136142 then (if n <
73994925854292 then (if n = 73982158587218 then CIPHER else NOT_A_KEYWORD) else (if n =
73994925854292 then CLIENT else NOT_A_KEYWORD)) else (if n < 74007878388052 then (if n =
74007862136142 then COLUMN else NOT_A_KEYWORD) else (if n = 74007878388052 then COMMIT else
NOT_A_KEYWORD)))))) else (if n < 76245489636435 then (if n < 76194116880710 then (if n <
74033732472658 then (if n < 74020593807939 then (if n = 74007894507860 then CONCAT else
NOT_A_KEYWORD) else (if n < 74020628288581 then (if n = 74020593807939 then CRC32C else
NOT_A_KEYWORD) else (if n = 74020628288581 then CREATE else NOT_A_KEYWORD))) else (if n <
75064423044165 then (if n = 74033732472658 then CURSOR else NOT_A_KEYWORD) else (if n <
75107523513413 then (if n = 75064423044165 then DELETE else NOT_A_KEYWORD) else (if n =
75107523513413 then DOUBLE else NOT_A_KEYWORD)))) else (if n < 76219870564947 then (if n <
76202404629573 then (if n = 76194116880710 then ELSEIF else NOT_A_KEYWORD) else (if n <
76202505752133 then (if n = 76202404629573 then ENABLE else NOT_A_KEYWORD) else (if n =
76202505752133 then ENGINE else NOT_A_KEYWORD))) else (if n < 76236832265299 then (if n <
76223912955973 then (if n = 76219870564947 then ERRORS else NOT_A_KEYWORD) else (if n =
76223912955973 then ESCAPE else NOT_A_KEYWORD)) else (if n < 76245388054612 then (if n =
76236832265299 then EVENTS else NOT_A_KEYWORD) else (if n = 76245388054612 then EXCEPT else
NOT_A_KEYWORD))))) else (if n < 77306497155412 then (if n < 77246417884243 then (if n <
76245606421061 then (if n = 76245489636435 then EXISTS else NOT_A_KEYWORD) else (if n <
76245606814292 then (if n = 76245606421061 then EXPIRE else NOT_A_KEYWORD) else (if n =
76245606814292 then EXPORT else NOT_A_KEYWORD))) else (if n < 77293561140276 then (if n <
77280509183059 then (if n = 77246417884243 then FAULTS else NOT_A_KEYWORD) else (if n =
77280509183059 then FIELDS else NOT_A_KEYWORD)) else (if n < 77293561140280 then (if n =
77293561140276 then FLOAT4 else NOT_A_KEYWORD) else (if n = 77293561140280 then FLOAT8 else
NOT_A_KEYWORD)))) else (if n < 79445457718855 then (if n < 78393072828748 then (if n = 77306497155412
then FORMAT else NOT_A_KEYWORD) else (if n < 78418608542803 then (if n = 78393072828748 then GLOBAL
else NOT_A_KEYWORD) else (if n = 78418608542803 then GRANTS else NOT_A_KEYWORD))) else (if n <
80570605326917 then (if n < 80566310751308 then (if n = 79445457718855 then HAVING else
NOT_A_KEYWORD) else (if n = 80566310751308 then IFNULL else NOT_A_KEYWORD)) else (if n <
80596408685140 then (if n = 80570605326917 then IGNORE else NOT_A_KEYWORD) else (if n =
80596408685140 then IMPORT else NOT_A_KEYWORD)))))))) else (if n < 91621573150020 then (if n <
90457586483524 then (if n < 85002843407961 then (if n < 83877729485138 then (if n < 80622229210450
then (if n < 80600753328724 then (if n = 80600535485509 then INFILE else NOT_A_KEYWORD) else (if n <
80622161773902 then (if n = 80600753328724 then INSERT else NOT_A_KEYWORD) else (if n =
80622161773902 then ISOPEN else NOT_A_KEYWORD))) else (if n < 83860332627283 then (if n =
80622229210450 then ISSUER else NOT_A_KEYWORD) else (if n < 83860549751880 then (if n =
83860332627283 then LEAVES else NOT_A_KEYWORD) else (if n = 83860549751880 then LENGTH else
NOT_A_KEYWORD)))) else (if n < 84942966244690 then (if n < 83903314482245 then (if n = 83877729485138
then LINEAR else NOT_A_KEYWORD) else (if n < 83903315133764 then (if n = 83903314482245 then LOCATE
else NOT_A_KEYWORD) else (if n = 83903315133764 then LOCKED else NOT_A_KEYWORD))) else (if n <
84960045126233 then (if n < 84959893738829 then (if n = 84942966244690 then MASTER else
NOT_A_KEYWORD) else (if n = 84959893738829 then MEDIUM else NOT_A_KEYWORD)) else (if n <
84977242166341 then (if n = 84960045126233 then MEMORY else NOT_A_KEYWORD) else (if n =
84977242166341 then MINUTE else NOT_A_KEYWORD))))) else (if n < 87197705915973 then (if n <
86128259254598 then (if n < 86059657741636 then (if n = 85002843407961 then MODIFY else
NOT_A_KEYWORD) else (if n < 86102673279316 then (if n = 86059657741636 then NESTED else
NOT_A_KEYWORD) else (if n = 86102673279316 then NOWAIT else NOT_A_KEYWORD))) else (if n <
86128275375442 then (if n = 86128259254598 then NULLIF else NOT_A_KEYWORD) else (if n <
87163246167380 then (if n = 86128275375442 then NUMBER else NOT_A_KEYWORD) else (if n =
87163246167380 then OFFSET else NOT_A_KEYWORD)))) else (if n < 88241484285266 then (if n <
87206430068558 then (if n = 87197705915973 then ONLINE else NOT_A_KEYWORD) else (if n <
87223408349779 then (if n = 87206430068558 then OPTION else NOT_A_KEYWORD) else (if n =
87223408349779 then OTHERS else NOT_A_KEYWORD))) else (if n < 88288778471758 then (if n <
88258663501636 then (if n = 88241484285266 then PARSER else NOT_A_KEYWORD) else (if n =
88258663501636 then PERIOD else NOT_A_KEYWORD)) else (if n < 90457501947984 then (if n =
88288778471758 then PLUGIN else NOT_A_KEYWORD) else (if n = 90457501947984 then REGEXP else
NOT_A_KEYWORD)))))) else (if n < 91557097456468 then (if n < 90457704320325 then (if n <
90457652676946 then (if n < 90457603266117 then (if n = 90457586483524 then RELOAD else
NOT_A_KEYWORD) else (if n < 90457619123525 then (if n = 90457603266117 then REMOVE else
NOT_A_KEYWORD) else (if n = 90457619123525 then RENAME else NOT_A_KEYWORD))) else (if n <
90457652937044 then (if n = 90457652676946 then REPAIR else NOT_A_KEYWORD) else (if n <
90457653395801 then (if n = 90457652937044 then REPEAT else NOT_A_KEYWORD) else (if n =
90457653395801 then REPLAY else NOT_A_KEYWORD)))) else (if n < 90500535965008 then (if n <
90457721098830 then (if n = 90457704320325 then RESUME else NOT_A_KEYWORD) else (if n <
90457754258245 then (if n = 90457721098830 then RETURN else NOT_A_KEYWORD) else (if n =
90457754258245 then REVOKE else NOT_A_KEYWORD))) else (if n < 91548440415553 then (if n <
90500720645453 then (if n = 90500535965008 then ROLLUP else NOT_A_KEYWORD) else (if n =
90500720645453 then ROWNUM else NOT_A_KEYWORD)) else (if n < 91556947119684 then (if n =
91548440415553 then SCHEMA else NOT_A_KEYWORD) else (if n = 91556947119684 then SECOND else
NOT_A_KEYWORD))))) else (if n < 91586978792787 then (if n < 91557232787788 then (if n <
91557198381388 then (if n = 91557097456468 then SELECT else NOT_A_KEYWORD) else (if n <
91557199234386 then (if n = 91557198381388 then SERIAL else NOT_A_KEYWORD) else (if n =
91557199234386 then SERVER else NOT_A_KEYWORD))) else (if n < 91574194029892 then (if n <
91574194028876 then (if n = 91557232787788 then SETVAL else NOT_A_KEYWORD) else (if n =
91574194028876 then SIGNAL else NOT_A_KEYWORD)) else (if n < 91574294826053 then (if n =
91574194029892 then SIGNED else NOT_A_KEYWORD) else (if n = 91574294826053 then SIMPLE else
NOT_A_KEYWORD)))) else (if n < 91600198714451 then (if n < 91599896528212 then (if n = 91586978792787
then SLAVES else NOT_A_KEYWORD) else (if n < 91600080424261 then (if n = 91599896528212 then SOCKET
else NOT_A_KEYWORD) else (if n = 91600080424261 then SONAME else NOT_A_KEYWORD))) else (if n <
91621338272851 then (if n < 91600198976325 then (if n = 91600198714451 then SOUNDS else
NOT_A_KEYWORD) else (if n = 91600198976325 then SOURCE else NOT_A_KEYWORD)) else (if n <
91621338404179 then (if n = 91621338272851 then STARTS else NOT_A_KEYWORD) else (if n =
91621338404179 then STATUS else NOT_A_KEYWORD))))))) else (if n < 18946016867077716 then (if n <
18370933479789637 then (if n < 93794725877061 then (if n < 91625650082898 then (if n < 91621622500688
then (if n = 91621573150020 then STORED else NOT_A_KEYWORD) else (if n < 91621622894151 then (if n =
91621622500688 then STRCMP else NOT_A_KEYWORD) else (if n = 91621622894151 then STRING else
NOT_A_KEYWORD))) else (if n < 91643115226445 then (if n = 91625650082898 then SUBSTR else
NOT_A_KEYWORD) else (if n < 92639261902163 then (if n = 91643115226445 then SYSTEM else
NOT_A_KEYWORD) else (if n = 92639261902163 then TABLES else NOT_A_KEYWORD)))) else (if n <
94838453519699 then (if n < 93794776073035 then (if n = 93794725877061 then UNIQUE else
NOT_A_KEYWORD) else (if n < 93803230876741 then (if n = 93794776073035 then UNLOCK else
NOT_A_KEYWORD) else (if n = 93803230876741 then UPDATE else NOT_A_KEYWORD))) else (if n <
95972458252622 then (if n < 95972357328727 then (if n = 94838453519699 then VALUES else
NOT_A_KEYWORD) else (if n = 95972357328727 then WINDOW else NOT_A_KEYWORD)) else (if n <
18369829859053140 then (if n = 95972458252622 then WITHIN else NOT_A_KEYWORD) else (if n =
18369829859053140 then ACCOUNT else NOT_A_KEYWORD))))) else (if n < 18664550463521102 then (if n <
18381915846957637 then (if n < 18370933748747589 then (if n = 18370933479789637 then ADDDATE else
NOT_A_KEYWORD) else (if n < 18374219214508884 then (if n = 18370933748747589 then ADDTIME else
NOT_A_KEYWORD) else (if n = 18374219214508884 then AGAINST else NOT_A_KEYWORD))) else (if n <
18389693964964435 then (if n = 18381915846957637 then ANALYZE else NOT_A_KEYWORD) else (if n <
18653577006630222 then (if n = 18389693964964435 then AUTHORS else NOT_A_KEYWORD) else (if n =
18653577006630222 then BETWEEN else NOT_A_KEYWORD)))) else (if n < 18938268762981700 then (if n <
18930649306055749 then (if n = 18664550463521102 then BOOLEAN else NOT_A_KEYWORD) else (if n <
18935004554415687 then (if n = 18930649306055749 then CASCADE else NOT_A_KEYWORD) else (if n =
18935004554415687 then CEILING else NOT_A_KEYWORD))) else (if n < 18946012555072581 then (if n <
18938268830877012 then (if n = 18938268762981700 then CHANGED else NOT_A_KEYWORD) else (if n =
18938268830877012 then CHARSET else NOT_A_KEYWORD)) else (if n < 18946012706852435 then (if n =
18946012555072581 then COLLATE else NOT_A_KEYWORD) else (if n = 18946012706852435 then COLUMNS else
NOT_A_KEYWORD)))))) else (if n < 19216492232525124 then (if n < 18952635529383237 then (if n <
18946021313040980 then (if n < 18946016917144404 then (if n = 18946016867077716 then COMMENT else
NOT_A_KEYWORD) else (if n < 18946021279488084 then (if n = 18946016917144404 then COMPACT else
NOT_A_KEYWORD) else (if n = 18946021279488084 then CONTEXT else NOT_A_KEYWORD))) else (if n <
18952635260425285 then (if n = 18946021313040980 then CONVERT else NOT_A_KEYWORD) else (if n <
18952635495566932 then (if n = 18952635260425285 then CURDATE else NOT_A_KEYWORD) else (if n =
18952635495566932 then CURRENT else NOT_A_KEYWORD)))) else (if n < 19216453760799301 then (if n <
19212150237121861 then (if n = 18952635529383237 then CURTIME else NOT_A_KEYWORD) else (if n <
19216453711249740 then (if n = 19212150237121861 then DAYNAME else NOT_A_KEYWORD) else (if n =
19216453711249740 then DECIMAL else NOT_A_KEYWORD))) else (if n < 19216466596218194 then (if n <
19216466462461012 then (if n = 19216453760799301 then DECLARE else NOT_A_KEYWORD) else (if n =
19216466462461012 then DEFAULT else NOT_A_KEYWORD)) else (if n < 19216471041590611 then (if n =
19216466596218194 then DEFINER else NOT_A_KEYWORD) else (if n = 19216471041590611 then DEGREES else
NOT_A_KEYWORD))))) else (if n < 19518827898688581 then (if n < 19238491054229827 then (if n <
19220920342301765 then (if n = 19216492232525124 then DELAYED else NOT_A_KEYWORD) else (if n <
19220920375792196 then (if n = 19220920342301765 then DISABLE else NOT_A_KEYWORD) else (if n =
19220920375792196 then DISCARD else NOT_A_KEYWORD))) else (if n < 19513321716729156 then (if n <
19507841472546131 then (if n = 19238491054229827 then DYNAMIC else NOT_A_KEYWORD) else (if n =
19507841472546131 then ENGINES else NOT_A_KEYWORD)) else (if n < 19518819459744837 then (if n =
19513321716729156 then ESCAPED else NOT_A_KEYWORD) else (if n = 19518819459744837 then EXCLUDE else
NOT_A_KEYWORD)))) else (if n < 19790463138088782 then (if n < 19518875293010254 then (if n =
19518827898688581 then EXECUTE else NOT_A_KEYWORD) else (if n < 19790437486122835 then (if n =
19518875293010254 then EXPLAIN else NOT_A_KEYWORD) else (if n = 19790437486122835 then FOLLOWS else
NOT_A_KEYWORD))) else (if n < 20338002732270930 then (if n < 20060925819240780 then (if n =
19790463138088782 then FOREIGN else NOT_A_KEYWORD) else (if n = 20060925819240780 then GENERAL else
NOT_A_KEYWORD)) else (if n < 20346820568765017 then (if n = 20338002732270930 then HANDLER else
NOT_A_KEYWORD) else (if n = 20346820568765017 then HISTORY else NOT_A_KEYWORD)))))))))) else (if n <
317861347521608187724868 then (if n < 5638880882284446028 then (if n < 23460637229274181 then (if n <
22608498521363283 then (if n < 22031293857808716 then (if n < 21463924383039820 then (if n <
20633797146395986 then (if n < 20633728428033363 then (if n = 20626074963690820 then IGNORED else
NOT_A_KEYWORD) else (if n < 20633793102695500 then (if n = 20633728428033363 then INDEXES else
NOT_A_KEYWORD) else (if n = 20633793102695500 then INSTALL else NOT_A_KEYWORD))) else (if n <
20633805904364882 then (if n = 20633797146395986 then INTEGER else NOT_A_KEYWORD) else (if n <
20640330009367621 then (if n = 20633805904364882 then INVOKER else NOT_A_KEYWORD) else (if n =
20640330009367621 then ITERATE else NOT_A_KEYWORD)))) else (if n < 21479265770490949 then (if n <
21468244850855495 then (if n = 21463924383039820 then LASTVAL else NOT_A_KEYWORD) else (if n <
21468300736481346 then (if n = 21468244850855495 then LEADING else NOT_A_KEYWORD) else (if n =
21468300736481346 then LENGTHB else NOT_A_KEYWORD))) else (if n < 21760770863026002 then (if n <
21754143878239301 then (if n = 21479265770490949 then LOGFILE else NOT_A_KEYWORD) else (if n =
21754143878239301 then MIGRATE else NOT_A_KEYWORD)) else (if n < 22026878647943500 then (if n =
21760770863026002 then MONITOR else NOT_A_KEYWORD) else (if n = 22026878647943500 then NATURAL else
NOT_A_KEYWORD))))) else (if n < 22330343604964421 then (if n < 22042319087814996 then (if n <
22042198459762757 then (if n = 22031293857808716 then NEXTVAL else NOT_A_KEYWORD) else (if n <
22042198862416965 then (if n = 22042198459762757 then NOCACHE else NOT_A_KEYWORD) else (if n =
22042198862416965 then NOCYCLE else NOT_A_KEYWORD))) else (if n < 22048838547294531 then (if n =
22042319087814996 then NO_WAIT else NOT_A_KEYWORD) else (if n < 22324846097550931 then (if n =
22048838547294531 then NUMERIC else NOT_A_KEYWORD) else (if n = 22324846097550931 then OPTIONS else
NOT_A_KEYWORD)))) else (if n < 22601927288770131 then (if n < 22589755418036037 then (if n =
22330343604964421 then OUTFILE else NOT_A_KEYWORD) else (if n < 22589819994063180 then (if n =
22589755418036037 then PACKAGE else NOT_A_KEYWORD) else (if n = 22589819994063180 then PARTIAL else
NOT_A_KEYWORD))) else (if n < 22608455789531717 then (if n < 22605213156855630 then (if n =
22601927288770131 then PLUGINS else NOT_A_KEYWORD) else (if n = 22605213156855630 then PORTION else
NOT_A_KEYWORD)) else (if n < 22608472919069273 then (if n = 22608455789531717 then PREPARE else
NOT_A_KEYWORD) else (if n = 22608472919069273 then PRIMARY else NOT_A_KEYWORD)))))) else (if n <
23157184922800965 then (if n < 23157141972013893 then (if n < 23152709632872019 then (if n <
22608498571955269 then (if n = 22608498521363283 then PROCESS else NOT_A_KEYWORD) else (if n <
22893212156052818 then (if n = 22608498571955269 then PROFILE else NOT_A_KEYWORD) else (if n =
22893212156052818 then QUARTER else NOT_A_KEYWORD))) else (if n < 23157099291298884 then (if n =
23152709632872019 then RADIANS else NOT_A_KEYWORD) else (if n < 23157103486453074 then (if n =
23157099291298884 then REBUILD else NOT_A_KEYWORD) else (if n = 23157103486453074 then RECOVER else
NOT_A_KEYWORD)))) else (if n < 23157163715809861 then (if n < 23157159269319493 then (if n =
23157141972013893 then RELEASE else NOT_A_KEYWORD) else (if n < 23157159269843777 then (if n =
23157159269319493 then REPLACE else NOT_A_KEYWORD) else (if n = 23157159269843777 then REPLICA else
NOT_A_KEYWORD))) else (if n < 23157172289360453 then (if n < 23157172288442964 then (if n =
23157163715809861 then REQUIRE else NOT_A_KEYWORD) else (if n = 23157172288442964 then RESTART else
NOT_A_KEYWORD)) else (if n < 23157176601300563 then (if n = 23157172289360453 then RESTORE else
NOT_A_KEYWORD) else (if n = 23157176601300563 then RETURNS else NOT_A_KEYWORD))))) else (if n <
23449650870895960 then (if n < 23436400746381651 then (if n < 23168175995178565 then (if n =
23157184922800965 then REVERSE else NOT_A_KEYWORD) else (if n < 23168184586162245 then (if n =
23168175995178565 then ROUTINE else NOT_A_KEYWORD) else (if n = 23168184586162245 then ROWTYPE else
NOT_A_KEYWORD))) else (if n < 23438647248899918 then (if n = 23436400746381651 then SCHEMAS else
NOT_A_KEYWORD) else (if n < 23439729564139860 then (if n = 23438647248899918 then SESSION else
NOT_A_KEYWORD) else (if n = 23439729564139860 then SFORMAT else NOT_A_KEYWORD)))) else (if n <
23456166168319045 then (if n < 23450664584167756 then (if n = 23449650870895960 then SOUNDEX else
NOT_A_KEYWORD) else (if n < 23455122726143813 then (if n = 23450664584167756 then SPATIAL else
NOT_A_KEYWORD) else (if n = 23455122726143813 then STORAGE else NOT_A_KEYWORD))) else (if n <
23456166437276997 then (if n < 23456166269240148 then (if n = 23456166168319045 then SUBDATE else
NOT_A_KEYWORD) else (if n = 23456166269240148 then SUBJECT else NOT_A_KEYWORD)) else (if n <
23456239384350276 then (if n = 23456166437276997 then SUBTIME else NOT_A_KEYWORD) else (if n =
23456239384350276 then SUSPEND else NOT_A_KEYWORD))))))) else (if n < 4918304924992881732 then (if n
< 24287470057311301 then (if n < 24011449589253189 then (if n < 23731168612991314 then (if n <
23723416230118483 then (if n = 23460637229274181 then SYSDATE else NOT_A_KEYWORD) else (if n <
23724498897948244 then (if n = 23723416230118483 then THREADS else NOT_A_KEYWORD) else (if n =
23724498897948244 then TINYINT else NOT_A_KEYWORD))) else (if n < 23731168629315923 then (if n =
23731168612991314 then TO_CHAR else NOT_A_KEYWORD) else (if n < 23734372725638482 then (if n =
23731168629315923 then TO_DAYS else NOT_A_KEYWORD) else (if n = 23734372725638482 then TRIGGER else
NOT_A_KEYWORD)))) else (if n < 24016930436698701 then (if n < 24011458363742030 then (if n =
24011449589253189 then UNICODE else NOT_A_KEYWORD) else (if n < 24013640273314885 then (if n =
24011458363742030 then UNKNOWN else NOT_A_KEYWORD) else (if n = 24013640273314885 then UPGRADE else
NOT_A_KEYWORD))) else (if n < 24278669938216519 then (if n < 24278669569048914 then (if n =
24016930436698701 then USE_FRM else NOT_A_KEYWORD) else (if n = 24278669569048914 then VARCHAR else
NOT_A_KEYWORD)) else (if n < 24287465948135756 then (if n = 24278669938216519 then VARYING else
NOT_A_KEYWORD) else (if n = 24287465948135756 then VIRTUAL else NOT_A_KEYWORD))))) else (if n <
4850167119537718085 then (if n < 24578763447616850 then (if n < 24564486891651417 then (if n =
24287470057311301 then VISIBLE else NOT_A_KEYWORD) else (if n < 24568949313066324 then (if n =
24564486891651417 then WEEKDAY else NOT_A_KEYWORD) else (if n = 24568949313066324 then WITHOUT else
NOT_A_KEYWORD))) else (if n < 4846246222350271812 then (if n = 24578763447616850 then WRAPPER else
NOT_A_KEYWORD) else (if n < 4848201154193216845 then (if n = 4846246222350271812 then CASCADED else
NOT_A_KEYWORD) else (if n = 4848201154193216845 then CHECKSUM else NOT_A_KEYWORD)))) else (if n <
4918304907326477125 then (if n < 4850181447480856147 then (if n = 4850167119537718085 then COALESCE
else NOT_A_KEYWORD) else (if n < 4850181447615403333 then (if n = 4850181447480856147 then CONTAINS
else NOT_A_KEYWORD) else (if n = 4850181447615403333 then CONTINUE else NOT_A_KEYWORD))) else (if n <
4918304924540421702 then (if n < 4918304907394108485 then (if n = 4918304907326477125 then DATABASE
else NOT_A_KEYWORD) else (if n = 4918304907394108485 then DATAFILE else NOT_A_KEYWORD)) else (if n <
4918304924808858949 then (if n = 4918304924540421702 then DATEDIFF else NOT_A_KEYWORD) else (if n =
4918304924808858949 then DATETIME else NOT_A_KEYWORD)))))) else (if n < 5282252069663031628 then (if
n < 4994003031827891524 then (if n < 4919429716580581957 then (if n < 4918304924994065730 then (if n
= 4918304924992881732 then DATE_ADD else NOT_A_KEYWORD) else (if n < 4918310533835216210 then (if n =
4918304924994065730 then DATE_SUB else NOT_A_KEYWORD) else (if n = 4918310533835216210 then DAY_HOUR
else NOT_A_KEYWORD))) else (if n < 4920555689351201620 then (if n = 4919429716580581957 then DESCRIBE
else NOT_A_KEYWORD) else (if n < 4923926774771436613 then (if n = 4920555689351201620 then DISTINCT
else NOT_A_KEYWORD) else (if n = 4923926774771436613 then DUMPFILE else NOT_A_KEYWORD)))) else (if n
< 4996836443210138948 then (if n < 4996815586765718852 then (if n = 4994003031827891524 then ENCLOSED
else NOT_A_KEYWORD) else (if n < 4996817764179920709 then (if n = 4996815586765718852 then EXAMINED
else NOT_A_KEYWORD) else (if n = 4996817764179920709 then EXCHANGE else NOT_A_KEYWORD))) else (if n <
5068043006759227214 then (if n < 5068040846390417492 then (if n = 4996836443210138948 then EXTENDED
else NOT_A_KEYWORD) else (if n = 5068040846390417492 then FULLTEXT else NOT_A_KEYWORD)) else (if n <
5139246271672177492 then (if n = 5068043006759227214 then FUNCTION else NOT_A_KEYWORD) else (if n =
5139246271672177492 then GREATEST else NOT_A_KEYWORD))))) else (if n < 5566813375730763092 then (if n
< 5498699738004606786 then (if n < 5355711579898987860 then (if n = 5282252069663031628 then INTERVAL
else NOT_A_KEYWORD) else (if n < 5494759088648701765 then (if n = 5355711579898987860 then JSON_SET
else NOT_A_KEYWORD) else (if n = 5494759088648701765 then LANGUAGE else NOT_A_KEYWORD))) else (if n <
5566813375276602437 then (if n < 5498699738306140244 then (if n = 5498699738004606786 then LONGBLOB
else NOT_A_KEYWORD) else (if n = 5498699738306140244 then LONGTEXT else NOT_A_KEYWORD)) else (if n <
5566813375545560389 then (if n = 5566813375276602437 then MAKEDATE else NOT_A_KEYWORD) else (if n =
5566813375545560389 then MAKETIME else NOT_A_KEYWORD)))) else (if n < 5566827780849097285 then (if n
< 5566827741892597061 then (if n = 5566813375730763092 then MAKE_SET else NOT_A_KEYWORD) else (if n <
5566827780832712531 then (if n = 5566827741892597061 then MAXVALUE else NOT_A_KEYWORD) else (if n =
5566827780832712531 then MAX_ROWS else NOT_A_KEYWORD))) else (if n < 5569068585530120019 then (if n <
5569068546590004549 then (if n = 5566827780849097285 then MAX_SIZE else NOT_A_KEYWORD) else (if n =
5569068546590004549 then MINVALUE else NOT_A_KEYWORD)) else (if n < 5570746345583101267 then (if n =
5569068585530120019 then MIN_ROWS else NOT_A_KEYWORD) else (if n = 5570746345583101267 then MODIFIES
else NOT_A_KEYWORD)))))))) else (if n < 1260526094381154915397 then (if n < 6004496025048927815 then
(if n < 5928232773080006995 then (if n < 5786935620606185294 then (if n < 5715160600939158085 then
(if n < 5642821519073955396 then (if n = 5638880882284446028 then NATIONAL else NOT_A_KEYWORD) else
(if n < 5644771004527427922 then (if n = 5642821519073955396 then NOTFOUND else NOT_A_KEYWORD) else
(if n = 5644771004527427922 then NVARCHAR else NOT_A_KEYWORD))) else (if n < 5716832996762406995 then
(if n = 5715160600939158085 then OPTIMIZE else NOT_A_KEYWORD) else (if n < 5782995013932634692 then
(if n = 5716832996762406995 then OVERLAPS else NOT_A_KEYWORD) else (if n = 5782995013932634692 then
PASSWORD else NOT_A_KEYWORD)))) else (if n < 5787764708023948627 then (if n < 5787764626351736147
then (if n = 5786935620606185294 then POSITION else NOT_A_KEYWORD) else (if n < 5787764695072134725
then (if n = 5787764626351736147 then PRECEDES else NOT_A_KEYWORD) else (if n = 5787764695072134725
then PRESERVE else NOT_A_KEYWORD))) else (if n < 5928219591775439941 then (if n < 5787775634420548947
then (if n = 5787764708023948627 then PREVIOUS else NOT_A_KEYWORD) else (if n = 5787775634420548947
then PROFILES else NOT_A_KEYWORD)) else (if n < 5928228328057884487 then (if n = 5928219591775439941
then REDOFILE else NOT_A_KEYWORD) else (if n = 5928228328057884487 then RELAYLOG else
NOT_A_KEYWORD))))) else (if n < 6000276112272872537 then (if n < 5931043124683031371 then (if n <
5928236058697154892 then (if n = 5928232773080006995 then REPLICAS else NOT_A_KEYWORD) else (if n <
5928236106126017364 then (if n = 5928236058697154892 then RESIGNAL else NOT_A_KEYWORD) else (if n =
5928236106126017364 then RESTRICT else NOT_A_KEYWORD))) else (if n < 5931055180875648596 then (if n =
5931043124683031371 then ROLLBACK else NOT_A_KEYWORD) else (if n < 5999718590924016709 then (if n =
5931055180875648596 then ROWCOUNT else NOT_A_KEYWORD) else (if n = 5999718590924016709 then SCHEDULE
else NOT_A_KEYWORD)))) else (if n < 6002525674307931732 then (if n < 6000291505217880901 then (if n =
6000276112272872537 then SECURITY else NOT_A_KEYWORD) else (if n < 6001140323882850126 then (if n =
6000291505217880901 then SEQUENCE else NOT_A_KEYWORD) else (if n = 6001140323882850126 then SHUTDOWN
else NOT_A_KEYWORD))) else (if n < 6003374458579339587 then (if n < 6002807166581886804 then (if n =
6002525674307931732 then SMALLINT else NOT_A_KEYWORD) else (if n = 6002807166581886804 then SNAPSHOT
else NOT_A_KEYWORD)) else (if n < 6003663699041145925 then (if n = 6003374458579339587 then SPECIFIC
else NOT_A_KEYWORD) else (if n = 6003663699041145925 then SQLSTATE else NOT_A_KEYWORD)))))) else (if
n < 6287397050976716627 then (if n < 6075999417763451475 then (if n < 6073471717757177666 then (if n
< 6005349254376736083 then (if n = 6004496025048927815 then STARTING else NOT_A_KEYWORD) else (if n <
6073470532379559494 then (if n = 6005349254376736083 then SWITCHES else NOT_A_KEYWORD) else (if n =
6073470532379559494 then TIMEDIFF else NOT_A_KEYWORD))) else (if n < 6073471718058711124 then (if n =
6073471717757177666 then TINYBLOB else NOT_A_KEYWORD) else (if n < 6075990630344511047 then (if n =
6073471718058711124 then TINYTEXT else NOT_A_KEYWORD) else (if n = 6075990630344511047 then TRAILING
else NOT_A_KEYWORD)))) else (if n < 6146942115601335620 then (if n < 6076012641900385349 then (if n =
6075999417763451475 then TRIGGERS else NOT_A_KEYWORD) else (if n < 6146925648679619653 then (if n =
6076012641900385349 then TRUNCATE else NOT_A_KEYWORD) else (if n = 6146925648679619653 then UNDOFILE
else NOT_A_KEYWORD))) else (if n < 6148613467982613829 then (if n < 6148613467713655877 then (if n =
6146942115601335620 then UNSIGNED else NOT_A_KEYWORD) else (if n = 6148613467713655877 then UTC_DATE
else NOT_A_KEYWORD)) else (if n < 6215339409676522034 then (if n = 6148613467982613829 then UTC_TIME
else NOT_A_KEYWORD) else (if n = 6215339409676522034 then VARCHAR2 else NOT_A_KEYWORD))))) else (if n
< 1241646431863587166035 then (if n < 1204534813876186007629 then (if n < 6504695737241652300 then
(if n = 6287397050976716627 then WARNINGS else NOT_A_KEYWORD) else (if n < 1204174529148661879877
then (if n = 6504695737241652300 then ZEROFILL else NOT_A_KEYWORD) else (if n =
1204174529148661879877 then AGGREGATE else NOT_A_KEYWORD))) else (if n < 1241645878809236950862 then
(if n < 1241138386023012910418 then (if n = 1204534813876186007629 then ALGORITHM else NOT_A_KEYWORD)
else (if n = 1241138386023012910418 then CHARACTER else NOT_A_KEYWORD)) else (if n <
1241646161418085745988 then (if n = 1241645878809236950862 then COLLATION else NOT_A_KEYWORD) else
(if n = 1241646161418085745988 then COMMITTED else NOT_A_KEYWORD)))) else (if n <
1259087479061172536651 then (if n < 1241646432997457088334 then (if n = 1241646431863587166035 then
CONCAT_WS else NOT_A_KEYWORD) else (if n < 1259086056275578144083 then (if n = 1241646432997457088334
then CONDITION else NOT_A_KEYWORD) else (if n = 1259086056275578144083 then DATABASES else
NOT_A_KEYWORD))) else (if n < 1259372043695388116306 then (if n < 1259087479061206090066 then (if n =
1259087479061172536651 then DAYOFWEEK else NOT_A_KEYWORD) else (if n = 1259087479061206090066 then
DAYOFYEAR else NOT_A_KEYWORD)) else (if n < 1259661958480588132953 then (if n =
1259372043695388116306 then DELIMITER else NOT_A_KEYWORD) else (if n = 1259661958480588132953 then
DIRECTORY else NOT_A_KEYWORD))))))) else (if n < 1517623359082429566041 then (if n <
1371062164454006675795 then (if n < 1314712834489764300100 then (if n < 1296263275666287641924 then
(if n < 1279185344396050124622 then (if n = 1260526094381154915397 then DUPLICATE else NOT_A_KEYWORD)
else (if n < 1279188999164094140238 then (if n = 1279185344396050124622 then EXCEPTION else
NOT_A_KEYWORD) else (if n = 1279188999164094140238 then EXPANSION else NOT_A_KEYWORD))) else (if n <
1296986111090545479239 then (if n = 1296263275666287641924 then FEDERATED else NOT_A_KEYWORD) else
(if n < 1297203129465501210963 then (if n = 1296986111090545479239 then FOLLOWING else NOT_A_KEYWORD)
else (if n = 1297203129465501210963 then FROM_DAYS else NOT_A_KEYWORD)))) else (if n <
1352256529833686025044 then (if n < 1352182501854513550405 then (if n = 1314712834489764300100 then
GENERATED else NOT_A_KEYWORD) else (if n < 1352251758996797869652 then (if n = 1352182501854513550405
then IMMEDIATE else NOT_A_KEYWORD) else (if n = 1352251758996797869652 then INCREMENT else
NOT_A_KEYWORD))) else (if n < 1352331700102175736132 then (if n < 1352257097185812958277 then (if n =
1352256529833686025044 then INTERSECT else NOT_A_KEYWORD) else (if n = 1352257097185812958277 then
INVISIBLE else NOT_A_KEYWORD)) else (if n < 1352615418052576104270 then (if n =
1352331700102175736132 then IO_THREAD else NOT_A_KEYWORD) else (if n = 1352615418052576104270 then
ISOLATION else NOT_A_KEYWORD))))) else (if n < 1426113891322342493509 then (if n <
1407664030150449253701 then (if n < 1371062164454158979141 then (if n = 1371062164454006675795 then
JSON_KEYS else NOT_A_KEYWORD) else (if n < 1407663470580400213061 then (if n = 1371062164454158979141
then JSON_TYPE else NOT_A_KEYWORD) else (if n = 1407663470580400213061 then LOAD_FILE else
NOT_A_KEYWORD))) else (if n < 1425390488593386524244 then (if n = 1407664030150449253701 then
LOCALTIME else NOT_A_KEYWORD) else (if n < 1425678713433191173716 then (if n = 1425390488593386524244
then MEDIUMINT else NOT_A_KEYWORD) else (if n = 1425678713433191173716 then MIDDLEINT else
NOT_A_KEYWORD)))) else (if n < 1480446443131243155278 then (if n < 1444557804149383583056 then (if n
= 1426113891322342493509 then MONTHNAME else NOT_A_KEYWORD) else (if n < 1480442211205325871443 then
(if n = 1444557804149383583056 then NODEGROUP else NOT_A_KEYWORD) else (if n = 1480442211205325871443
then PACK_KEYS else NOT_A_KEYWORD))) else (if n < 1481667744363476242254 then (if n <
1481667744346044714567 then (if n = 1480446443131243155278 then PARTITION else NOT_A_KEYWORD) else
(if n = 1481667744346044714567 then PRECEDING else NOT_A_KEYWORD)) else (if n <
1481670559095812608581 then (if n = 1481667744363476242254 then PRECISION else NOT_A_KEYWORD) else
(if n = 1481670559095812608581 then PROCEDURE else NOT_A_KEYWORD)))))) else (if n <
1554520238076228422725 then (if n < 1536073778729105053253 then (if n < 1517628725742833061447 then
(if n < 1517623940668312868421 then (if n = 1517623359082429566041 then READ_ONLY else NOT_A_KEYWORD)
else (if n < 1517624222125857525332 then (if n = 1517623940668312868421 then RECURSIVE else
NOT_A_KEYWORD) else (if n = 1517624222125857525332 then REDUNDANT else NOT_A_KEYWORD))) else (if n <
1518350157038851804756 then (if n = 1517628725742833061447 then RETURNING else NOT_A_KEYWORD) else
(if n < 1535787784789585120852 then (if n = 1518350157038851804756 then ROW_COUNT else NOT_A_KEYWORD)
else (if n = 1535787784789585120852 then SAVEPOINT else NOT_A_KEYWORD)))) else (if n <
1536937920075657332805 then (if n < 1536074321926185832274 then (if n = 1536073778729105053253 then
SENSITIVE else NOT_A_KEYWORD) else (if n < 1536574525994213330771 then (if n = 1536074321926185832274
then SEPARATOR else NOT_A_KEYWORD) else (if n = 1536574525994213330771 then SLAVE_POS else
NOT_A_KEYWORD))) else (if n < 1537223322581202456135 then (if n < 1537150984547190787668 then (if n =
1536937920075657332805 then SQL_CACHE else NOT_A_KEYWORD) else (if n = 1537150984547190787668 then
STATEMENT else NOT_A_KEYWORD)) else (if n < 1554520238055038734937 then (if n =
1537223322581202456135 then SUBSTRING else NOT_A_KEYWORD) else (if n = 1554520238055038734937 then
TEMPORARY else NOT_A_KEYWORD))))) else (if n < 1591126887782189978201 then (if n <
1573612403176537081156 then (if n < 1554808456353775963472 then (if n = 1554520238076228422725 then
TEMPTABLE else NOT_A_KEYWORD) else (if n < 1555245865091723507252 then (if n = 1554808456353775963472
then TIMESTAMP else NOT_A_KEYWORD) else (if n = 1555245865091723507252 then TO_BASE64 else
NOT_A_KEYWORD))) else (if n < 1573614372393372961868 then (if n < 1573612955066866484548 then (if n =
1573612403176537081156 then UNBOUNDED else NOT_A_KEYWORD) else (if n = 1573612955066866484548 then
UNDEFINED else NOT_A_KEYWORD)) else (if n < 1573757065916958920012 then (if n =
1573614372393372961868 then UNINSTALL else NOT_A_KEYWORD) else (if n = 1573757065916958920012 then
UPDATEXML else NOT_A_KEYWORD)))) else (if n < 308213126725059566913619 then (if n <
1591126895444211025235 then (if n = 1591126887782189978201 then VARBINARY else NOT_A_KEYWORD) else
(if n < 308194600611656589528133 then (if n = 1591126895444211025235 then VARIABLES else
NOT_A_KEYWORD) else (if n = 308194600611656589528133 then ACCESSIBLE else NOT_A_KEYWORD))) else (if n
< 313028879848659904582728 then (if n < 308489895165256043943493 then (if n =
308213126725059566913619 then ADD_MONTHS else NOT_A_KEYWORD) else (if n = 308489895165256043943493
then ASENSITIVE else NOT_A_KEYWORD)) else (if n < 317731710841193673346644 then (if n =
313028879848659904582728 then BIT_LENGTH else NOT_A_KEYWORD) else (if n = 317731710841193673346644
then CHECKPOINT else NOT_A_KEYWORD))))))))) else (if n < 23616778490284246665582433369 then (if n <
81339245274858254728909896 then (if n < 360104895591911416157509 then (if n <
327472387731060484687188 then (if n < 317861491069469554200148 then (if n < 317861418177286045386052
then (if n < 317861347521608188118356 then (if n = 317861347521608187724868 then COLUMN_ADD else
NOT_A_KEYWORD) else (if n < 317861418170688991743822 then (if n = 317861347521608188118356 then
COLUMN_GET else NOT_A_KEYWORD) else (if n = 317861418170688991743822 then COMPLETION else
NOT_A_KEYWORD))) else (if n < 317861486579059737841236 then (if n = 317861418177286045386052 then
COMPRESSED else NOT_A_KEYWORD) else (if n < 317861489657627904921422 then (if n =
317861486579059737841236 then CONCURRENT else NOT_A_KEYWORD) else (if n = 317861489657627904921422
then CONNECTION else NOT_A_KEYWORD)))) else (if n < 322326394639617388074056 then (if n <
317861491081559568633428 then (if n = 317861491069469554200148 then CONSISTENT else NOT_A_KEYWORD)
else (if n < 317861491909492144559187 then (if n = 317861491081559568633428 then CONSTRAINT else
NOT_A_KEYWORD) else (if n = 317861491909492144559187 then CONVERT_TS else NOT_A_KEYWORD))) else (if n
< 322326399157476105604676 then (if n < 322326399150896400651333 then (if n =
322326394639617388074056 then DAYOFMONTH else NOT_A_KEYWORD) else (if n = 322326399150896400651333
then DAY_MINUTE else NOT_A_KEYWORD)) else (if n < 322398451395835843400773 then (if n =
322326399157476105604676 then DAY_SECOND else NOT_A_KEYWORD) else (if n = 322398451395835843400773
then DEALLOCATE else NOT_A_KEYWORD))))) else (if n < 350991914100230171087685 then (if n <
346177671637423622411329 then (if n < 336566925280159239848276 then (if n = 327472387731060484687188
then EXPORT_SET else NOT_A_KEYWORD) else (if n < 345992125868206839121220 then (if n =
336566925280159239848276 then GET_FORMAT else NOT_A_KEYWORD) else (if n = 345992125868206839121220
then IDENTIFIED else NOT_A_KEYWORD))) else (if n < 350991914100182976971097 then (if n =
346177671637423622411329 then INTERSECTA else NOT_A_KEYWORD) else (if n < 350991914100195643642952
then (if n = 350991914100182976971097 then JSON_ARRAY else NOT_A_KEYWORD) else (if n =
350991914100195643642952 then JSON_DEPTH else NOT_A_KEYWORD)))) else (if n < 350991914100251746587717
then (if n < 350991914100234298476357 then (if n = 350991914100230171087685 then JSON_LOOSE else
NOT_A_KEYWORD) else (if n < 350991914100251745931865 then (if n = 350991914100234298476357 then
JSON_MERGE else NOT_A_KEYWORD) else (if n = 350991914100251745931865 then JSON_QUERY else
NOT_A_KEYWORD))) else (if n < 350991914100272885680452 then (if n < 350991914100264295091269 then (if
n = 350991914100251746587717 then JSON_QUOTE else NOT_A_KEYWORD) else (if n =
350991914100264295091269 then JSON_TABLE else NOT_A_KEYWORD)) else (if n < 350991914100272885683525
then (if n = 350991914100272885680452 then JSON_VALID else NOT_A_KEYWORD) else (if n =
350991914100272885683525 then JSON_VALUE else NOT_A_KEYWORD)))))) else (if n <
388511940480210533827923 then (if n < 374548765145368743398489 then (if n < 364899965079907134167124
then (if n < 364827262046177082954572 then (if n = 360104895591911416157509 then LAST_VALUE else
NOT_A_KEYWORD) else (if n < 364899965079906832633666 then (if n = 364827262046177082954572 then
MASTER_SSL else NOT_A_KEYWORD) else (if n = 364899965079906832633666 then MEDIUMBLOB else
NOT_A_KEYWORD))) else (if n < 369807445273397273843013 then (if n = 364899965079907134167124 then
MEDIUMTEXT else NOT_A_KEYWORD) else (if n < 369807447514201971250501 then (if n =
369807445273397273843013 then NOMAXVALUE else NOT_A_KEYWORD) else (if n = 369807447514201971250501
then NOMINVALUE else NOT_A_KEYWORD)))) else (if n < 379068073328197060609092 then (if n <
374584505710856393806937 then (if n = 374548765145368743398489 then OPTIONALLY else NOT_A_KEYWORD)
else (if n < 378994289441598247751251 then (if n = 374584505710856393806937 then ORDINALITY else
NOT_A_KEYWORD) else (if n = 378994289441598247751251 then PARTITIONS else NOT_A_KEYWORD))) else (if n
< 379307236135420494824787 then (if n < 379068076136413998173780 then (if n =
379068073328197060609092 then PERIOD_ADD else NOT_A_KEYWORD) else (if n = 379068076136413998173780
then PERSISTENT else NOT_A_KEYWORD)) else (if n < 388511579925136395555909 then (if n =
379307236135420494824787 then PRIVILEGES else NOT_A_KEYWORD) else (if n = 388511579925136395555909
then READ_WRITE else NOT_A_KEYWORD))))) else (if n < 397882600195370183115589 then (if n <
388697640205244546498900 then (if n < 388512592645619765041733 then (if n = 388511940480210533827923
then REFERENCES else NOT_A_KEYWORD) else (if n < 388512661037523421776965 then (if n =
388512592645619765041733 then REORGANIZE else NOT_A_KEYWORD) else (if n = 388512661037523421776965
then REPEATABLE else NOT_A_KEYWORD))) else (if n < 393456105285442639318599 then (if n =
388697640205244546498900 then ROW_FORMAT else NOT_A_KEYWORD) else (if n < 393456107558090291102020
then (if n = 393456105285442639318599 then SQLWARNING else NOT_A_KEYWORD) else (if n =
393456107558090291102020 then SQL_THREAD else NOT_A_KEYWORD)))) else (if n < 398142946252885318321235
then (if n < 397882600195421689171269 then (if n = 397882600195370183115589 then TABLESPACE else
NOT_A_KEYWORD) else (if n < 397957540379020926141764 then (if n = 397882600195421689171269 then
TABLE_NAME else NOT_A_KEYWORD) else (if n = 397957540379020926141764 then TERMINATED else
NOT_A_KEYWORD))) else (if n < 412123702522520526995794 then (if n < 407402275033614589185607 then (if
n = 398142946252885318321235 then TO_SECONDS else NOT_A_KEYWORD) else (if n =
407402275033614589185607 then VERSIONING else NOT_A_KEYWORD)) else (if n < 421568149245830586324040
then (if n = 412123702522520526995794 then WEEKOFYEAR else NOT_A_KEYWORD) else (if n =
421568149245830586324040 then YEAR_MONTH else NOT_A_KEYWORD))))))) else (if n <
97102761760919659100066644 then (if n < 89853930009651235906473043 then (if n <
82553225640274009443684183 then (if n < 81400949701345516328144197 then (if n <
81372504965531696275475781 then (if n = 81339245274858254728909896 then CHAR_LENGTH else
NOT_A_KEYWORD) else (if n < 81400949626468727518154579 then (if n = 81372504965531696275475781 then
COLUMN_NAME else NOT_A_KEYWORD) else (if n = 81400949626468727518154579 then CURRENT_POS else
NOT_A_KEYWORD))) else (if n < 82515464080474920322941268 then (if n = 81400949701345516328144197 then
CURSOR_NAME else NOT_A_KEYWORD) else (if n < 82552892663540503292756819 then (if n =
82515464080474920322941268 then DATE_FORMAT else NOT_A_KEYWORD) else (if n =
82552892663540503292756819 then DIAGNOSTICS else NOT_A_KEYWORD)))) else (if n <
85013504292648888236848692 then (if n < 83833004324425938632268357 then (if n =
82553225640274009443684183 then DISTINCTROW else NOT_A_KEYWORD) else (if n <
84970983899048393997239636 then (if n = 83833004324425938632268357 then EXTENT_SIZE else
NOT_A_KEYWORD) else (if n = 84970983899048393997239636 then FIND_IN_SET else NOT_A_KEYWORD))) else
(if n < 87417299873200658707336772 then (if n < 87417299873194079002383429 then (if n =
85013504292648888236848692 then FROM_BASE64 else NOT_A_KEYWORD) else (if n =
87417299873194079002383429 then HOUR_MINUTE else NOT_A_KEYWORD)) else (if n <
88621465491310491185272389 then (if n = 87417299873200658707336772 then HOUR_SECOND else
NOT_A_KEYWORD) else (if n = 88621465491310491185272389 then INSENSITIVE else NOT_A_KEYWORD))))) else
(if n < 89853930009666577195221832 then (if n < 89853930009658880831214664 then (if n <
89853930009651265771099219 then (if n = 89853930009651235906473043 then JSON_EQUALS else
NOT_A_KEYWORD) else (if n < 89853930009655621034791508 then (if n = 89853930009651265771099219 then
JSON_EXISTS else NOT_A_KEYWORD) else (if n = 89853930009655621034791508 then JSON_INSERT else
NOT_A_KEYWORD))) else (if n < 89853930009662166413951828 then (if n = 89853930009658880831214664 then
JSON_LENGTH else NOT_A_KEYWORD) else (if n < 89853930009665477884728901 then (if n =
89853930009662166413951828 then JSON_OBJECT else NOT_A_KEYWORD) else (if n =
89853930009665477884728901 then JSON_REMOVE else NOT_A_KEYWORD)))) else (if n <
93395779083821333269923154 then (if n < 93395779083821333051560788 then (if n =
89853930009666577195221832 then JSON_SEARCH else NOT_A_KEYWORD) else (if n <
93395779083821333185778260 then (if n = 93395779083821333051560788 then MASTER_HOST else
NOT_A_KEYWORD) else (if n = 93395779083821333185778260 then MASTER_PORT else NOT_A_KEYWORD))) else
(if n < 93509115665221929409859151 then (if n < 93433262726479660310285892 then (if n =
93395779083821333269923154 then MASTER_USER else NOT_A_KEYWORD) else (if n =
93433262726479660310285892 then MICROSECOND else NOT_A_KEYWORD)) else (if n <
97041426772018447566587462 then (if n = 93509115665221929409859151 then MYSQL_ERRNO else
NOT_A_KEYWORD) else (if n = 97041426772018447566587462 then PERIOD_DIFF else NOT_A_KEYWORD)))))) else
(if n < 20827682511229583709440526670 then (if n < 100739041314791918114264133 then (if n <
100658574741659234231995717 then (if n < 99459241732242262658207566 then (if n =
97102761760919659100066644 then PROCESSLIST else NOT_A_KEYWORD) else (if n <
99459241732242262843215699 then (if n = 99459241732242262658207566 then REPLICATION else
NOT_A_KEYWORD) else (if n = 99459241732242262843215699 then REPLICA_POS else NOT_A_KEYWORD))) else
(if n < 100667929116387768061742405 then (if n = 100658574741659234231995717 then SCHEMA_NAME else
NOT_A_KEYWORD) else (if n < 100724763534883170931720537 then (if n = 100667929116387768061742405 then
SEC_TO_TIME else NOT_A_KEYWORD) else (if n = 100724763534883170931720537 then SQL_TSI_DAY else
NOT_A_KEYWORD)))) else (if n < 101895926998978821694375235 then (if n < 100762670797092482227719493
then (if n = 100739041314791918114264133 then STR_TO_DATE else NOT_A_KEYWORD) else (if n <
101895926998963428313088340 then (if n = 100762670797092482227719493 then SYSTEM_TIME else
NOT_A_KEYWORD) else (if n = 101895926998963428313088340 then TIME_FORMAT else NOT_A_KEYWORD))) else
(if n < 103128280899068730262439236 then (if n < 101938207581515468161765198 then (if n =
101895926998978821694375235 then TIME_TO_SEC else NOT_A_KEYWORD) else (if n =
101938207581515468161765198 then TRANSACTION else NOT_A_KEYWORD)) else (if n <
20814473719626688486938070341 then (if n = 103128280899068730262439236 then UNCOMMITTED else
NOT_A_KEYWORD) else (if n = 20814473719626688486938070341 then CATALOG_NAME else NOT_A_KEYWORD)))))
else (if n < 21128790263687478861273582661 then (if n < 20838643104375994244445328453 then (if n <
20831361271176114199394075467 then (if n = 20827682511229583709440526670 then CLASS_ORIGIN else
NOT_A_KEYWORD) else (if n < 20831370697821184651955229267 then (if n = 20831361271176114199394075467
then COLUMN_CHECK else NOT_A_KEYWORD) else (if n = 20831370697821184651955229267 then CONTRIBUTORS
else NOT_A_KEYWORD))) else (if n < 20838643104375994244714286405 then (if n <
20838643104375994244681124933 then (if n = 20838643104375994244445328453 then CURRENT_DATE else
NOT_A_KEYWORD) else (if n = 20838643104375994244681124933 then CURRENT_ROLE else NOT_A_KEYWORD)) else
(if n < 20838643104375994244731716946 then (if n = 20838643104375994244714286405 then CURRENT_TIME
else NOT_A_KEYWORD) else (if n = 20838643104375994244731716946 then CURRENT_USER else
NOT_A_KEYWORD)))) else (if n < 23002606082470151208971617108 then (if n <
21461249345919167369109591365 then (if n = 21128790263687478861273582661 then DES_KEY_FILE else
NOT_A_KEYWORD) else (if n < 22687048218446466978796886597 then (if n = 21461249345919167369109591365
then EXTRACTVALUE else NOT_A_KEYWORD) else (if n = 22687048218446466978796886597 then INITIAL_SIZE
else NOT_A_KEYWORD))) else (if n < 23002606082474362351323792197 then (if n <
23002606082470724084628013908 then (if n = 23002606082470151208971617108 then JSON_COMPACT else
NOT_A_KEYWORD) else (if n = 23002606082470724084628013908 then JSON_EXTRACT else NOT_A_KEYWORD)) else
(if n < 23002606082475216676305458245 then (if n = 23002606082474362351323792197 then JSON_REPLACE
else NOT_A_KEYWORD) else (if n = 23002606082475216676305458245 then JSON_UNQUOTE else
NOT_A_KEYWORD)))))))) else (if n < 1730602207846813251575414876489043 then (if n <
6120785778037314894978778874689 then (if n < 25790327666473196711834111822 then (if n <
25461546792234726594401616196 then (if n < 24530711763490004602643240008 then (if n <
23909319445458261243851456857 then (if n = 23616778490284246665582433369 then LOW_PRIORITY else
NOT_A_KEYWORD) else (if n < 23914155129998620614858201172 then (if n = 23909319445458261243851456857
then MASTER_DELAY else NOT_A_KEYWORD) else (if n = 23914155129998620614858201172 then MESSAGE_TEXT
else NOT_A_KEYWORD))) else (if n < 24541517017321489398749942340 then (if n =
24530711763490004602643240008 then OCTET_LENGTH else NOT_A_KEYWORD) else (if n <
24837769752844582764625350215 then (if n = 24541517017321489398749942340 then OLD_PASSWORD else
NOT_A_KEYWORD) else (if n = 24837769752844582764625350215 then PARTITIONING else NOT_A_KEYWORD))))
else (if n < 25785539464496644363332569157 then (if n < 25771060282094179171602418757 then (if n =
25461546792234726594401616196 then RELAY_THREAD else NOT_A_KEYWORD) else (if n <
25785538985598468156394393422 then (if n = 25771060282094179171602418757 then SERIALIZABLE else
NOT_A_KEYWORD) else (if n = 25785538985598468156394393422 then SQLEXCEPTION else NOT_A_KEYWORD)))
else (if n < 25785539464930091758839481675 then (if n < 25785539464930091758588482898 then (if n =
25785539464496644363332569157 then SQL_NO_CACHE else NOT_A_KEYWORD) else (if n =
25785539464930091758588482898 then SQL_TSI_HOUR else NOT_A_KEYWORD)) else (if n <
25785539464930091758873035090 then (if n = 25785539464930091758839481675 then SQL_TSI_WEEK else
NOT_A_KEYWORD) else (if n = 25785539464930091758873035090 then SQL_TSI_YEAR else NOT_A_KEYWORD)))))
else (if n < 5412079537282505034736134079571 then (if n < 5332828485421085235087832863813 then (if n
< 26085357310873871754782131268 then (if n = 25790327666473196711834111822 then SUBPARTITION else
NOT_A_KEYWORD) else (if n < 26694679498100608140607505746 then (if n = 26085357310873871754782131268
then TIMESTAMPADD else NOT_A_KEYWORD) else (if n = 26694679498100608140607505746 then VARCHARACTER
else NOT_A_KEYWORD))) else (if n < 5332828485421085236131627619397 then (if n =
5332828485421085235087832863813 then COLUMN_CREATE else NOT_A_KEYWORD) else (if n <
5408971393777984795494434752835 then (if n = 5332828485421085236131627619397 then COLUMN_DELETE else
NOT_A_KEYWORD) else (if n = 5408971393777984795494434752835 then DETERMINISTIC else NOT_A_KEYWORD))))
else (if n < 5807896362512389568942580453188 then (if n < 5571445017324410282038526561605 then (if n
= 5412079537282505034736134079571 then DO_DOMAIN_IDS else NOT_A_KEYWORD) else (if n <
5727106282245798358116496659545 then (if n = 5571445017324410282038526561605 then FROM_UNIXTIME else
NOT_A_KEYWORD) else (if n = 5727106282245798358116496659545 then HIGH_PRIORITY else NOT_A_KEYWORD)))
else (if n < 5888667157112358710613425868371 then (if n < 5888667157112215444167124404039 then (if n
= 5807896362512389568942580453188 then INSERT_METHOD else NOT_A_KEYWORD) else (if n =
5888667157112215444167124404039 then JSON_ARRAYAGG else NOT_A_KEYWORD)) else (if n <
5888667157112427959973296489796 then (if n = 5888667157112358710613425868371 then JSON_CONTAINS else
NOT_A_KEYWORD) else (if n = 5888667157112427959973296489796 then JSON_DETAILED else
NOT_A_KEYWORD)))))) else (if n < 1325192334885933129691065768957000 then (if n <
6602033669731711557680352938318 then (if n < 6518148866817053728138101475652 then (if n <
6123255618484918477575217434180 then (if n = 6120785778037314894978778874689 then MASTER_SSL_CA else
NOT_A_KEYWORD) else (if n < 6358455688113303281784151299405 then (if n =
6123255618484918477575217434180 then MINUTE_SECOND else NOT_A_KEYWORD) else (if n =
6358455688113303281784151299405 then PAGE_CHECKSUM else NOT_A_KEYWORD))) else (if n <
6518155978812087764016774008659 then (if n = 6518148866817053728138101475652 then REF_SYSTEM_ID else
NOT_A_KEYWORD) else (if n < 6601098103022103490220126000200 then (if n =
6518155978812087764016774008659 then RELAY_LOG_POS else NOT_A_KEYWORD) else (if n =
6601098103022103490220126000200 then SQL_TSI_MONTH else NOT_A_KEYWORD)))) else (if n <
6680622372062197721449444032844 then (if n < 6602323882617138358229532626515 then (if n =
6602033669731711557680352938318 then STRAIGHT_JOIN else NOT_A_KEYWORD) else (if n <
6677851471583711169224276264518 then (if n = 6602323882617138358229532626515 then SUBPARTITIONS else
NOT_A_KEYWORD) else (if n = 6677851471583711169224276264518 then TIMESTAMPDIFF else NOT_A_KEYWORD)))
else (if n < 6914293192625767575005581364807 then (if n < 6760472002747000190348893965648 then (if n
= 6680622372062197721449444032844 then TRANSACTIONAL else NOT_A_KEYWORD) else (if n =
6760472002747000190348893965648 then UTC_TIMESTAMP else NOT_A_KEYWORD)) else (if n <
1325117110747012856425113345936980 then (if n = 6914293192625767575005581364807 then WEIGHT_STRING
else NOT_A_KEYWORD) else (if n = 1325117110747012856425113345936980 then AUTO_INCREMENT else
NOT_A_KEYWORD))))) else (if n < 1566921159177552613114567392445785 then (if n <
1526675122814270336101510218865221 then (if n < 1507498792220966745220051202824773 then (if n =
1325192334885933129691065768957000 then AVG_ROW_LENGTH else NOT_A_KEYWORD) else (if n <
1507498792220984252954815236228935 then (if n = 1507498792220966745220051202824773 then
JSON_NORMALIZE else NOT_A_KEYWORD) else (if n = 1507498792220984252954815236228935 then
JSON_OBJECTAGG else NOT_A_KEYWORD))) else (if n < 1566921159177552611139823034453843 then (if n <
1547742969152444801114828798250320 then (if n = 1526675122814270336101510218865221 then
KEY_BLOCK_SIZE else NOT_A_KEYWORD) else (if n = 1547742969152444801114828798250320 then
LOCALTIMESTAMP else NOT_A_KEYWORD)) else (if n < 1566921159177552613114567391924812 then (if n =
1566921159177552611139823034453843 then MASTER_LOG_POS else NOT_A_KEYWORD) else (if n =
1566921159177552613114567391924812 then MASTER_SSL_CRL else NOT_A_KEYWORD)))) else (if n <
1689881114373658493496326486316101 then (if n < 1668647930575894467588293978049605 then (if n =
1566921159177552613114567392445785 then MASTER_SSL_KEY else NOT_A_KEYWORD) else (if n <
1689881114288471285254228163251284 then (if n = 1668647930575894467588293978049605 then
RELAY_LOG_FILE else NOT_A_KEYWORD) else (if n = 1689881114288471285254228163251284 then
SQL_BIG_RESULT else NOT_A_KEYWORD))) else (if n < 1708892755486778573247664698381645 then (if n <
1689881114373658493502906191269444 then (if n = 1689881114373658493496326486316101 then
SQL_TSI_MINUTE else NOT_A_KEYWORD) else (if n = 1689881114373658493502906191269444 then
SQL_TSI_SECOND else NOT_A_KEYWORD)) else (if n < 1730207312227873312974167141862736 then (if n =
1708892755486778573247664698381645 then TABLE_CHECKSUM else NOT_A_KEYWORD) else (if n =
1730207312227873312974167141862736 then UNIX_TIMESTAMP else NOT_A_KEYWORD))))))) else (if n <
24935394580912740227223497824704016237651 then (if n < 432689898922621196924111958877422936 then (if
n < 401131816749453468451794696652016709 then (if n < 354401623805578602597937336296623684 then (if n
< 339229980319874166255544411154373189 then (if n = 1730602207846813251575414876489043 then
USER_RESOURCES else NOT_A_KEYWORD) else (if n < 349492405466392068084849221461691717 then (if n =
339229980319874166255544411154373189 then AUTOEXTEND_SIZE else NOT_A_KEYWORD) else (if n =
349492405466392068084849221461691717 then CONSTRAINT_NAME else NOT_A_KEYWORD))) else (if n <
354481714207941377740922918428824645 then (if n = 354401623805578602597937336296623684 then
DAY_MICROSECOND else NOT_A_KEYWORD) else (if n < 401131816749453468092916184824958803 then (if n =
354481714207941377740922918428824645 then DELAY_KEY_WRITE else NOT_A_KEYWORD) else (if n =
401131816749453468092916184824958803 then MASTER_GTID_POS else NOT_A_KEYWORD)))) else (if n <
401131816749453469101436743894452548 then (if n < 401131816749453468736097566015312452 then (if n =
401131816749453468451794696652016709 then MASTER_LOG_FILE else NOT_A_KEYWORD) else (if n <
401131816749453468957329252331901524 then (if n = 401131816749453468736097566015312452 then
MASTER_PASSWORD else NOT_A_KEYWORD) else (if n = 401131816749453468957329252331901524 then
MASTER_SSL_CERT else NOT_A_KEYWORD))) else (if n < 432609565279656574336198618658391378 then (if n <
416708627787471651346771316573753426 then (if n = 401131816749453469101436743894452548 then
MASTER_USE_GTID else NOT_A_KEYWORD) else (if n = 416708627787471651346771316573753426 then
PARSE_VCOL_EXPR else NOT_A_KEYWORD)) else (if n < 432689893961109537829931595025828174 then (if n =
432609565279656574336198618658391378 then SQL_TSI_QUARTER else NOT_A_KEYWORD) else (if n =
432689893961109537829931595025828174 then SUBCLASS_ORIGIN else NOT_A_KEYWORD))))) else (if n <
104018993449285433977057478961479239001 then (if n < 96116337679358339989143996926320922180 then (if
n < 89433445964935356227909566468844901448 then (if n = 432689898922621196924111958877422936 then
SUBSTRING_INDEX else NOT_A_KEYWORD) else (if n < 90747319152566880066474158391197387076 then (if n =
89433445964935356227909566468844901448 then CHARACTER_LENGTH else NOT_A_KEYWORD) else (if n =
90747319152566880066474158391197387076 then DELETE_DOMAIN_ID else NOT_A_KEYWORD))) else (if n <
98795440846992020464825633558744023880 then (if n = 96116337679358339989143996926320922180 then
HOUR_MICROSECOND else NOT_A_KEYWORD) else (if n < 102689745087860088052069161243500300612 then (if n
= 98795440846992020464825633558744023880 then JSON_MERGE_PATCH else NOT_A_KEYWORD) else (if n =
102689745087860088052069161243500300612 then MASTER_SERVER_ID else NOT_A_KEYWORD)))) else (if n <
110763401623857314364705629013700595284 then (if n < 109356349629961159359561301552081230405 then (if
n = 104018993449285433977057478961479239001 then NATURAL_SORT_KEY else NOT_A_KEYWORD) else (if n <
110748048711275306335550358590556818516 then (if n = 109356349629961159359561301552081230405 then
REDO_BUFFER_SIZE else NOT_A_KEYWORD) else (if n = 110748048711275306335550358590556818516 then
SQL_SMALL_RESULT else NOT_A_KEYWORD))) else (if n < 22904334284645470574008678583219492572481 then
(if n < 113390764289042720426929497199885244997 then (if n = 110763401623857314364705629013700595284
then STATS_PERSISTENT else NOT_A_KEYWORD) else (if n = 113390764289042720426929497199885244997 then
UNDO_BUFFER_SIZE else NOT_A_KEYWORD)) else (if n < 22912330400335567300744212729561713036624 then (if
n = 22904334284645470574008678583219492572481 then CONSTRAINT_SCHEMA else NOT_A_KEYWORD) else (if n =
22912330400335567300744212729561713036624 then CURRENT_TIMESTAMP else NOT_A_KEYWORD)))))) else (if n
< 6732590752368890342950721839247136719326788 then (if n < 27995308702687979330836522287053865571397
then (if n < 25291632856826259134803921720190781706836 then (if n <
24935394580912740297874893821575432848467 then (if n = 24935394580912740227223497824704016237651 then
IGNORE_DOMAIN_IDS else NOT_A_KEYWORD) else (if n < 25291632856826259134803921711403228286532 then (if
n = 24935394580912740297874893821575432848467 then IGNORE_SERVER_IDS else NOT_A_KEYWORD) else (if n =
25291632856826259134803921711403228286532 then JSON_ARRAY_APPEND else NOT_A_KEYWORD))) else (if n <
26288574742492182541587529880806283629640 then (if n = 25291632856826259134803921720190781706836 then
JSON_ARRAY_INSERT else NOT_A_KEYWORD) else (if n < 26288574742492182541587529880840643822930 then (if
n = 26288574742492182541587529880806283629640 then MASTER_SSL_CAPATH else NOT_A_KEYWORD) else (if n =
26288574742492182541587529880840643822930 then MASTER_SSL_CIPHER else NOT_A_KEYWORD)))) else (if n <
5863509576869240466946221712798442920365895 then (if n < 28351500468742081555401807712739824847956
then (if n = 27995308702687979330836522287053865571397 then RETURNED_SQLSTATE else NOT_A_KEYWORD)
else (if n < 28355430815707454419071821983040839699523 then (if n =
28351500468742081555401807712739824847956 then SQL_BUFFER_RESULT else NOT_A_KEYWORD) else (if n =
28355430815707454419071821983040839699523 then STATS_AUTO_RECALC else NOT_A_KEYWORD))) else (if n <
6729875134077998730646407649505083377407048 then (if n < 6474658011347679861633380404012913891824712
then (if n = 5863509576869240466946221712798442920365895 then CONSTRAINT_CATALOG else NOT_A_KEYWORD)
else (if n = 6474658011347679861633380404012913891824712 then JSON_CONTAINS_PATH else NOT_A_KEYWORD))
else (if n < 6729881837617346006477562621833819567246661 then (if n =
6729875134077998730646407649505083377407048 then MASTER_SSL_CRLPATH else NOT_A_KEYWORD) else (if n =
6729881837617346006477562621833819567246661 then MAX_STATEMENT_TIME else NOT_A_KEYWORD))))) else (if
n < 441049096786935723542756769057674275526628627033 then (if n <
7258990288821113877801007328216276426769747 then (if n < 6821767339722446960558065178549496155230023
then (if n = 6732590752368890342950721839247136719326788 then MINUTE_MICROSECOND else NOT_A_KEYWORD)
else (if n < 7253888685708259597908619737890687508500036 then (if n =
6821767339722446960558065178549496155230023 then NO_WRITE_TO_BINLOG else NOT_A_KEYWORD) else (if n =
7253888685708259597908619737890687508500036 then SECOND_MICROSECOND else NOT_A_KEYWORD))) else (if n
< 1858043934724268179953169828587129418355267411 then (if n <
1657512450905208077614800056556665827948123717 then (if n =
7258990288821113877801007328216276426769747 then STATS_SAMPLE_PAGES else NOT_A_KEYWORD) else (if n =
1657512450905208077614800056556665827948123717 then JSON_MERGE_PRESERVE else NOT_A_KEYWORD)) else (if
n < 1902381004506811605194378508413194242267501640 then (if n =
1858043934724268179953169828587129418355267411 then SQL_CALC_FOUND_ROWS else NOT_A_KEYWORD) else (if
n = 1902381004506811605194378508413194242267501640 then UNCOMPRESSED_LENGTH else NOT_A_KEYWORD))))
else (if n < 441049536112743732554441498701217275018633760339 then (if n <
441049536107437205158212671703633457976196420946 then (if n =
441049096786935723542756769057674275526628627033 then MASTER_CONNECT_RETRY else NOT_A_KEYWORD) else
(if n < 441049536112728134031175629770976666454145848658 then (if n =
441049536107437205158212671703633457976196420946 then MAX_QUERIES_PER_HOUR else NOT_A_KEYWORD) else
(if n = 441049536112728134031175629770976666454145848658 then MAX_UPDATES_PER_HOUR else
NOT_A_KEYWORD))) else (if n < 1894293333417355045909557633822477738778421469575782552914 then (if n <
7399575963399326618587069210510746284481756854743551812 then (if n =
441049536112743732554441498701217275018633760339 then MAX_USER_CONNECTIONS else NOT_A_KEYWORD) else
(if n = 7399575963399326618587069210510746284481756854743551812 then MASTER_HEARTBEAT_PERIOD else
NOT_A_KEYWORD)) else (if n < 2082795471966555398364581040027348156862791012386800684220771371143764
then (if n = 1894293333417355045909557633822477738778421469575782552914 then MAX_CONNECTIONS_PER_HOUR
else NOT_A_KEYWORD) else (if n =
2082795471966555398364581040027348156862791012386800684220771371143764 then
MASTER_SSL_VERIFY_SERVER_CERT else NOT_A_KEYWORD)))))))))))

end Keyword

/-- Span from the repository (a half-open byte-offset range over the source text, Rust Range of usize); field names start and stop (Rust start and end). -/
structure Span where
  start : Nat
  stop : Nat
deriving DecidableEq, Repr

/-- Span join from the span algebra: the smallest span containing both. -/
def Span.join (a b : Span) : Span := ⟨min a.start b.start, max a.stop b.stop⟩

/-- join_span with an optionally spanned value: joining an absent value is the identity. -/
def Span.join_span (a : Span) (b : Option Span) : Span :=
  match b with
  | some s => a.join s
  | none => a

/-- optional join of two optional spans (OptSpanned composition). -/
def optJoin : Option Span → Option Span → Option Span
  | none, b => b
  | some a, none => some a
  | some a, some b => some (a.join b)

/-- opt_span of a sequence of optionally spanned values: union across all elements, absent when all are absent. -/
def listOptSpanO (f : α → Option Span) (l : List α) : Option Span :=
  l.foldl (fun acc x => optJoin acc (f x)) none

/-- opt_span of a sequence of spanned values: union across all elements, absent when the sequence is empty. -/
def listOptSpan (f : α → Span) (l : List α) : Option Span :=
  listOptSpanO (fun x => some (f x)) l

/-- Token from the lexer boundary (spec section 3): punctuation marks and identifier-shaped tokens carrying the raw text and resolved keyword classification; literal variants added for the value positions exercised by the specified scenarios. -/
inductive Token where
  | Ident (text : String) (keyword : Keyword)
  | SingleQuotedString (text : String)
  | Integer (value : Nat)
  | LParen
  | RParen
  | Comma
  | Period
  | Eq
  | At
  | SemiColon
  | Eof
deriving DecidableEq, Repr

/-- Modelled from the spec: a short human-readable name for a token, used for diagnostics (Token::name, used for the statement delimiter description in parse_create_table). -/
def Token.name : Token → String
  | Ident t _ => t
  | SingleQuotedString _ => "string"
  | Integer _ => "integer"
  | LParen => "("
  | RParen => ")"
  | Comma => ","
  | Period => "."
  | Eq => "="
  | At => "@"
  | SemiColon => ";"
  | Eof => "end of file"

/-- Identifier AST leaf: raw text plus its span. -/
structure Identifier where
  value : String
  span : Span
deriving DecidableEq, Repr

/-- SString AST leaf: string literal content plus its span. -/
structure SString where
  value : String
  span : Span
deriving DecidableEq, Repr

/-- Issue severity (spec section 3: error or warning). -/
inductive IssueLevel where
  | Error
  | Warning
deriving DecidableEq, Repr

/-- Issue from the diagnostics boundary: severity, message, primary span, and ordered labelled fragments. Issues are pure data and never alter control flow. -/
structure Issue where
  level : IssueLevel
  message : String
  span : Span
  fragments : List (String × Span)
deriving DecidableEq, Repr

/-- Issue::err constructor: an error-severity issue with no fragments. -/
def Issue.err (m : String) (s : Span) : Issue := ⟨IssueLevel.Error, m, s, []⟩

/-- Issue::frag: append a labelled secondary fragment. -/
def Issue.frag (i : Issue) (label : String) (s : Span) : Issue :=
  { i with fragments := i.fragments ++ [(label, s)] }

/-- Modelled from the spec: a structural parse failure carries the human-readable description of what was expected and the position (spec section 4.2, expected_failure). -/
structure ParseError where
  message : String
  span : Span
deriving DecidableEq, Repr

/-- Modelled from the spec: the parser core state (spec section 4.2): current token and its span, the remaining classified token stream, the issue sink, and the configured statement delimiter. -/
structure Parser where
  token : Token
  span : Span
  rest : List (Token × Span)
  issues : List Issue
  delimiter : Token
deriving DecidableEq, Repr

/-- Modelled from the spec: advance the cursor one token; at the end of the stream the current token becomes end-of-input. -/
def advance (p : Parser) : Parser :=
  match p.rest with
  | [] => { p with token := Token.Eof }
  | (t, s) :: r => { p with token := t, span := s, rest := r }

/-- Modelled from the spec: unconditionally consume the current token, returning its span. -/
def Parser.consume (p : Parser) : Span × Parser := (p.span, advance p)

/-- append an issue to the issue sink. -/
def Parser.pushIssue (p : Parser) (i : Issue) : Parser :=
  { p with issues := p.issues ++ [i] }

/-- Modelled from the spec: record an expected-item diagnostic without failing (used by the REPLACE body dispatch, which reports without aborting). -/
def Parser.expected_error (p : Parser) (desc : String) : Parser :=
  p.pushIssue (Issue.err desc p.span)

/-- Modelled from the spec: raise a structural parse failure carrying a description of what was expected at the current position. -/
def Parser.expected_failure (p : Parser) (desc : String) : Except ParseError α × Parser :=
  (Except.error ⟨desc, p.span⟩, p)

/-- Modelled from the spec: consume_token: fail if the current token differs, otherwise advance and return the consumed span. -/
def Parser.consume_token (p : Parser) (t : Token) : Except ParseError Span × Parser :=
  if p.token = t then (Except.ok p.span, advance p) else p.expected_failure t.name

/-- Modelled from the spec: consume_keyword: like consume_token but matching the resolved keyword classification of an identifier-shaped token. -/
def Parser.consume_keyword (p : Parser) (k : Keyword) : Except ParseError Span × Parser :=
  match p.token with
  | Token.Ident _ kw => if kw = k then (Except.ok p.span, advance p) else p.expected_failure k.name
  | _ => p.expected_failure k.name

/-- Modelled from the spec: consume_keywords: require the exact keyword sequence and return the join of all consumed spans. -/
def Parser.consume_keywords (p : Parser) (ks : List Keyword) : Except ParseError Span × Parser :=
  match ks with
  | [] => (Except.ok p.span, p)
  | [k] => p.consume_keyword k
  | k :: rest =>
    match p.consume_keyword k with
    | (Except.error e, p') => (Except.error e, p')
    | (Except.ok s, p') =>
      match p'.consume_keywords rest with
      | (Except.error e, p2) => (Except.error e, p2)
      | (Except.ok s2, p2) => (Except.ok (s.join s2), p2)

/-- Modelled from the spec: skip_token: non-failing probe; consume and return the span when present, otherwise leave the cursor untouched. -/
def Parser.skip_token (p : Parser) (t : Token) : Option Span × Parser :=
  if p.token = t then (some p.span, advance p) else (none, p)

/-- Modelled from the spec: skip_keyword: non-failing probe on the keyword classification. -/
def Parser.skip_keyword (p : Parser) (k : Keyword) : Option Span × Parser :=
  match p.token with
  | Token.Ident _ kw => if kw = k then (some p.span, advance p) else (none, p)
  | _ => (none, p)

/-- Modelled from the spec (section 4.3): consume a plain identifier: fail on non-identifier-shaped tokens and on reserved classifications, otherwise return the raw text with its span. -/
def Parser.consume_plain_identifier (p : Parser) : Except ParseError Identifier × Parser :=
  match p.token with
  | Token.Ident text kw =>
    if kw.reserved then p.expected_failure "identifier"
    else (Except.ok ⟨text, p.span⟩, advance p)
  | _ => p.expected_failure "identifier"

/-- Modelled from the spec: consume a string literal token. -/
def Parser.consume_string (p : Parser) : Except ParseError SString × Parser :=
  match p.token with
  | Token.SingleQuotedString s => (Except.ok ⟨s, p.span⟩, advance p)
  | _ => p.expected_failure "string"

/-- Modelled from the spec: advance the cursor token by token until the synchronization predicate matches or end-of-input is reached. -/
def skipUntil (sync : Token → Bool) (p : Parser) : Parser :=
  if sync p.token || p.token = Token.Eof then p
  else
    match h : p.rest with
    | [] => { p with token := Token.Eof }
    | _ :: _ => skipUntil sync (advance p)
termination_by p.rest.length
decreasing_by simp [advance, h]

/-- Modelled from the spec (section 4.2, recovered): run the body; on failure convert the failure into a recorded issue and advance to the synchronization point, returning the body partial state as if it had succeeded. -/
def Parser.recovered (p : Parser) (_desc : String) (sync : Token → Bool)
    (body : Parser → σ × Option ParseError × Parser) : σ × Parser :=
  match body p with
  | (s, none, p') => (s, p')
  | (s, some e, p') => (s, skipUntil sync (p'.pushIssue (Issue.err e.message e.span)))

/-- Modelled from the spec: expression AST fragment produced by the expression-parser collaborator (section 6), covering the literal and identifier value positions exercised by the specified scenarios. -/
inductive Expression where
  | IntLit (value : Nat) (span : Span)
  | StrLit (value : String) (span : Span)
  | IdentE (name : String) (span : Span)
deriving DecidableEq, Repr

/-- span of an expression fragment. -/
def Expression.span : Expression → Span
  | IntLit _ s => s
  | StrLit _ s => s
  | IdentE _ s => s

/-- Modelled from the spec: the expression-parser collaborator (section 6), specified only at its boundary; modelled as consuming one literal token, or one identifier-shaped token subject to the expression-identifier rule of section 4.3 (a reserved word is rejected in value position unless it carries the expr-ident facet). -/
def parse_expression (p : Parser) (_inner : Bool) : Except ParseError Expression × Parser :=
  match p.token with
  | Token.Integer v => (Except.ok (Expression.IntLit v p.span), advance p)
  | Token.SingleQuotedString s => (Except.ok (Expression.StrLit s p.span), advance p)
  | Token.Ident text kw =>
    if kw.expr_ident then (Except.ok (Expression.IdentE text p.span), advance p)
    else p.expected_failure "expression"
  | _ => p.expected_failure "expression"

/-- Modelled from the spec: select AST fragment produced by the select-parser collaborator (section 6), modelled as the SELECT keyword span plus its selected expressions. -/
structure Select where
  select_span : Span
  exprs : List Expression
deriving DecidableEq, Repr

/-- span of a select fragment. -/
def Select.span (s : Select) : Span :=
  s.select_span.join_span (listOptSpan Expression.span s.exprs)

/-- Modelled from the spec: comma-separated expression list of the select collaborator. -/
def select_exprs_loop (exprs : List Expression) (p : Parser) :
    Nat → Except ParseError (List Expression) × Parser
  | 0 => (Except.error ⟨"recursion fuel exhausted", p.span⟩, p)
  | fuel + 1 =>
    match parse_expression p false with
    | (Except.error e, p') => (Except.error e, p')
    | (Except.ok ex, p1) =>
      match p1.skip_token Token.Comma with
      | (none, p2) => (Except.ok (exprs ++ [ex]), p2)
      | (some _, p2) => select_exprs_loop (exprs ++ [ex]) p2 fuel

/-- Modelled from the spec: the select-parser collaborator (section 6), specified only at its boundary; modelled minimally as SELECT followed by a comma-separated expression list. -/
def parse_select (p : Parser) : Except ParseError Select × Parser :=
  match p.consume_keyword Keyword.SELECT with
  | (Except.error e, p') => (Except.error e, p')
  | (Except.ok select_span, p1) =>
    match select_exprs_loop [] p1 (p1.rest.length + 1) with
    | (Except.error e, p') => (Except.error e, p')
    | (Except.ok exprs, p2) => (Except.ok ⟨select_span, exprs⟩, p2)

/-- Modelled from the spec: data-type AST fragment of the data-type-parser collaborator (section 6), covering the integer type exercised by scenario 1. -/
inductive DataType where
  | Int (span : Span)
deriving DecidableEq, Repr

/-- span of a data type fragment. -/
def DataType.span : DataType → Span
  | Int s => s

/-- Modelled from the spec: the data-type-parser collaborator (section 6), specified only at its boundary; modelled minimally for the integer type keywords. -/
def parse_data_type (p : Parser) : Except ParseError DataType × Parser :=
  match p.token with
  | Token.Ident _ Keyword.INT => (Except.ok (DataType.Int p.span), advance p)
  | Token.Ident _ Keyword.INTEGER => (Except.ok (DataType.Int p.span), advance p)
  | _ => p.expected_failure "data type"

/-- ReplaceFlag from src/replace.rs: flags for replace. -/
inductive ReplaceFlag where
  | LowPriority (span : Span)
  | Delayed (span : Span)
deriving DecidableEq, Repr

/-- Spanned for ReplaceFlag from src/replace.rs. -/
def ReplaceFlag.span : ReplaceFlag → Span
  | LowPriority v => v
  | Delayed v => v

/-- Replace from src/replace.rs: representation of a replace statement. -/
structure Replace where
  replace_span : Span
  flags : List ReplaceFlag
  into_span : Option Span
  table : List Identifier
  columns : List Identifier
  values : Option (Span × List (List Expression))
  select : Option Select
  set : Option (Span × List (Identifier × Expression))
deriving DecidableEq, Repr

/-- opt_span of the values field (an optional pair of the VALUES span and the rows of expressions). -/
def valuesOptSpan (v : Option (Span × List (List Expression))) : Option Span :=
  v.map (fun pr => pr.1.join_span (listOptSpanO (fun row => listOptSpan Expression.span row) pr.2))

/-- opt_span of the set field (an optional pair of the SET span and the key-value pairs). -/
def setOptSpan (v : Option (Span × List (Identifier × Expression))) : Option Span :=
  v.map (fun pr => pr.1.join_span
    (listOptSpan (fun kv => (kv.1.span).join kv.2.span) pr.2))

/-- Spanned for Replace from src/replace.rs lines 81-91: the join of replace_span, flags, into_span, table, values, columns and select (the source joins exactly these fields). -/
def Replace.span (r : Replace) : Span :=
  (((((r.replace_span.join_span
    (listOptSpan ReplaceFlag.span r.flags)).join_span
    r.into_span).join_span
    (listOptSpan Identifier.span r.table)).join_span
    (valuesOptSpan r.values)).join_span
    (listOptSpan Identifier.span r.columns)).join_span
    (r.select.map Select.span)

/-- Stated from the claim (C1) for comparison with Replace.span: the join of every field consumed to build the node, namely replace_span, flags, into_span, table, columns, values, select, and, when present, the SET clause span and key-value pairs. -/
def Replace.spec_span (r : Replace) : Span :=
  ((((((r.replace_span.join_span
    (listOptSpan ReplaceFlag.span r.flags)).join_span
    r.into_span).join_span
    (listOptSpan Identifier.span r.table)).join_span
    (listOptSpan Identifier.span r.columns)).join_span
    (valuesOptSpan r.values)).join_span
    (r.select.map Select.span)).join_span
    (setOptSpan r.set)

/-- parse_replace flags loop from src/replace.rs lines 99-109: each iteration consumes a LOW_PRIORITY or DELAYED keyword and appends the matching flag, breaking on the first other token. -/
def replace_flags_loop (flags : List ReplaceFlag) (p : Parser) :
    Nat → Except ParseError (List ReplaceFlag) × Parser
  | 0 => (Except.error ⟨"recursion fuel exhausted", p.span⟩, p)
  | fuel + 1 =>
    match p.token with
    | Token.Ident _ Keyword.LOW_PRIORITY =>
      match p.consume_keyword Keyword.LOW_PRIORITY with
      | (Except.error e, p') => (Except.error e, p')
      | (Except.ok s, p') => replace_flags_loop (flags ++ [ReplaceFlag.LowPriority s]) p' fuel
    | Token.Ident _ Keyword.DELAYED =>
      match p.consume_keyword Keyword.DELAYED with
      | (Except.error e, p') => (Except.error e, p')
      | (Except.ok s, p') => replace_flags_loop (flags ++ [ReplaceFlag.Delayed s]) p' fuel
    | _ => (Except.ok flags, p)

/-- parse_replace dotted table-name loop from src/replace.rs lines 113-118. -/
def replace_table_loop (table : List Identifier) (p : Parser) :
    Nat → Except ParseError (List Identifier) × Parser
  | 0 => (Except.error ⟨"recursion fuel exhausted", p.span⟩, p)
  | fuel + 1 =>
    match p.skip_token Token.Period with
    | (none, p') => (Except.ok table, p')
    | (some _, p') =>
      match p'.consume_plain_identifier with
      | (Except.error e, p2) => (Except.error e, p2)
      | (Except.ok id, p2) => replace_table_loop (table ++ [id]) p2 fuel

/-- parse_replace column-list loop from src/replace.rs lines 124-129 (the body of the recovered scope). -/
def replace_columns_loop (cols : List Identifier) (p : Parser) :
    Nat → List Identifier × Option ParseError × Parser
  | 0 => (cols, some ⟨"recursion fuel exhausted", p.span⟩, p)
  | fuel + 1 =>
    match p.consume_plain_identifier with
    | (Except.error e, p') => (cols, some e, p')
    | (Except.ok c, p1) =>
      match p1.skip_token Token.Comma with
      | (none, p2) => (cols ++ [c], none, p2)
      | (some _, p2) => replace_columns_loop (cols ++ [c]) p2 fuel

/-- parse_replace inner VALUES expression loop from src/replace.rs lines 149-154 (the body of the recovered scope). -/
def replace_values_inner (vals : List Expression) (p : Parser) :
    Nat → List Expression × Option ParseError × Parser
  | 0 => (vals, some ⟨"recursion fuel exhausted", p.span⟩, p)
  | fuel + 1 =>
    match parse_expression p false with
    | (Except.error e, p') => (vals, some e, p')
    | (Except.ok ex, p1) =>
      match p1.skip_token Token.Comma with
      | (none, p2) => (vals ++ [ex], none, p2)
      | (some _, p2) => replace_values_inner (vals ++ [ex]) p2 fuel

/-- parse_replace outer VALUES row loop from src/replace.rs lines 145-162. -/
def replace_values_outer (items : List (List Expression)) (p : Parser) :
    Nat → Except ParseError (List (List Expression)) × Parser
  | 0 => (Except.error ⟨"recursion fuel exhausted", p.span⟩, p)
  | fuel + 1 =>
    match p.consume_token Token.LParen with
    | (Except.error e, p') => (Except.error e, p')
    | (Except.ok _, p1) =>
      let (vals, p2) := p1.recovered ")" (fun t => t = Token.RParen)
        (fun q => replace_values_inner [] q (q.rest.length + 1))
      match p2.consume_token Token.RParen with
      | (Except.error e, p') => (Except.error e, p')
      | (Except.ok _, p3) =>
        match p3.skip_token Token.Comma with
        | (none, p4) => (Except.ok (items ++ [vals]), p4)
        | (some _, p4) => replace_values_outer (items ++ [vals]) p4 fuel

/-- parse_replace SET key-value loop from src/replace.rs lines 168-176. -/
def replace_set_loop (kvps : List (Identifier × Expression)) (p : Parser) :
    Nat → Except ParseError (List (Identifier × Expression)) × Parser
  | 0 => (Except.error ⟨"recursion fuel exhausted", p.span⟩, p)
  | fuel + 1 =>
    match p.consume_plain_identifier with
    | (Except.error e, p') => (Except.error e, p')
    | (Except.ok col, p1) =>
      match p1.consume_token Token.Eq with
      | (Except.error e, p') => (Except.error e, p')
      | (Except.ok _, p2) =>
        match parse_expression p2 false with
        | (Except.error e, p') => (Except.error e, p')
        | (Except.ok val, p3) =>
          match p3.skip_token Token.Comma with
          | (none, p4) => (Except.ok (kvps ++ [(col, val)]), p4)
          | (some _, p4) => replace_set_loop (kvps ++ [(col, val)]) p4 fuel

/-- parse_replace head from src/replace.rs lines 96-133: consume REPLACE, the flag loop, the optional INTO, the dot-joined table name, and the optional parenthesized column list (recovered at the closing parenthesis). -/
def parse_replace_head (p : Parser) :
    Except ParseError (Span × List ReplaceFlag × Option Span × List Identifier × List Identifier) × Parser :=
  match p.consume_keyword Keyword.REPLACE with
  | (Except.error e, p') => (Except.error e, p')
  | (Except.ok replace_span, p1) =>
    match replace_flags_loop [] p1 (p1.rest.length + 1) with
    | (Except.error e, p') => (Except.error e, p')
    | (Except.ok flags, p2) =>
      let (into_span, p3) := p2.skip_keyword Keyword.INTO
      match p3.consume_plain_identifier with
      | (Except.error e, p') => (Except.error e, p')
      | (Except.ok id0, p4) =>
        match replace_table_loop [id0] p4 (p4.rest.length + 1) with
        | (Except.error e, p') => (Except.error e, p')
        | (Except.ok table, p5) =>
          match p5.skip_token Token.LParen with
          | (none, p6) => (Except.ok (replace_span, flags, into_span, table, []), p6)
          | (some _, p6) =>
            let (columns, p7) := p6.recovered ")" (fun t => t = Token.RParen)
              (fun q => replace_columns_loop [] q (q.rest.length + 1))
            match p7.consume_token Token.RParen with
            | (Except.error e, p') => (Except.error e, p')
            | (Except.ok _, p8) => (Except.ok (replace_span, flags, into_span, table, columns), p8)

/-- parse_replace body dispatch from src/replace.rs lines 135-188: the hard three-way SELECT / VALUE-VALUES / SET alternative; an unmatched token reports the expected alternatives without aborting, leaving all three results absent; in the SET branch a non-empty column list is reported as an issue with a fragment pointing at SET. -/
def parse_replace_body (columns : List Identifier) (p : Parser) :
    Except ParseError (Option Select × Option (Span × List (List Expression)) × Option (Span × List (Identifier × Expression))) × Parser :=
  match p.token with
  | Token.Ident _ Keyword.SELECT =>
    match parse_select p with
    | (Except.error e, p') => (Except.error e, p')
    | (Except.ok sel, p') => (Except.ok (some sel, none, none), p')
  | Token.Ident _ Keyword.VALUE
  | Token.Ident _ Keyword.VALUES =>
    let (values_span, p1) := p.consume
    match replace_values_outer [] p1 (p1.rest.length + 1) with
    | (Except.error e, p') => (Except.error e, p')
    | (Except.ok items, p2) => (Except.ok (none, some (values_span, items), none), p2)
  | Token.Ident _ Keyword.SET =>
    match p.consume_keyword Keyword.SET with
    | (Except.error e, p') => (Except.error e, p')
    | (Except.ok set_span, p1) =>
      match replace_set_loop [] p1 (p1.rest.length + 1) with
      | (Except.error e, p') => (Except.error e, p')
      | (Except.ok kvps, p2) =>
        let p3 :=
          match listOptSpan Identifier.span columns with
          | some cs => p2.pushIssue
              ((Issue.err "Columns may not be used here" cs).frag "Together with SET" set_span)
          | none => p2
        (Except.ok (none, none, some (set_span, kvps)), p3)
  | _ => (Except.ok (none, none, none), p.expected_error "Expected VALUE, VALUES, SELECT or SET")

/-- parse_replace from src/replace.rs lines 93-204, assembled from its head and body phases; returns the assembled Replace node. -/
def parse_replace (p : Parser) : Except ParseError Replace × Parser :=
  match parse_replace_head p with
  | (Except.error e, p') => (Except.error e, p')
  | (Except.ok (replace_span, flags, into_span, table, columns), p1) =>
    match parse_replace_body columns p1 with
    | (Except.error e, p') => (Except.error e, p')
    | (Except.ok (select, values, set), p2) =>
      (Except.ok
        { replace_span := replace_span
          flags := flags
          into_span := into_span
          table := table
          columns := columns
          values := values
          select := select
          set := set }, p2)

/-- TableOption from src/create.rs lines 24-128: options on a CREATE TABLE statement, each carrying the span of its introducing identifier and its value. -/
inductive TableOption where
  | AutoExtendSize (identifier : Span) (value : Identifier)
  | AutoIncrement (identifier : Span) (value : Identifier)
  | AvgRowLength (identifier : Span) (value : Identifier)
  | CharSet (identifier : Span) (value : Identifier)
  | DefaultCharSet (identifier : Span) (value : Identifier)
  | Checksum (identifier : Span) (value : Bool × Span)
  | Collate (identifier : Span) (value : Identifier)
  | DefaultCollate (identifier : Span) (value : Identifier)
  | Comment (identifier : Span) (value : SString)
  | Compression (identifier : Span) (value : SString)
  | Connection (identifier : Span) (value : SString)
  | DataDirectory (identifier : Span) (value : SString)
  | IndexDirectory (identifier : Span) (value : SString)
  | DelayKeyWrite (identifier : Span) (value : Bool × Span)
  | Encryption (identifier : Span) (value : Bool × Span)
  | Engine (identifier : Span) (value : Identifier)
  | EngineAttribute (identifier : Span) (value : SString)
  | InsertMethod (identifier : Span) (value : Identifier)
  | KeyBlockSize (identifier : Span) (value : Nat × Span)
  | MaxRows (identifier : Span) (value : Nat × Span)
  | MinRows (identifier : Span) (value : Nat × Span)
  | Password (identifier : Span) (value : SString)
  | RowFormat (identifier : Span) (value : Identifier)
  | SecondaryEngineAttribute (identifier : Span) (value : SString)
deriving DecidableEq, Repr

/-- CreateDefinition from src/create.rs lines 165-171. -/
inductive CreateDefinition where
  | ColumnDefinition (identifier : Identifier) (data_type : DataType)
deriving DecidableEq, Repr

/-- Spanned for CreateDefinition from src/create.rs lines 173-182. -/
def CreateDefinition.span : CreateDefinition → Span
  | ColumnDefinition identifier data_type => (identifier.span).join data_type.span

/-- CreateAlgorithm from src/create.rs lines 184-189. -/
inductive CreateAlgorithm where
  | Undefined (span : Span)
  | Merge (span : Span)
  | TempTable (span : Span)
deriving DecidableEq, Repr

/-- Spanned for CreateAlgorithm from src/create.rs lines 190-198. -/
def CreateAlgorithm.span : CreateAlgorithm → Span
  | Undefined s => s
  | Merge s => s
  | TempTable s => s

/-- CreateOption from src/create.rs lines 200-212: the optional, order-insensitive modifier clauses between CREATE and the statement sub-kind keyword. -/
inductive CreateOption where
  | OrReplace (span : Span)
  | Temporary (span : Span)
  | Algorithm (span : Span) (algorithm : CreateAlgorithm)
  | Definer (definer_span : Span) (user : Identifier) (host : Identifier)
  | SqlSecurityDefiner (a : Span) (b : Span)
  | SqlSecurityUser (a : Span) (b : Span)
deriving DecidableEq, Repr

/-- Spanned for CreateOption from src/create.rs lines 213-228. -/
def CreateOption.span : CreateOption → Span
  | OrReplace v => v
  | Temporary v => v
  | Algorithm s a => s.join a.span
  | Definer definer_span user host => (definer_span.join user.span).join host.span
  | SqlSecurityDefiner a b => a.join b
  | SqlSecurityUser a b => a.join b

/-- CreateTable from src/create.rs lines 230-239. -/
structure CreateTable where
  create_span : Span
  create_options : List CreateOption
  table_span : Span
  identifier : Identifier
  if_not_exists : Option Span
  create_definitions : List CreateDefinition
  options : List TableOption
deriving DecidableEq, Repr

/-- CreateView from src/create.rs lines 253-262. -/
structure CreateView where
  create_span : Span
  create_options : List CreateOption
  view_span : Span
  if_not_exists : Option Span
  name : Identifier
  as_span : Span
  select : Select
deriving DecidableEq, Repr

/-- FunctionCharacteristic from src/create.rs lines 325-337. -/
inductive FunctionCharacteristic where
  | LanguageSql (span : Span)
  | NotDeterministic (span : Span)
  | Deterministic (span : Span)
  | ContainsSql (span : Span)
  | NoSql (span : Span)
  | ReadsSqlData (span : Span)
  | ModifiesSqlData (span : Span)
  | SqlSecurityDefiner (span : Span)
  | SqlSecurityUser (span : Span)
  | Comment (value : SString)
deriving DecidableEq, Repr

/-- TriggerTime from src/create.rs lines 495-500. -/
inductive TriggerTime where
  | Before (span : Span)
  | After (span : Span)
deriving DecidableEq, Repr

/-- TriggerEvent from src/create.rs lines 511-516. -/
inductive TriggerEvent where
  | Update (span : Span)
  | Insert (span : Span)
  | Delete (span : Span)
deriving DecidableEq, Repr

mutual

/-- CreateFunction from src/create.rs lines 356-369 (its return_ field holds a boxed Statement). -/
inductive CreateFunction where
  | mk (create_span : Span) (create_options : List CreateOption) (function_span : Span)
      (if_not_exists : Option Span) (name : Identifier)
      (params : List (Identifier × DataType)) (returns_span : Span)
      (return_type : DataType) (characteristics : List FunctionCharacteristic)
      (return_span : Span) (return_ : Statement)

/-- CreateTrigger from src/create.rs lines 528-541 (its statement field holds a boxed Statement). -/
inductive CreateTrigger where
  | mk (create_span : Span) (create_options : List CreateOption) (trigger_span : Span)
      (if_not_exists : Option Span) (name : Identifier) (trigger_time : TriggerTime)
      (trigger_event : TriggerEvent) (on_span : Span) (table : Identifier)
      (for_each_row_span : Span) (statement : Statement)

/-- Statement variants from the repository that the embedded productions produce; the SelectStmt variant belongs to the statement-dispatcher collaborator model. -/
inductive Statement where
  | CreateTable (c : CreateTable)
  | CreateView (c : CreateView)
  | CreateFunction (c : CreateFunction)
  | CreateTrigger (c : CreateTrigger)
  | SelectStmt (s : Select)

end

/-- Modelled from the spec: the generic statement dispatcher collaborator (section 6), specified only at its boundary: it returns a statement or nothing (absence signalling no statement present); modelled minimally as recognizing a SELECT statement. -/
def parse_statement (p : Parser) : Except ParseError (Option Statement) × Parser :=
  match p.token with
  | Token.Ident _ Keyword.SELECT =>
    match parse_select p with
    | (Except.error e, p') => (Except.error e, p')
    | (Except.ok s, p') => (Except.ok (some (Statement.SelectStmt s)), p')
  | _ => (Except.ok none, p)

/-- parse_create_definition from src/create.rs lines 276-286. -/
def parse_create_definition (p : Parser) : Except ParseError CreateDefinition × Parser :=
  match p.token with
  | Token.Ident _ _ =>
    match p.consume_plain_identifier with
    | (Except.error e, p') => (Except.error e, p')
    | (Except.ok identifier, p1) =>
      match parse_data_type p1 with
      | (Except.error e, p') => (Except.error e, p')
      | (Except.ok data_type, p2) =>
        (Except.ok (CreateDefinition.ColumnDefinition identifier data_type), p2)
  | _ => p.expected_failure "identifier"

/-- continuation of parse_create_view (src/create.rs lines 305-322) after the IF NOT EXISTS probe: name, AS, and the select body. -/
def parse_create_view_tail (p : Parser) (create_span : Span) (create_options : List CreateOption)
    (view_span : Span) (if_not_exists : Option Span) :
    Except ParseError Statement × Parser :=
  match p.consume_plain_identifier with
  | (Except.error e, p') => (Except.error e, p')
  | (Except.ok name, p1) =>
    match p1.consume_keyword Keyword.AS with
    | (Except.error e, p') => (Except.error e, p')
    | (Except.ok as_span, p2) =>
      match parse_select p2 with
      | (Except.error e, p') => (Except.error e, p')
      | (Except.ok select, p3) =>
        (Except.ok (Statement.CreateView
          { create_span := create_span
            create_options := create_options
            view_span := view_span
            if_not_exists := if_not_exists
            name := name
            as_span := as_span
            select := select }), p3)

/-- parse_create_view from src/create.rs lines 288-323: VIEW keyword, optional IF NOT EXISTS, name, AS, and the select body. -/
def parse_create_view (p : Parser) (create_span : Span) (create_options : List CreateOption) :
    Except ParseError Statement × Parser :=
  match p.consume_keyword Keyword.VIEW with
  | (Except.error e, p') => (Except.error e, p')
  | (Except.ok view_span, p1) =>
    match p1.skip_keyword Keyword.IF with
    | (some if_, p2) =>
      match p2.consume_keywords [Keyword.NOT, Keyword.EXISTS] with
      | (Except.error e, p') => (Except.error e, p')
      | (Except.ok s, p3) =>
        parse_create_view_tail p3 create_span create_options view_span (some (s.join if_))
    | (none, p2) =>
      parse_create_view_tail p2 create_span create_options view_span none

/-- parse_create_function parameter loop from src/create.rs lines 406-414 (the body of the recovered scope). -/
def function_params_loop (params : List (Identifier × DataType)) (p : Parser) :
    Nat → List (Identifier × DataType) × Option ParseError × Parser
  | 0 => (params, some ⟨"recursion fuel exhausted", p.span⟩, p)
  | fuel + 1 =>
    match p.consume_plain_identifier with
    | (Except.error e, p') => (params, some e, p')
    | (Except.ok name, p1) =>
      match parse_data_type p1 with
      | (Except.error e, p') => (params, some e, p')
      | (Except.ok type_, p2) =>
        match p2.skip_token Token.Comma with
        | (none, p3) => (params ++ [(name, type_)], none, p3)
        | (some _, p3) => function_params_loop (params ++ [(name, type_)]) p3 fuel

/-- parse_create_function characteristics loop from src/create.rs lines 420-472. -/
def function_characteristics_loop (cs : List FunctionCharacteristic) (p : Parser) :
    Nat → Except ParseError (List FunctionCharacteristic) × Parser
  | 0 => (Except.error ⟨"recursion fuel exhausted", p.span⟩, p)
  | fuel + 1 =>
    match p.token with
    | Token.Ident _ Keyword.LANGUAGE =>
      match p.consume_keywords [Keyword.LANGUAGE, Keyword.SQL] with
      | (Except.error e, p') => (Except.error e, p')
      | (Except.ok s, p1) =>
        function_characteristics_loop (cs ++ [FunctionCharacteristic.LanguageSql s]) p1 fuel
    | Token.Ident _ Keyword.NOT =>
      match p.consume_keywords [Keyword.NOT, Keyword.DETERMINISTIC] with
      | (Except.error e, p') => (Except.error e, p')
      | (Except.ok s, p1) =>
        function_characteristics_loop (cs ++ [FunctionCharacteristic.NotDeterministic s]) p1 fuel
    | Token.Ident _ Keyword.DETERMINISTIC =>
      match p.consume_keyword Keyword.DETERMINISTIC with
      | (Except.error e, p') => (Except.error e, p')
      | (Except.ok s, p1) =>
        function_characteristics_loop (cs ++ [FunctionCharacteristic.Deterministic s]) p1 fuel
    | Token.Ident _ Keyword.CONTAINS =>
      match p.consume_keywords [Keyword.CONTAINS, Keyword.SQL] with
      | (Except.error e, p') => (Except.error e, p')
      | (Except.ok s, p1) =>
        function_characteristics_loop (cs ++ [FunctionCharacteristic.ContainsSql s]) p1 fuel
    | Token.Ident _ Keyword.NO =>
      match p.consume_keywords [Keyword.NO, Keyword.SQL] with
      | (Except.error e, p') => (Except.error e, p')
      | (Except.ok s, p1) =>
        function_characteristics_loop (cs ++ [FunctionCharacteristic.NoSql s]) p1 fuel
    | Token.Ident _ Keyword.READS =>
      match p.consume_keywords [Keyword.READS, Keyword.SQL, Keyword.DATA] with
      | (Except.error e, p') => (Except.error e, p')
      | (Except.ok s, p1) =>
        function_characteristics_loop (cs ++ [FunctionCharacteristic.ReadsSqlData s]) p1 fuel
    | Token.Ident _ Keyword.MODIFIES =>
      match p.consume_keywords [Keyword.MODIFIES, Keyword.SQL, Keyword.DATA] with
      | (Except.error e, p') => (Except.error e, p')
      | (Except.ok s, p1) =>
        function_characteristics_loop (cs ++ [FunctionCharacteristic.ModifiesSqlData s]) p1 fuel
    | Token.Ident _ Keyword.COMMENT =>
      match p.consume_keyword Keyword.COMMENT with
      | (Except.error e, p') => (Except.error e, p')
      | (Except.ok _, p1) =>
        match p1.consume_string with
        | (Except.error e, p') => (Except.error e, p')
        | (Except.ok s, p2) =>
          function_characteristics_loop (cs ++ [FunctionCharacteristic.Comment s]) p2 fuel
    | Token.Ident _ Keyword.SQL =>
      match p.consume_keywords [Keyword.SQL, Keyword.SECURITY] with
      | (Except.error e, p') => (Except.error e, p')
      | (Except.ok span, p1) =>
        match p1.token with
        | Token.Ident _ Keyword.DEFINER =>
          match p1.consume_keyword Keyword.DEFINER with
          | (Except.error e, p') => (Except.error e, p')
          | (Except.ok s, p2) =>
            function_characteristics_loop
              (cs ++ [FunctionCharacteristic.SqlSecurityDefiner (s.join span)]) p2 fuel
        | Token.Ident _ Keyword.USER =>
          match p1.consume_keyword Keyword.USER with
          | (Except.error e, p') => (Except.error e, p')
          | (Except.ok s, p2) =>
            function_characteristics_loop
              (cs ++ [FunctionCharacteristic.SqlSecurityUser (s.join span)]) p2 fuel
        | _ => (p1.expected_failure "\x27DEFINER\x27 or \x27USER\x27")
    | _ => (Except.ok cs, p)

/-- continuation of parse_create_function (src/create.rs lines 402-492) after the IF NOT EXISTS probe. -/
def parse_create_function_tail (p : Parser) (create_span : Span)
    (create_options : List CreateOption) (function_span : Span)
    (if_not_exists : Option Span) : Except ParseError Statement × Parser :=
    match p.consume_plain_identifier with
    | (Except.error e, p') => (Except.error e, p')
    | (Except.ok name, p1) =>
      match p1.consume_token Token.LParen with
      | (Except.error e, p') => (Except.error e, p')
      | (Except.ok _, p2) =>
        let (params, p3) := p2.recovered "\x27)\x27" (fun t => t = Token.RParen)
          (fun q => function_params_loop [] q (q.rest.length + 1))
        match p3.consume_token Token.RParen with
        | (Except.error e, p') => (Except.error e, p')
        | (Except.ok _, p4) =>
          match p4.consume_keyword Keyword.RETURNS with
          | (Except.error e, p') => (Except.error e, p')
          | (Except.ok returns_span, p5) =>
            match parse_data_type p5 with
            | (Except.error e, p') => (Except.error e, p')
            | (Except.ok return_type, p6) =>
              match function_characteristics_loop [] p6 (p6.rest.length + 1) with
              | (Except.error e, p') => (Except.error e, p')
              | (Except.ok characteristics, p7) =>
                match p7.consume_keyword Keyword.RETURN with
                | (Except.error e, p') => (Except.error e, p')
                | (Except.ok return_span, p8) =>
                  match parse_statement p8 with
                  | (Except.error e, p') => (Except.error e, p')
                  | (Except.ok (some v), p9) =>
                    (Except.ok (Statement.CreateFunction
                      (CreateFunction.mk create_span create_options function_span
                        if_not_exists name params returns_span return_type
                        characteristics return_span v)), p9)
                  | (Except.ok none, p9) => p9.expected_failure "statement"

/-- parse_create_function from src/create.rs lines 385-493. -/
def parse_create_function (p : Parser) (create_span : Span) (create_options : List CreateOption) :
    Except ParseError Statement × Parser :=
  match p.consume_keyword Keyword.FUNCTION with
  | (Except.error e, p') => (Except.error e, p')
  | (Except.ok function_span, p1) =>
    match p1.skip_keyword Keyword.IF with
    | (some if_, p2) =>
      match p2.consume_keywords [Keyword.NOT, Keyword.EXISTS] with
      | (Except.error e, p') => (Except.error e, p')
      | (Except.ok s, p3) =>
        parse_create_function_tail p3 create_span create_options function_span (some (s.join if_))
    | (none, p2) =>
      parse_create_function_tail p2 create_span create_options function_span none

/-- continuation of parse_create_trigger (src/create.rs lines 576-627) after the IF NOT EXISTS probe. -/
def parse_create_trigger_tail (p : Parser) (create_span : Span)
    (create_options : List CreateOption) (trigger_span : Span)
    (if_not_exists : Option Span) : Except ParseError Statement × Parser :=
    match p.consume_plain_identifier with
    | (Except.error e, p') => (Except.error e, p')
    | (Except.ok name, p1) =>
      match
        (match p1.token with
         | Token.Ident _ Keyword.AFTER =>
           (match p1.consume_keyword Keyword.AFTER with
            | (Except.error e, q) => (Except.error e, q)
            | (Except.ok s, q) => (Except.ok (TriggerTime.After s), q))
         | Token.Ident _ Keyword.BEFORE =>
           (match p1.consume_keyword Keyword.BEFORE with
            | (Except.error e, q) => (Except.error e, q)
            | (Except.ok s, q) => (Except.ok (TriggerTime.Before s), q))
         | _ => p1.expected_failure "\x27BEFORE\x27 or \x27AFTER\x27") with
      | (Except.error e, p') => (Except.error e, p')
      | (Except.ok trigger_time, p2) =>
        match
          (match p2.token with
           | Token.Ident _ Keyword.UPDATE =>
             (match p2.consume_keyword Keyword.UPDATE with
              | (Except.error e, q) => (Except.error e, q)
              | (Except.ok s, q) => (Except.ok (TriggerEvent.Update s), q))
           | Token.Ident _ Keyword.INSERT =>
             (match p2.consume_keyword Keyword.INSERT with
              | (Except.error e, q) => (Except.error e, q)
              | (Except.ok s, q) => (Except.ok (TriggerEvent.Insert s), q))
           | Token.Ident _ Keyword.DELETE =>
             (match p2.consume_keyword Keyword.DELETE with
              | (Except.error e, q) => (Except.error e, q)
              | (Except.ok s, q) => (Except.ok (TriggerEvent.Delete s), q))
           | _ => p2.expected_failure "\x27UPDATE\x27 or \x27INSERT\x27 or \x27DELETE\x27") with
        | (Except.error e, p') => (Except.error e, p')
        | (Except.ok trigger_event, p3) =>
          match p3.consume_keyword Keyword.ON with
          | (Except.error e, p') => (Except.error e, p')
          | (Except.ok on_span, p4) =>
            match p4.consume_plain_identifier with
            | (Except.error e, p') => (Except.error e, p')
            | (Except.ok table, p5) =>
              match p5.consume_keywords [Keyword.FOR, Keyword.EACH, Keyword.ROW] with
              | (Except.error e, p') => (Except.error e, p')
              | (Except.ok for_each_row_span, p6) =>
                match parse_statement p6 with
                | (Except.error e, p') => (Except.error e, p')
                | (Except.ok (some v), p7) =>
                  (Except.ok (Statement.CreateTrigger
                    (CreateTrigger.mk create_span create_options trigger_span
                      if_not_exists name trigger_time trigger_event on_span table
                      for_each_row_span v)), p7)
                | (Except.ok none, p7) => p7.expected_failure "statement"

/-- parse_create_trigger from src/create.rs lines 559-628. -/
def parse_create_trigger (p : Parser) (create_span : Span) (create_options : List CreateOption) :
    Except ParseError Statement × Parser :=
  match p.consume_keyword Keyword.TRIGGER with
  | (Except.error e, p') => (Except.error e, p')
  | (Except.ok trigger_span, p1) =>
    match p1.skip_keyword Keyword.IF with
    | (some if_, p2) =>
      match p2.consume_keywords [Keyword.NOT, Keyword.EXISTS] with
      | (Except.error e, p') => (Except.error e, p')
      | (Except.ok s, p3) =>
        parse_create_trigger_tail p3 create_span create_options trigger_span (some (s.join if_))
    | (none, p2) =>
      parse_create_trigger_tail p2 create_span create_options trigger_span none

/-- parse_create_table head from src/create.rs lines 640-651 (the body of the recovered scope up to the opening parenthesis): the optional IF NOT EXISTS probe, then the table identifier; partial state persists on failure. -/
def create_table_head (q : Parser) : (Option Span × Identifier) × Option ParseError × Parser :=
  match q.skip_keyword Keyword.IF with
  | (some if_, q1) =>
    match q1.consume_keywords [Keyword.NOT, Keyword.EXISTS] with
    | (Except.error e, q') => ((none, ⟨"", ⟨0, 0⟩⟩), some e, q')
    | (Except.ok s, q2) =>
      match q2.consume_plain_identifier with
      | (Except.error e, q') => ((some ⟨if_.start, s.stop⟩, ⟨"", ⟨0, 0⟩⟩), some e, q')
      | (Except.ok id, q3) => ((some ⟨if_.start, s.stop⟩, id), none, q3)
  | (none, q1) =>
    match q1.consume_plain_identifier with
    | (Except.error e, q') => ((none, ⟨"", ⟨0, 0⟩⟩), some e, q')
    | (Except.ok id, q3) => ((none, id), none, q3)

/-- parse_create_table definitions loop from src/create.rs lines 656-669: each iteration parses one definition inside a recovered scope synchronizing at the closing parenthesis or comma, then either breaks at the closing parenthesis or consumes the separating comma. -/
def create_definitions_loop (defs : List CreateDefinition) (p : Parser) :
    Nat → Except ParseError (List CreateDefinition) × Parser
  | 0 => (Except.error ⟨"recursion fuel exhausted", p.span⟩, p)
  | fuel + 1 =>
    let (defs', p1) := p.recovered "\x27)\x27 or \x27,\x27"
      (fun t => t = Token.RParen || t = Token.Comma)
      (fun q =>
        match parse_create_definition q with
        | (Except.error e, q') => (defs, some e, q')
        | (Except.ok d, q') => (defs ++ [d], none, q'))
    if p1.token = Token.RParen then (Except.ok defs', p1)
    else
      match p1.consume_token Token.Comma with
      | (Except.error e, p') => (Except.error e, p')
      | (Except.ok _, p2) => create_definitions_loop defs' p2 fuel

/-- parse_create_table table-option loop from src/create.rs lines 678-750 (the body of the recovered scope synchronizing at the statement delimiter or end-of-input): each iteration captures the option identifier span before its keyword, dispatches on the keyword, and breaks at the delimiter or end-of-input; an unmatched token is an expected failure. -/
def create_table_options_loop (opts : List TableOption) (p : Parser) :
    Nat → List TableOption × Option ParseError × Parser
  | 0 => (opts, some ⟨"recursion fuel exhausted", p.span⟩, p)
  | fuel + 1 =>
    let identifier := p.span
    match p.token with
    | Token.Ident _ Keyword.ENGINE =>
      match p.consume_keyword Keyword.ENGINE with
      | (Except.error e, p') => (opts, some e, p')
      | (Except.ok _, p1) =>
        let (_, p2) := p1.skip_token Token.Eq
        match p2.consume_plain_identifier with
        | (Except.error e, p') => (opts, some e, p')
        | (Except.ok v, p3) =>
          create_table_options_loop (opts ++ [TableOption.Engine identifier v]) p3 fuel
    | Token.Ident _ Keyword.DEFAULT =>
      match p.consume_keyword Keyword.DEFAULT with
      | (Except.error e, p') => (opts, some e, p')
      | (Except.ok _, p1) =>
        match p1.token with
        | Token.Ident _ Keyword.CHARSET =>
          match p1.consume_keyword Keyword.CHARSET with
          | (Except.error e, p') => (opts, some e, p')
          | (Except.ok _, p2) =>
            let (_, p3) := p2.skip_token Token.Eq
            match p3.consume_plain_identifier with
            | (Except.error e, p') => (opts, some e, p')
            | (Except.ok v, p4) =>
              create_table_options_loop (opts ++ [TableOption.DefaultCharSet identifier v]) p4 fuel
        | Token.Ident _ Keyword.COLLATE =>
          match p1.consume_keyword Keyword.COLLATE with
          | (Except.error e, p') => (opts, some e, p')
          | (Except.ok _, p2) =>
            let (_, p3) := p2.skip_token Token.Eq
            match p3.consume_plain_identifier with
            | (Except.error e, p') => (opts, some e, p')
            | (Except.ok v, p4) =>
              create_table_options_loop (opts ++ [TableOption.DefaultCollate identifier v]) p4 fuel
        | _ => (opts, some ⟨"\x27CHARSET\x27 or \x27COLLATE\x27", p1.span⟩, p1)
    | Token.Ident _ Keyword.CHARSET =>
      match p.consume_keyword Keyword.CHARSET with
      | (Except.error e, p') => (opts, some e, p')
      | (Except.ok _, p1) =>
        let (_, p2) := p1.skip_token Token.Eq
        match p2.consume_plain_identifier with
        | (Except.error e, p') => (opts, some e, p')
        | (Except.ok v, p3) =>
          create_table_options_loop (opts ++ [TableOption.CharSet identifier v]) p3 fuel
    | Token.Ident _ Keyword.COLLATE =>
      match p.consume_keyword Keyword.COLLATE with
      | (Except.error e, p') => (opts, some e, p')
      | (Except.ok _, p1) =>
        let (_, p2) := p1.skip_token Token.Eq
        match p2.consume_plain_identifier with
        | (Except.error e, p') => (opts, some e, p')
        | (Except.ok v, p3) =>
          create_table_options_loop (opts ++ [TableOption.Collate identifier v]) p3 fuel
    | Token.Ident _ Keyword.ROW_FORMAT =>
      match p.consume_keyword Keyword.ROW_FORMAT with
      | (Except.error e, p') => (opts, some e, p')
      | (Except.ok _, p1) =>
        let (_, p2) := p1.skip_token Token.Eq
        match p2.consume_plain_identifier with
        | (Except.error e, p') => (opts, some e, p')
        | (Except.ok v, p3) =>
          create_table_options_loop (opts ++ [TableOption.RowFormat identifier v]) p3 fuel
    | Token.Ident _ Keyword.COMMENT =>
      match p.consume_keyword Keyword.COMMENT with
      | (Except.error e, p') => (opts, some e, p')
      | (Except.ok _, p1) =>
        let (_, p2) := p1.skip_token Token.Eq
        match p2.consume_string with
        | (Except.error e, p') => (opts, some e, p')
        | (Except.ok v, p3) =>
          create_table_options_loop (opts ++ [TableOption.Comment identifier v]) p3 fuel
    | t =>
      if t = p.delimiter then (opts, none, p)
      else if t = Token.Eof then (opts, none, p)
      else (opts, some ⟨"table option or delimiter", p.span⟩, p)

/-- parse_create_table from src/create.rs lines 630-764. -/
def parse_create_table (p : Parser) (create_span : Span) (create_options : List CreateOption) :
    Except ParseError Statement × Parser :=
  match p.consume_keyword Keyword.TABLE with
  | (Except.error e, p') => (Except.error e, p')
  | (Except.ok table_span, p1) =>
    let (head, p2) := p1.recovered "\x27(\x27" (fun t => t = Token.LParen) create_table_head
    match p2.consume_token Token.LParen with
    | (Except.error e, p') => (Except.error e, p')
    | (Except.ok _, p3) =>
      match create_definitions_loop [] p3 (p3.rest.length + 1) with
      | (Except.error e, p') => (Except.error e, p')
      | (Except.ok create_definitions, p4) =>
        match p4.consume_token Token.RParen with
        | (Except.error e, p') => (Except.error e, p')
        | (Except.ok _, p5) =>
          let delimiter := p5.delimiter
          let (options, p6) := p5.recovered delimiter.name
            (fun t => t = Token.Eof || t = delimiter)
            (fun q => create_table_options_loop [] q (q.rest.length + 1))
          (Except.ok (Statement.CreateTable
            { create_span := create_span
              create_options := create_options
              table_span := table_span
              identifier := head.2
              if_not_exists := head.1
              create_definitions := create_definitions
              options := options }), p6)

/-- the expected-alternatives description CREATABLE from src/create.rs line 773. -/
def CREATABLE : String := "\x27TABLE\x27 | \x27VIEW\x27 | \x27TRIGGER\x27 | \x27FUNCTION\x27"

/-- whether a token is one of the four creatable statement sub-kind keywords (the synchronization predicate of parse_create, src/create.rs lines 777-785). -/
def isCreatableToken : Token → Bool
  | Token.Ident _ Keyword.TABLE => true
  | Token.Ident _ Keyword.VIEW => true
  | Token.Ident _ Keyword.TRIGGER => true
  | Token.Ident _ Keyword.FUNCTION => true
  | _ => false

/-- parse_create modifier-option loop from src/create.rs lines 787-843 (the body of the recovered scope): each iteration consumes one matching modifier clause or breaks on the first non-match. -/
def create_options_loop (opts : List CreateOption) (p : Parser) :
    Nat → List CreateOption × Option ParseError × Parser
  | 0 => (opts, some ⟨"recursion fuel exhausted", p.span⟩, p)
  | fuel + 1 =>
    match p.token with
    | Token.Ident _ Keyword.OR =>
      match p.consume_keywords [Keyword.OR, Keyword.REPLACE] with
      | (Except.error e, p') => (opts, some e, p')
      | (Except.ok s, p1) =>
        create_options_loop (opts ++ [CreateOption.OrReplace s]) p1 fuel
    | Token.Ident _ Keyword.TEMPORARY =>
      match p.consume_keyword Keyword.TEMPORARY with
      | (Except.error e, p') => (opts, some e, p')
      | (Except.ok s, p1) =>
        create_options_loop (opts ++ [CreateOption.Temporary s]) p1 fuel
    | Token.Ident _ Keyword.ALGORITHM =>
      match p.consume_keyword Keyword.ALGORITHM with
      | (Except.error e, p') => (opts, some e, p')
      | (Except.ok algorithm_span, p1) =>
        match p1.consume_token Token.Eq with
        | (Except.error e, p') => (opts, some e, p')
        | (Except.ok _, p2) =>
          match
            (match p2.token with
             | Token.Ident _ Keyword.UNDEFINED =>
               (match p2.consume_keyword Keyword.UNDEFINED with
                | (Except.error e, q) => (Except.error e, q)
                | (Except.ok s, q) => (Except.ok (CreateAlgorithm.Undefined s), q))
             | Token.Ident _ Keyword.MERGE =>
               (match p2.consume_keyword Keyword.MERGE with
                | (Except.error e, q) => (Except.error e, q)
                | (Except.ok s, q) => (Except.ok (CreateAlgorithm.Merge s), q))
             | Token.Ident _ Keyword.TEMPTABLE =>
               (match p2.consume_keyword Keyword.TEMPTABLE with
                | (Except.error e, q) => (Except.error e, q)
                | (Except.ok s, q) => (Except.ok (CreateAlgorithm.TempTable s), q))
             | _ => p2.expected_failure "\x27UNDEFINED\x27, \x27MERGE\x27 or \x27TEMPTABLE\x27") with
          | (Except.error e, p') => (opts, some e, p')
          | (Except.ok algorithm, p3) =>
            create_options_loop (opts ++ [CreateOption.Algorithm algorithm_span algorithm]) p3 fuel
    | Token.Ident _ Keyword.DEFINER =>
      match p.consume_keyword Keyword.DEFINER with
      | (Except.error e, p') => (opts, some e, p')
      | (Except.ok definer_span, p1) =>
        match p1.consume_token Token.Eq with
        | (Except.error e, p') => (opts, some e, p')
        | (Except.ok _, p2) =>
          match p2.consume_plain_identifier with
          | (Except.error e, p') => (opts, some e, p')
          | (Except.ok user, p3) =>
            match p3.consume_token Token.At with
            | (Except.error e, p') => (opts, some e, p')
            | (Except.ok _, p4) =>
              match p4.consume_plain_identifier with
              | (Except.error e, p') => (opts, some e, p')
              | (Except.ok host, p5) =>
                create_options_loop
                  (opts ++ [CreateOption.Definer definer_span user host]) p5 fuel
    | Token.Ident _ Keyword.SQL =>
      match p.consume_keywords [Keyword.SQL, Keyword.SECURITY] with
      | (Except.error e, p') => (opts, some e, p')
      | (Except.ok sql_security, p1) =>
        match p1.token with
        | Token.Ident _ Keyword.DEFINER =>
          match p1.consume_keyword Keyword.DEFINER with
          | (Except.error e, p') => (opts, some e, p')
          | (Except.ok s, p2) =>
            create_options_loop
              (opts ++ [CreateOption.SqlSecurityDefiner sql_security s]) p2 fuel
        | Token.Ident _ Keyword.USER =>
          match p1.consume_keyword Keyword.USER with
          | (Except.error e, p') => (opts, some e, p')
          | (Except.ok s, p2) =>
            create_options_loop
              (opts ++ [CreateOption.SqlSecurityUser sql_security s]) p2 fuel
        | _ => (opts, some ⟨"\x27DEFINER\x27, \x27USER\x27", p1.span⟩, p1)
    | _ => (opts, none, p)

/-- parse_create prefix from src/create.rs lines 766-846: capture the span of CREATE, consume it, and run the modifier-option loop inside a recovered scope synchronizing at the four creatable keywords. -/
def parse_create_pre (p : Parser) : Except ParseError (Span × List CreateOption) × Parser :=
  let create_span := p.span
  match p.consume_keyword Keyword.CREATE with
  | (Except.error e, p') => (Except.error e, p')
  | (Except.ok _, p1) =>
    let (create_options, p2) := p1.recovered CREATABLE isCreatableToken
      (fun q => create_options_loop [] q (q.rest.length + 1))
    (Except.ok (create_span, create_options), p2)

/-- parse_create from src/create.rs lines 766-859: after the CREATE keyword and the modifier-option loop, dispatch on the current keyword to the statement sub-kind parser; an unmatched keyword is a structural expected failure listing the valid alternatives. -/
def parse_create (p : Parser) : Except ParseError Statement × Parser :=
  match parse_create_pre p with
  | (Except.error e, p') => (Except.error e, p')
  | (Except.ok (create_span, create_options), p1) =>
    match p1.token with
    | Token.Ident _ Keyword.TABLE => parse_create_table p1 create_span create_options
    | Token.Ident _ Keyword.VIEW => parse_create_view p1 create_span create_options
    | Token.Ident _ Keyword.FUNCTION => parse_create_function p1 create_span create_options
    | Token.Ident _ Keyword.TRIGGER => parse_create_trigger p1 create_span create_options
    | _ => p1.expected_failure CREATABLE

/-- the names of all keyword entries (the strings naming keywords). -/
def keywordNames : List String := Keyword.entries.map Keyword.name

/-- helper: build an initial parser state from a classified token stream (the lexer boundary of section 6; the stream ends with an explicit end-of-input token). -/
def mkParser (ts : List (Token × Span)) : Parser :=
  match ts with
  | [] => ⟨Token.Eof, ⟨0, 0⟩, [], [], Token.SemiColon⟩
  | (t, s) :: r => ⟨t, s, r, [], Token.SemiColon⟩

/-- the classified token stream still ahead of the parser: the current token with its span, then the rest. -/
def tokenStream (p : Parser) : List (Token × Span) := (p.token, p.span) :: p.rest

/-- whether a token is one of the two REPLACE flag keywords LOW_PRIORITY and DELAYED (src/replace.rs lines 99-109). -/
def isReplaceFlagToken : Token → Bool
  | Token.Ident _ Keyword.LOW_PRIORITY => true
  | Token.Ident _ Keyword.DELAYED => true
  | _ => false

/-- the flag produced for one consumed flag token (src/replace.rs lines 101-106). -/
def flagOfToken (ts : Token × Span) : ReplaceFlag :=
  match ts.1 with
  | Token.Ident _ Keyword.LOW_PRIORITY => ReplaceFlag.LowPriority ts.2
  | _ => ReplaceFlag.Delayed ts.2

/-- whether a token is one of the four keywords opening a REPLACE body alternative, SELECT, VALUE, VALUES or SET (src/replace.rs lines 138-188). -/
def isReplaceBodyToken : Token → Bool
  | Token.Ident _ Keyword.SELECT => true
  | Token.Ident _ Keyword.VALUE => true
  | Token.Ident _ Keyword.VALUES => true
  | Token.Ident _ Keyword.SET => true
  | _ => false

/-- shape of a create algorithm with its span erased (for comparing parses of differently laid out inputs). -/
inductive CreateAlgorithmShape where
  | Undefined
  | Merge
  | TempTable
deriving DecidableEq, Repr

/-- erase the span of a create algorithm. -/
def eraseAlgorithm : CreateAlgorithm → CreateAlgorithmShape
  | CreateAlgorithm.Undefined _ => CreateAlgorithmShape.Undefined
  | CreateAlgorithm.Merge _ => CreateAlgorithmShape.Merge
  | CreateAlgorithm.TempTable _ => CreateAlgorithmShape.TempTable

/-- shape of a create option with all spans erased, keeping its variant and textual content. -/
inductive CreateOptionShape where
  | OrReplace
  | Temporary
  | Algorithm (a : CreateAlgorithmShape)
  | Definer (user : String) (host : String)
  | SqlSecurityDefiner
  | SqlSecurityUser
deriving DecidableEq, Repr

/-- erase the spans of a create option. -/
def eraseCreateOption : CreateOption → CreateOptionShape
  | CreateOption.OrReplace _ => CreateOptionShape.OrReplace
  | CreateOption.Temporary _ => CreateOptionShape.Temporary
  | CreateOption.Algorithm _ a => CreateOptionShape.Algorithm (eraseAlgorithm a)
  | CreateOption.Definer _ user host => CreateOptionShape.Definer user.value host.value
  | CreateOption.SqlSecurityDefiner _ _ => CreateOptionShape.SqlSecurityDefiner
  | CreateOption.SqlSecurityUser _ _ => CreateOptionShape.SqlSecurityUser

/-- shape of an expression with its span erased. -/
inductive ExprShape where
  | IntLitS (value : Nat)
  | StrLitS (value : String)
  | IdentS (name : String)
deriving DecidableEq, Repr

/-- erase the span of an expression. -/
def eraseExpr : Expression → ExprShape
  | Expression.IntLit v _ => ExprShape.IntLitS v
  | Expression.StrLit v _ => ExprShape.StrLitS v
  | Expression.IdentE n _ => ExprShape.IdentS n

/-- erase the spans of a select body, keeping the selected expression shapes. -/
def eraseSelect (s : Select) : List ExprShape := s.exprs.map eraseExpr

/-- token stream of the source text REPLACE INTO t SET a=1 (the failing input for the span-coverage claim). -/
def c1p : Parser := mkParser
  [(Token.Ident "REPLACE" Keyword.REPLACE, ⟨0, 7⟩),
   (Token.Ident "INTO" Keyword.INTO, ⟨8, 12⟩),
   (Token.Ident "t" Keyword.NOT_A_KEYWORD, ⟨13, 14⟩),
   (Token.Ident "SET" Keyword.SET, ⟨15, 18⟩),
   (Token.Ident "a" Keyword.NOT_A_KEYWORD, ⟨19, 20⟩),
   (Token.Eq, ⟨20, 21⟩),
   (Token.Integer 1, ⟨21, 22⟩),
   (Token.Eof, ⟨22, 22⟩)]

/-- the Replace node parsed from REPLACE INTO t SET a=1. -/
def c1node : Replace :=
  { replace_span := ⟨0, 7⟩
    flags := []
    into_span := some ⟨8, 12⟩
    table := [⟨"t", ⟨13, 14⟩⟩]
    columns := []
    values := none
    select := none
    set := some (⟨15, 18⟩, [(⟨"a", ⟨19, 20⟩⟩, Expression.IntLit 1 ⟨21, 22⟩)]) }

/-- token stream of the source text REPLACE INTO t (a) SET a=1 (concrete scenario 3). -/
def c2p : Parser := mkParser
  [(Token.Ident "REPLACE" Keyword.REPLACE, ⟨0, 7⟩),
   (Token.Ident "INTO" Keyword.INTO, ⟨8, 12⟩),
   (Token.Ident "t" Keyword.NOT_A_KEYWORD, ⟨13, 14⟩),
   (Token.LParen, ⟨15, 16⟩),
   (Token.Ident "a" Keyword.NOT_A_KEYWORD, ⟨16, 17⟩),
   (Token.RParen, ⟨17, 18⟩),
   (Token.Ident "SET" Keyword.SET, ⟨19, 22⟩),
   (Token.Ident "a" Keyword.NOT_A_KEYWORD, ⟨23, 24⟩),
   (Token.Eq, ⟨24, 25⟩),
   (Token.Integer 1, ⟨25, 26⟩),
   (Token.Eof, ⟨26, 26⟩)]

/-- the Replace node parsed from REPLACE INTO t (a) SET a=1. -/
def c2node : Replace :=
  { replace_span := ⟨0, 7⟩
    flags := []
    into_span := some ⟨8, 12⟩
    table := [⟨"t", ⟨13, 14⟩⟩]
    columns := [⟨"a", ⟨16, 17⟩⟩]
    values := none
    select := none
    set := some (⟨19, 22⟩, [(⟨"a", ⟨23, 24⟩⟩, Expression.IntLit 1 ⟨25, 26⟩)]) }

/-- the parser end state after parsing REPLACE INTO t (a) SET a=1. -/
def c2endp : Parser :=
  ⟨Token.Eof, ⟨26, 26⟩, [],
   [(Issue.err "Columns may not be used here" ⟨16, 17⟩).frag "Together with SET" ⟨19, 22⟩],
   Token.SemiColon⟩

/-- token stream of the source text REPLACE INTO t2 VALUES (1,...),(2,...) (concrete scenario 2). -/
def c7p : Parser := mkParser
  [(Token.Ident "REPLACE" Keyword.REPLACE, ⟨0, 7⟩),
   (Token.Ident "INTO" Keyword.INTO, ⟨8, 12⟩),
   (Token.Ident "t2" Keyword.NOT_A_KEYWORD, ⟨13, 15⟩),
   (Token.Ident "VALUES" Keyword.VALUES, ⟨16, 22⟩),
   (Token.LParen, ⟨23, 24⟩),
   (Token.Integer 1, ⟨24, 25⟩),
   (Token.Comma, ⟨25, 26⟩),
   (Token.SingleQuotedString "Leopard", ⟨26, 35⟩),
   (Token.RParen, ⟨35, 36⟩),
   (Token.Comma, ⟨36, 37⟩),
   (Token.LParen, ⟨37, 38⟩),
   (Token.Integer 2, ⟨38, 39⟩),
   (Token.Comma, ⟨39, 40⟩),
   (Token.SingleQuotedString "Dog", ⟨40, 45⟩),
   (Token.RParen, ⟨45, 46⟩),
   (Token.Eof, ⟨46, 46⟩)]

/-- the Replace node parsed from the scenario 2 input. -/
def c7node : Replace :=
  { replace_span := ⟨0, 7⟩
    flags := []
    into_span := some ⟨8, 12⟩
    table := [⟨"t2", ⟨13, 15⟩⟩]
    columns := []
    values := some (⟨16, 22⟩,
      [[Expression.IntLit 1 ⟨24, 25⟩, Expression.StrLit "Leopard" ⟨26, 35⟩],
       [Expression.IntLit 2 ⟨38, 39⟩, Expression.StrLit "Dog" ⟨40, 45⟩]])
    select := none
    set := none }

/-- the parser end state after parsing the scenario 2 input. -/
def c7endp : Parser := ⟨Token.Eof, ⟨46, 46⟩, [], [], Token.SemiColon⟩

/-- token stream of the source text CREATE TABLE IF NOT EXISTS t (a INT) ENGINE=InnoDB (concrete scenario 1). -/
def c6p : Parser := mkParser
  [(Token.Ident "CREATE" Keyword.CREATE, ⟨0, 6⟩),
   (Token.Ident "TABLE" Keyword.TABLE, ⟨7, 12⟩),
   (Token.Ident "IF" Keyword.IF, ⟨13, 15⟩),
   (Token.Ident "NOT" Keyword.NOT, ⟨16, 19⟩),
   (Token.Ident "EXISTS" Keyword.EXISTS, ⟨20, 26⟩),
   (Token.Ident "t" Keyword.NOT_A_KEYWORD, ⟨27, 28⟩),
   (Token.LParen, ⟨29, 30⟩),
   (Token.Ident "a" Keyword.NOT_A_KEYWORD, ⟨30, 31⟩),
   (Token.Ident "INT" Keyword.INT, ⟨32, 35⟩),
   (Token.RParen, ⟨35, 36⟩),
   (Token.Ident "ENGINE" Keyword.ENGINE, ⟨37, 43⟩),
   (Token.Eq, ⟨43, 44⟩),
   (Token.Ident "InnoDB" Keyword.NOT_A_KEYWORD, ⟨44, 50⟩),
   (Token.Eof, ⟨50, 50⟩)]

/-- the CreateTable node parsed from the scenario 1 input. -/
def c6node : CreateTable :=
  { create_span := ⟨0, 6⟩
    create_options := []
    table_span := ⟨7, 12⟩
    identifier := ⟨"t", ⟨27, 28⟩⟩
    if_not_exists := some ⟨13, 26⟩
    create_definitions :=
      [CreateDefinition.ColumnDefinition ⟨"a", ⟨30, 31⟩⟩ (DataType.Int ⟨32, 35⟩)]
    options := [TableOption.Engine ⟨37, 43⟩ ⟨"InnoDB", ⟨44, 50⟩⟩] }

/-- the parser end state after parsing the scenario 1 input. -/
def c6endp : Parser := ⟨Token.Eof, ⟨50, 50⟩, [], [], Token.SemiColon⟩

/-- token stream of CREATE OR REPLACE ALGORITHM=MERGE DEFINER=a@b VIEW v AS SELECT 1. -/
def c8p1 : Parser := mkParser
  [(Token.Ident "CREATE" Keyword.CREATE, ⟨0, 6⟩),
   (Token.Ident "OR" Keyword.OR, ⟨7, 9⟩),
   (Token.Ident "REPLACE" Keyword.REPLACE, ⟨10, 17⟩),
   (Token.Ident "ALGORITHM" Keyword.ALGORITHM, ⟨18, 27⟩),
   (Token.Eq, ⟨27, 28⟩),
   (Token.Ident "MERGE" Keyword.MERGE, ⟨28, 33⟩),
   (Token.Ident "DEFINER" Keyword.DEFINER, ⟨34, 41⟩),
   (Token.Eq, ⟨41, 42⟩),
   (Token.Ident "a" Keyword.NOT_A_KEYWORD, ⟨42, 43⟩),
   (Token.At, ⟨43, 44⟩),
   (Token.Ident "b" Keyword.NOT_A_KEYWORD, ⟨44, 45⟩),
   (Token.Ident "VIEW" Keyword.VIEW, ⟨46, 50⟩),
   (Token.Ident "v" Keyword.NOT_A_KEYWORD, ⟨51, 52⟩),
   (Token.Ident "AS" Keyword.AS, ⟨53, 55⟩),
   (Token.Ident "SELECT" Keyword.SELECT, ⟨56, 62⟩),
   (Token.Integer 1, ⟨63, 64⟩),
   (Token.Eof, ⟨64, 64⟩)]

/-- token stream of CREATE DEFINER=a@b ALGORITHM=MERGE OR REPLACE VIEW v AS SELECT 1. -/
def c8p2 : Parser := mkParser
  [(Token.Ident "CREATE" Keyword.CREATE, ⟨0, 6⟩),
   (Token.Ident "DEFINER" Keyword.DEFINER, ⟨7, 14⟩),
   (Token.Eq, ⟨14, 15⟩),
   (Token.Ident "a" Keyword.NOT_A_KEYWORD, ⟨15, 16⟩),
   (Token.At, ⟨16, 17⟩),
   (Token.Ident "b" Keyword.NOT_A_KEYWORD, ⟨17, 18⟩),
   (Token.Ident "ALGORITHM" Keyword.ALGORITHM, ⟨19, 28⟩),
   (Token.Eq, ⟨28, 29⟩),
   (Token.Ident "MERGE" Keyword.MERGE, ⟨29, 34⟩),
   (Token.Ident "OR" Keyword.OR, ⟨35, 37⟩),
   (Token.Ident "REPLACE" Keyword.REPLACE, ⟨38, 45⟩),
   (Token.Ident "VIEW" Keyword.VIEW, ⟨46, 50⟩),
   (Token.Ident "v" Keyword.NOT_A_KEYWORD, ⟨51, 52⟩),
   (Token.Ident "AS" Keyword.AS, ⟨53, 55⟩),
   (Token.Ident "SELECT" Keyword.SELECT, ⟨56, 62⟩),
   (Token.Integer 1, ⟨63, 64⟩),
   (Token.Eof, ⟨64, 64⟩)]

/-- the CreateView node parsed from the first modifier ordering. -/
def c8v1 : CreateView :=
  { create_span := ⟨0, 6⟩
    create_options :=
      [CreateOption.OrReplace ⟨7, 17⟩,
       CreateOption.Algorithm ⟨18, 27⟩ (CreateAlgorithm.Merge ⟨28, 33⟩),
       CreateOption.Definer ⟨34, 41⟩ ⟨"a", ⟨42, 43⟩⟩ ⟨"b", ⟨44, 45⟩⟩]
    view_span := ⟨46, 50⟩
    if_not_exists := none
    name := ⟨"v", ⟨51, 52⟩⟩
    as_span := ⟨53, 55⟩
    select := ⟨⟨56, 62⟩, [Expression.IntLit 1 ⟨63, 64⟩]⟩ }

/-- the CreateView node parsed from the second modifier ordering. -/
def c8v2 : CreateView :=
  { create_span := ⟨0, 6⟩
    create_options :=
      [CreateOption.Definer ⟨7, 14⟩ ⟨"a", ⟨15, 16⟩⟩ ⟨"b", ⟨17, 18⟩⟩,
       CreateOption.Algorithm ⟨19, 28⟩ (CreateAlgorithm.Merge ⟨29, 34⟩),
       CreateOption.OrReplace ⟨35, 45⟩]
    view_span := ⟨46, 50⟩
    if_not_exists := none
    name := ⟨"v", ⟨51, 52⟩⟩
    as_span := ⟨53, 55⟩
    select := ⟨⟨56, 62⟩, [Expression.IntLit 1 ⟨63, 64⟩]⟩ }

/-- the parser end state shared by both modifier orderings. -/
def c8endp : Parser := ⟨Token.Eof, ⟨64, 64⟩, [], [], Token.SemiColon⟩

/-- token stream of CREATE FOO, whose token after the modifiers is none of the four creatable keywords. -/
def c5badp : Parser := mkParser
  [(Token.Ident "CREATE" Keyword.CREATE, ⟨0, 6⟩),
   (Token.Ident "FOO" Keyword.NOT_A_KEYWORD, ⟨7, 10⟩),
   (Token.Eof, ⟨10, 10⟩)]

/-- parser state after CREATE and the (empty) modifier loop on the CREATE FOO input. -/
def c5badp1 : Parser :=
  ⟨Token.Ident "FOO" Keyword.NOT_A_KEYWORD, ⟨7, 10⟩, [(Token.Eof, ⟨10, 10⟩)], [], Token.SemiColon⟩

/-- token stream of CREATE VIEW v AS SELECT 1. -/
def c5viewp : Parser := mkParser
  [(Token.Ident "CREATE" Keyword.CREATE, ⟨0, 6⟩),
   (Token.Ident "VIEW" Keyword.VIEW, ⟨7, 11⟩),
   (Token.Ident "v" Keyword.NOT_A_KEYWORD, ⟨12, 13⟩),
   (Token.Ident "AS" Keyword.AS, ⟨14, 16⟩),
   (Token.Ident "SELECT" Keyword.SELECT, ⟨17, 23⟩),
   (Token.Integer 1, ⟨24, 25⟩),
   (Token.Eof, ⟨25, 25⟩)]

/-- parser state after CREATE and the (empty) modifier loop on the CREATE VIEW input. -/
def c5viewp1 : Parser :=
  ⟨Token.Ident "VIEW" Keyword.VIEW, ⟨7, 11⟩,
   [(Token.Ident "v" Keyword.NOT_A_KEYWORD, ⟨12, 13⟩),
    (Token.Ident "AS" Keyword.AS, ⟨14, 16⟩),
    (Token.Ident "SELECT" Keyword.SELECT, ⟨17, 23⟩),
    (Token.Integer 1, ⟨24, 25⟩),
    (Token.Eof, ⟨25, 25⟩)], [], Token.SemiColon⟩

/-- token stream of REPLACE INTO t, which ends before any VALUES, SELECT or SET clause. -/
def c3wp : Parser := mkParser
  [(Token.Ident "REPLACE" Keyword.REPLACE, ⟨0, 7⟩),
   (Token.Ident "INTO" Keyword.INTO, ⟨8, 12⟩),
   (Token.Ident "t" Keyword.NOT_A_KEYWORD, ⟨13, 14⟩),
   (Token.Eof, ⟨14, 14⟩)]

/-- parser state at the REPLACE body dispatch on the REPLACE INTO t input. -/
def c3wp1 : Parser := ⟨Token.Eof, ⟨14, 14⟩, [], [], Token.SemiColon⟩

/-- token stream of REPLACE LOW_PRIORITY DELAYED INTO t VALUES (1). -/
def c9wp : Parser := mkParser
  [(Token.Ident "REPLACE" Keyword.REPLACE, ⟨0, 7⟩),
   (Token.Ident "LOW_PRIORITY" Keyword.LOW_PRIORITY, ⟨8, 20⟩),
   (Token.Ident "DELAYED" Keyword.DELAYED, ⟨21, 28⟩),
   (Token.Ident "INTO" Keyword.INTO, ⟨29, 33⟩),
   (Token.Ident "t" Keyword.NOT_A_KEYWORD, ⟨34, 35⟩),
   (Token.Ident "VALUES" Keyword.VALUES, ⟨36, 42⟩),
   (Token.LParen, ⟨43, 44⟩),
   (Token.Integer 1, ⟨44, 45⟩),
   (Token.RParen, ⟨45, 46⟩),
   (Token.Eof, ⟨46, 46⟩)]

/-- parser state after consuming REPLACE on the flagged input. -/
def c9wp1 : Parser :=
  ⟨Token.Ident "LOW_PRIORITY" Keyword.LOW_PRIORITY, ⟨8, 20⟩,
   [(Token.Ident "DELAYED" Keyword.DELAYED, ⟨21, 28⟩),
    (Token.Ident "INTO" Keyword.INTO, ⟨29, 33⟩),
    (Token.Ident "t" Keyword.NOT_A_KEYWORD, ⟨34, 35⟩),
    (Token.Ident "VALUES" Keyword.VALUES, ⟨36, 42⟩),
    (Token.LParen, ⟨43, 44⟩),
    (Token.Integer 1, ⟨44, 45⟩),
    (Token.RParen, ⟨45, 46⟩),
    (Token.Eof, ⟨46, 46⟩)], [], Token.SemiColon⟩

/-- the Replace node parsed from the flagged input. -/
def c9node : Replace :=
  { replace_span := ⟨0, 7⟩
    flags := [ReplaceFlag.LowPriority ⟨8, 20⟩, ReplaceFlag.Delayed ⟨21, 28⟩]
    into_span := some ⟨29, 33⟩
    table := [⟨"t", ⟨34, 35⟩⟩]
    columns := []
    values := some (⟨36, 42⟩, [[Expression.IntLit 1 ⟨44, 45⟩]])
    select := none
    set := none }

/-- the parser end state after parsing the flagged input. -/
def c9endp : Parser := ⟨Token.Eof, ⟨46, 46⟩, [], [], Token.SemiColon⟩

/-- Claim C1 evidence: on the input REPLACE INTO t SET a=1 the parser succeeds and fills the set field, but the computed Replace.span covers only bytes 0 to 14 (REPLACE INTO t), while the join of every consumed field including the SET clause covers bytes 0 to 22: Replace::span omits the set field. -/
theorem c1_replace_span_omits_set :
    (parse_replace c1p).1 = Except.ok c1node ∧
    c1node.set = some (⟨15, 18⟩, [(⟨"a", ⟨19, 20⟩⟩, Expression.IntLit 1 ⟨21, 22⟩)]) ∧
    c1node.span = ⟨0, 14⟩ ∧
    c1node.spec_span = ⟨0, 22⟩ ∧
    c1node.span ≠ c1node.spec_span :=
  ⟨rfl, rfl, rfl, rfl, by decide⟩

/-- Claim C2: parsing REPLACE INTO t (a) SET a=1 succeeds structurally; exactly one error issue is logged, with message Columns may not be used here and one fragment labelled Together with SET; the set field holds exactly one identifier-expression pair; and the columns list holds the one column. -/
theorem c2_replace_set_columns_issue :
    parse_replace c2p = (Except.ok c2node, c2endp) ∧
    c2endp.issues =
      [(Issue.err "Columns may not be used here" ⟨16, 17⟩).frag "Together with SET" ⟨19, 22⟩] ∧
    c2node.set = some (⟨19, 22⟩, [(⟨"a", ⟨23, 24⟩⟩, Expression.IntLit 1 ⟨25, 26⟩)]) ∧
    c2node.columns = [⟨"a", ⟨16, 17⟩⟩] :=
  ⟨rfl, rfl, rfl, rfl⟩

/-- Claim C7: parsing REPLACE INTO t2 VALUES (1,...),(2,...) yields one Replace node with table equal to the single identifier t2, values present with exactly two rows of two expressions each, select and set absent, columns empty, and an empty issue list. -/
theorem c7_replace_values_scenario :
    parse_replace c7p = (Except.ok c7node, c7endp) ∧
    c7node.table = [⟨"t2", ⟨13, 15⟩⟩] ∧
    c7node.values = some (⟨16, 22⟩,
      [[Expression.IntLit 1 ⟨24, 25⟩, Expression.StrLit "Leopard" ⟨26, 35⟩],
       [Expression.IntLit 2 ⟨38, 39⟩, Expression.StrLit "Dog" ⟨40, 45⟩]]) ∧
    c7node.select = none ∧
    c7node.set = none ∧
    c7node.columns = [] ∧
    c7endp.issues = [] :=
  ⟨rfl, rfl, rfl, rfl, rfl, rfl, rfl⟩

/-- Claim C6: parsing CREATE TABLE IF NOT EXISTS t (a INT) ENGINE=InnoDB yields one CreateTable node with if_not_exists present, exactly one column definition for identifier a with an integer data type, exactly one Engine table option with value InnoDB, and an empty issue list. -/
theorem c6_create_table_scenario :
    parse_create c6p = (Except.ok (Statement.CreateTable c6node), c6endp) ∧
    c6node.if_not_exists = some ⟨13, 26⟩ ∧
    c6node.create_definitions =
      [CreateDefinition.ColumnDefinition ⟨"a", ⟨30, 31⟩⟩ (DataType.Int ⟨32, 35⟩)] ∧
    c6node.options = [TableOption.Engine ⟨37, 43⟩ ⟨"InnoDB", ⟨44, 50⟩⟩] ∧
    c6endp.issues = [] :=
  ⟨rfl, rfl, rfl, rfl, rfl⟩

/-- Claim C8: the two modifier orderings of the same CREATE VIEW statement parse to CreateView nodes whose create_options sequences are permutations of each other after erasing spans (and in a different order), with identical view name, identical select body shape, and if_not_exists absent in both. -/
theorem c8_create_view_modifier_order :
    parse_create c8p1 = (Except.ok (Statement.CreateView c8v1), c8endp) ∧
    parse_create c8p2 = (Except.ok (Statement.CreateView c8v2), c8endp) ∧
    (c8v1.create_options.map eraseCreateOption).Perm
      (c8v2.create_options.map eraseCreateOption) ∧
    c8v1.create_options.map eraseCreateOption ≠ c8v2.create_options.map eraseCreateOption ∧
    c8v1.name.value = c8v2.name.value ∧
    eraseSelect c8v1.select = eraseSelect c8v2.select ∧
    c8v1.if_not_exists = none ∧
    c8v2.if_not_exists = none :=
  ⟨rfl, rfl, by decide, by decide, rfl, rfl, rfl, rfl⟩

/-- Claim C4: expr_ident holds exactly for the ten explicitly listed keywords or any keyword that is not reserved, and each of the ten listed keywords is reserved yet has expr_ident true. -/
theorem c4_expr_ident_spec :
    (∀ k : Keyword, k.expr_ident = (Keyword.exprIdentEntries.contains k || !k.reserved)) ∧
    Keyword.exprIdentEntries.all (fun k => k.expr_ident && k.reserved) = true :=
  ⟨fun k => by cases k <;> rfl, by decide⟩

/-- Claim C5: after CREATE and the modifier-option loop, a current token that is none of TABLE, VIEW, FUNCTION or TRIGGER makes parse_create fail structurally with an expected failure listing the valid alternatives; each of the four keywords dispatches to the corresponding sub-parser. -/
theorem c5_create_dispatch (p : Parser) (cs : Span) (opts : List CreateOption) (p1 : Parser)
    (h : parse_create_pre p = (Except.ok (cs, opts), p1)) :
    (isCreatableToken p1.token = false →
      parse_create p = (Except.error ⟨CREATABLE, p1.span⟩, p1)) ∧
    (∀ s, p1.token = Token.Ident s Keyword.TABLE →
      parse_create p = parse_create_table p1 cs opts) ∧
    (∀ s, p1.token = Token.Ident s Keyword.VIEW →
      parse_create p = parse_create_view p1 cs opts) ∧
    (∀ s, p1.token = Token.Ident s Keyword.FUNCTION →
      parse_create p = parse_create_function p1 cs opts) ∧
    (∀ s, p1.token = Token.Ident s Keyword.TRIGGER →
      parse_create p = parse_create_trigger p1 cs opts) := by
  refine ⟨?_, ?_, ?_, ?_, ?_⟩
  · intro hf
    simp only [parse_create, h]
    split
    · rename_i heq
      rw [heq] at hf
      simp [isCreatableToken] at hf
    · rename_i heq
      rw [heq] at hf
      simp [isCreatableToken] at hf
    · rename_i heq
      rw [heq] at hf
      simp [isCreatableToken] at hf
    · rename_i heq
      rw [heq] at hf
      simp [isCreatableToken] at hf
    · rfl
  · intro s hs
    simp only [parse_create, h, hs]
  · intro s hs
    simp only [parse_create, h, hs]
  · intro s hs
    simp only [parse_create, h, hs]
  · intro s hs
    simp only [parse_create, h, hs]

/-- Claim C5 witness: on CREATE FOO the dispatch fails structurally with the alternatives listed, and on CREATE VIEW v AS SELECT 1 the dispatch invokes parse_create_view. -/
theorem c5_create_dispatch_witness :
    parse_create c5badp = (Except.error ⟨CREATABLE, ⟨7, 10⟩⟩, c5badp1) ∧
    parse_create c5viewp = parse_create_view c5viewp1 ⟨0, 6⟩ [] :=
  ⟨(c5_create_dispatch c5badp ⟨0, 6⟩ [] c5badp1 rfl).1 rfl,
   (c5_create_dispatch c5viewp ⟨0, 6⟩ [] c5viewp1 rfl).2.2.1 "VIEW" rfl⟩

/-- Claim C3: when parse_replace reaches the body dispatch and the current token opens none of the SELECT, VALUE, VALUES or SET alternatives, the parser records the Expected VALUE, VALUES, SELECT or SET diagnostic without aborting and returns a Replace node whose values, select and set fields are all absent. -/
theorem c3_replace_body_default (p : Parser) (rs : Span) (flags : List ReplaceFlag)
    (into : Option Span) (table : List Identifier) (cols : List Identifier) (p1 : Parser)
    (h : parse_replace_head p = (Except.ok (rs, flags, into, table, cols), p1))
    (hf : isReplaceBodyToken p1.token = false) :
    parse_replace p =
      (Except.ok
        { replace_span := rs, flags := flags, into_span := into, table := table,
          columns := cols, values := none, select := none, set := none },
       p1.expected_error "Expected VALUE, VALUES, SELECT or SET") := by
  have hbody : parse_replace_body cols p1 =
      (Except.ok (none, none, none),
       p1.expected_error "Expected VALUE, VALUES, SELECT or SET") := by
    simp only [parse_replace_body]
    split
    · rename_i heq
      rw [heq] at hf
      simp [isReplaceBodyToken] at hf
    · rename_i heq
      rw [heq] at hf
      simp [isReplaceBodyToken] at hf
    · rename_i heq
      rw [heq] at hf
      simp [isReplaceBodyToken] at hf
    · rename_i heq
      rw [heq] at hf
      simp [isReplaceBodyToken] at hf
    · rfl
  simp only [parse_replace, h, hbody]

/-- Claim C3 witness: on REPLACE INTO t the body dispatch sees end-of-input, records the diagnostic, and still returns a node with values, select and set absent. -/
theorem c3_replace_body_default_witness :
    parse_replace c3wp =
      (Except.ok
        { replace_span := ⟨0, 7⟩, flags := [], into_span := some ⟨8, 12⟩,
          table := [⟨"t", ⟨13, 14⟩⟩], columns := [], values := none, select := none,
          set := none },
       c3wp1.expected_error "Expected VALUE, VALUES, SELECT or SET") :=
  c3_replace_body_default c3wp ⟨0, 7⟩ [] (some ⟨8, 12⟩) [⟨"t", ⟨13, 14⟩⟩] [] c3wp1 rfl rfl

/-- the maximal run of flag tokens still ahead of a parser state, after one advance, equals the maximal run of its remaining stream. -/
theorem takeWhile_flag_advance (p : Parser) :
    List.takeWhile (fun ts => isReplaceFlagToken ts.1) (tokenStream (advance p)) =
      List.takeWhile (fun ts => isReplaceFlagToken ts.1) p.rest := by
  cases h : p.rest with
  | nil => simp [advance, tokenStream, h, isReplaceFlagToken]
  | cons x r =>
    cases x with
    | mk t s => simp [advance, tokenStream, h]

/-- whenever the REPLACE flags loop returns successfully, the returned flag list is the accumulator extended by one flag per token of the maximal run of LOW_PRIORITY and DELAYED tokens, in input order. -/
theorem flags_loop_ok_char :
    ∀ (fuel : Nat) (flags : List ReplaceFlag) (p : Parser) (res : List ReplaceFlag) (p' : Parser),
      replace_flags_loop flags p fuel = (Except.ok res, p') →
      res = flags ++
        (List.takeWhile (fun ts => isReplaceFlagToken ts.1) (tokenStream p)).map flagOfToken := by
  intro fuel
  induction fuel with
  | zero =>
    intro flags p res p' h
    simp [replace_flags_loop] at h
  | succ n ih =>
    intro flags p res p' h
    simp only [replace_flags_loop] at h
    split at h
    · rename_i text heq
      have hck : p.consume_keyword Keyword.LOW_PRIORITY = (Except.ok p.span, advance p) := by
        simp [Parser.consume_keyword, heq]
      rw [hck] at h
      have h2 : replace_flags_loop (flags ++ [ReplaceFlag.LowPriority p.span]) (advance p) n =
          (Except.ok res, p') := h
      have hr := ih _ _ _ _ h2
      rw [hr, takeWhile_flag_advance p]
      have hpred : isReplaceFlagToken (Token.Ident text Keyword.LOW_PRIORITY) = true := rfl
      simp [tokenStream, List.takeWhile_cons, hpred, flagOfToken, heq]
    · rename_i text heq
      have hck : p.consume_keyword Keyword.DELAYED = (Except.ok p.span, advance p) := by
        simp [Parser.consume_keyword, heq]
      rw [hck] at h
      have h2 : replace_flags_loop (flags ++ [ReplaceFlag.Delayed p.span]) (advance p) n =
          (Except.ok res, p') := h
      have hr := ih _ _ _ _ h2
      rw [hr, takeWhile_flag_advance p]
      have hpred : isReplaceFlagToken (Token.Ident text Keyword.DELAYED) = true := rfl
      simp [tokenStream, List.takeWhile_cons, hpred, flagOfToken, heq]
    · rename_i h1 h2
      have hp : isReplaceFlagToken p.token = false := by
        unfold isReplaceFlagToken
        split
        · rename_i heq
          exact absurd heq (h1 _)
        · rename_i heq
          exact absurd heq (h2 _)
        · rfl
      simp only [Prod.mk.injEq, Except.ok.injEq] at h
      obtain ⟨hres, -⟩ := h
      subst hres
      simp [tokenStream, List.takeWhile_cons, hp]

/-- with fuel exceeding the length of the maximal flag run, the REPLACE flags loop always succeeds, producing exactly one flag per run token. -/
theorem flags_loop_total :
    ∀ (fuel : Nat) (p : Parser) (flags : List ReplaceFlag),
      (List.takeWhile (fun ts => isReplaceFlagToken ts.1) (tokenStream p)).length < fuel →
      ∃ p', replace_flags_loop flags p fuel =
        (Except.ok (flags ++
          (List.takeWhile (fun ts => isReplaceFlagToken ts.1) (tokenStream p)).map flagOfToken),
         p') := by
  intro fuel
  induction fuel with
  | zero =>
    intro p flags hlt
    omega
  | succ n ih =>
    intro p flags hlt
    have hstream : tokenStream p = (p.token, p.span) :: p.rest := rfl
    by_cases hflag : isReplaceFlagToken p.token = true
    · have htw : List.takeWhile (fun ts => isReplaceFlagToken ts.1) (tokenStream p) =
          (p.token, p.span) ::
            List.takeWhile (fun ts => isReplaceFlagToken ts.1) (tokenStream (advance p)) := by
        rw [hstream, List.takeWhile_cons, takeWhile_flag_advance p]
        simp [hflag]
      have hlt' : (List.takeWhile (fun ts => isReplaceFlagToken ts.1)
          (tokenStream (advance p))).length < n := by
        rw [htw] at hlt
        simp at hlt
        omega
      unfold isReplaceFlagToken at hflag
      split at hflag
      · rename_i text heq
        obtain ⟨p', hp'⟩ := ih (advance p) (flags ++ [ReplaceFlag.LowPriority p.span]) hlt'
        refine ⟨p', ?_⟩
        have hck : p.consume_keyword Keyword.LOW_PRIORITY = (Except.ok p.span, advance p) := by
          simp [Parser.consume_keyword, heq]
        have hflags : flags ++ (List.takeWhile (fun ts => isReplaceFlagToken ts.1)
            (tokenStream p)).map flagOfToken =
            (flags ++ [ReplaceFlag.LowPriority p.span]) ++
              (List.takeWhile (fun ts => isReplaceFlagToken ts.1)
                (tokenStream (advance p))).map flagOfToken := by
          rw [htw]
          simp [flagOfToken, heq]
        rw [hflags]
        simp only [replace_flags_loop, heq]
        rw [hck]
        exact hp'
      · rename_i text heq
        obtain ⟨p', hp'⟩ := ih (advance p) (flags ++ [ReplaceFlag.Delayed p.span]) hlt'
        refine ⟨p', ?_⟩
        have hck : p.consume_keyword Keyword.DELAYED = (Except.ok p.span, advance p) := by
          simp [Parser.consume_keyword, heq]
        have hflags : flags ++ (List.takeWhile (fun ts => isReplaceFlagToken ts.1)
            (tokenStream p)).map flagOfToken =
            (flags ++ [ReplaceFlag.Delayed p.span]) ++
              (List.takeWhile (fun ts => isReplaceFlagToken ts.1)
                (tokenStream (advance p))).map flagOfToken := by
          rw [htw]
          simp [flagOfToken, heq]
        rw [hflags]
        simp only [replace_flags_loop, heq]
        rw [hck]
        exact hp'
      · simp at hflag
    · have hflag' : isReplaceFlagToken p.token = false := by
        cases hb : isReplaceFlagToken p.token
        · rfl
        · exact absurd hb hflag
      have htw : List.takeWhile (fun ts => isReplaceFlagToken ts.1) (tokenStream p) = [] := by
        rw [hstream, List.takeWhile_cons]
        simp [hflag']
      refine ⟨p, ?_⟩
      rw [htw]
      simp only [replace_flags_loop]
      split
      · rename_i text heq
        rw [heq] at hflag'
        simp [isReplaceFlagToken] at hflag'
      · rename_i text heq
        rw [heq] at hflag'
        simp [isReplaceFlagToken] at hflag'
      · simp

/-- if parse_replace_head succeeds after consuming REPLACE, its flag component is the flags of the maximal run. -/
theorem head_flags_char (p : Parser) (rs : Span) (p1 : Parser)
    (tup : Span × List ReplaceFlag × Option Span × List Identifier × List Identifier)
    (p' : Parser) (h1 : p.consume_keyword Keyword.REPLACE = (Except.ok rs, p1))
    (h2 : parse_replace_head p = (Except.ok tup, p')) :
    tup.2.1 = (List.takeWhile (fun ts => isReplaceFlagToken ts.1) (tokenStream p1)).map
      flagOfToken := by
  unfold parse_replace_head at h2
  split at h2
  · simp at h2
  · rename_i s0 px heq
    rw [h1] at heq
    simp only [Prod.mk.injEq, Except.ok.injEq] at heq
    obtain ⟨hs0, hpx⟩ := heq
    subst hs0
    subst hpx
    split at h2
    · simp at h2
    · rename_i flags p2 heq2
      have hchar := flags_loop_ok_char _ _ _ _ _ heq2
      simp only [List.nil_append] at hchar
      split at h2
      split at h2
      · simp at h2
      · split at h2
        · simp at h2
        · split at h2
          · simp only [Prod.mk.injEq, Except.ok.injEq] at h2
            rw [← h2.1]
            exact hchar
          · split at h2
            split at h2
            · simp at h2
            · simp only [Prod.mk.injEq, Except.ok.injEq] at h2
              rw [← h2.1]
              exact hchar

/-- Claim C9: the REPLACE flags loop never fails given sufficient fuel and produces exactly one flag per token of the maximal run of LOW_PRIORITY and DELAYED tokens, in input order, stopping at the first other token and allowing repeats and any ordering; consequently the flags field of every Replace node returned by parse_replace equals that run, mapped to flags. -/
theorem c9_replace_flags_maximal_run :
    (∀ (p : Parser) (flags : List ReplaceFlag) (fuel : Nat),
      (List.takeWhile (fun ts => isReplaceFlagToken ts.1) (tokenStream p)).length < fuel →
      ∃ p', replace_flags_loop flags p fuel =
        (Except.ok (flags ++
          (List.takeWhile (fun ts => isReplaceFlagToken ts.1) (tokenStream p)).map flagOfToken),
         p')) ∧
    (∀ (p : Parser) (rs : Span) (p1 : Parser) (r : Replace) (p' : Parser),
      p.consume_keyword Keyword.REPLACE = (Except.ok rs, p1) →
      parse_replace p = (Except.ok r, p') →
      r.flags =
        (List.takeWhile (fun ts => isReplaceFlagToken ts.1) (tokenStream p1)).map flagOfToken) := by
  constructor
  · intro p flags fuel hlt
    exact flags_loop_total fuel p flags hlt
  · intro p rs p1 r p' h1 h2
    unfold parse_replace at h2
    split at h2
    · simp at h2
    · rename_i rs2 flags2 into2 table2 cols2 px heq
      have hflags := head_flags_char p rs p1 (rs2, flags2, into2, table2, cols2) px h1 heq
      split at h2
      · simp at h2
      · rename_i sel2 vals2 st2 py heq2
        simp only [Prod.mk.injEq, Except.ok.injEq] at h2
        rw [← h2.1]
        exact hflags

/-- Claim C9 witness: on REPLACE LOW_PRIORITY DELAYED INTO t VALUES (1) the flags loop produces the two flags of the run, and the parsed node's flags field equals the run mapped to flags. -/
theorem c9_replace_flags_maximal_run_witness :
    (∃ p', replace_flags_loop [] c9wp1 9 =
      (Except.ok (([] : List ReplaceFlag) ++
        (List.takeWhile (fun ts => isReplaceFlagToken ts.1) (tokenStream c9wp1)).map flagOfToken),
       p')) ∧
    c9node.flags =
      (List.takeWhile (fun ts => isReplaceFlagToken ts.1) (tokenStream c9wp1)).map flagOfToken :=
  ⟨c9_replace_flags_maximal_run.1 c9wp1 [] 9 (by decide),
   c9_replace_flags_maximal_run.2 c9wp ⟨0, 7⟩ c9wp1 c9node c9endp rfl rfl⟩

/-- every keyword is recovered from its constructor index. -/
theorem kw_ofIdx_idx : ∀ k : Keyword, Keyword.ofIdx (Keyword.idx k) = k := by
  intro k
  cases k <;> rfl

/-- every constructor index is below the number of keyword constructors. -/
theorem kw_idx_lt : ∀ k : Keyword, Keyword.idx k < 846 := by
  intro k
  cases k <;> decide

/-- the entry list carries exactly the constructor indices from 2 upward, in order. -/
theorem kw_entries_map_idx : Keyword.entries.map Keyword.idx = List.range' 2 844 := by decide

/-- every keyword entry is recovered from the base-256 code of its name. -/
theorem kw_codeInv_entries :
    Keyword.entries.all (fun k => Keyword.codeInv (Keyword.stringCode k.name) == k) = true := by
  decide

/-- every keyword other than NOT_A_KEYWORD and QUOTED_IDENTIFIER is an entry of the keyword list. -/
theorem kw_mem_entries :
    ∀ k : Keyword, k ≠ Keyword.NOT_A_KEYWORD → k ≠ Keyword.QUOTED_IDENTIFIER →
      k ∈ Keyword.entries := by
  intro k h0 h1
  have hlt : Keyword.idx k < 846 := kw_idx_lt k
  have h2 : 2 ≤ Keyword.idx k := by
    rcases Nat.lt_or_ge (Keyword.idx k) 2 with h | h
    · rcases (by omega : Keyword.idx k = 0 ∨ Keyword.idx k = 1) with h' | h'
      · have hk : k = Keyword.NOT_A_KEYWORD := by
          rw [← kw_ofIdx_idx k, h']
          rfl
        exact absurd hk h0
      · have hk : k = Keyword.QUOTED_IDENTIFIER := by
          rw [← kw_ofIdx_idx k, h']
          rfl
        exact absurd hk h1
    · exact h
  have hmem : Keyword.idx k ∈ List.range' 2 844 := by
    rw [List.mem_range'_1]
    omega
  rw [← kw_entries_map_idx] at hmem
  obtain ⟨j, hj, hji⟩ := List.mem_map.mp hmem
  have hjk : j = k := by
    have hco := congrArg Keyword.ofIdx hji
    rwa [kw_ofIdx_idx, kw_ofIdx_idx] at hco
  rwa [← hjk]

/-- pointwise form of kw_codeInv_entries. -/
theorem kw_codeInv_name :
    ∀ j ∈ Keyword.entries, Keyword.codeInv (Keyword.stringCode j.name) = j := by
  intro j hj
  have hb := List.all_eq_true.mp kw_codeInv_entries j hj
  exact eq_of_beq hb

/-- NOT_A_KEYWORD is not an entry of the keyword list. -/
theorem kw_NAK_not_mem : Keyword.NOT_A_KEYWORD ∉ Keyword.entries := by
  intro hmem
  have hidx : Keyword.idx Keyword.NOT_A_KEYWORD ∈ Keyword.entries.map Keyword.idx :=
    List.mem_map_of_mem _ hmem
  rw [kw_entries_map_idx, List.mem_range'_1] at hidx
  have h0 : Keyword.idx Keyword.NOT_A_KEYWORD = 0 := rfl
  omega

/-- the names of keyword entries are pairwise distinct. -/
theorem kw_name_inj :
    ∀ j ∈ Keyword.entries, ∀ k ∈ Keyword.entries, Keyword.name j = Keyword.name k → j = k := by
  intro j hj k hk hname
  have h1 := kw_codeInv_name j hj
  have h2 := kw_codeInv_name k hk
  rw [← h1, ← h2, hname]

/-- finding the first list element with a given element's name yields that element, when names are distinct on the list. -/
theorem kw_find_name (l : List Keyword)
    (hinj : ∀ j ∈ l, ∀ k ∈ l, Keyword.name j = Keyword.name k → j = k) :
    ∀ k ∈ l, l.find? (fun j => j.name == k.name) = some k := by
  induction l with
  | nil =>
    intro k hk
    simp at hk
  | cons a t ih =>
    intro k hk
    by_cases ha : Keyword.name a = Keyword.name k
    · have hak : a = k := hinj a (List.mem_cons_self a t) k hk ha
      subst hak
      rw [List.find?_cons_of_pos _ (by simp)]
    · have hk' : k ∈ t := by
        rcases List.mem_cons.mp hk with h | h
        · exact absurd (by rw [h]) ha
        · exact h
      rw [List.find?_cons_of_neg _ (by simp [ha])]
      exact ih
        (fun x hx y hy => hinj x (List.mem_cons_of_mem _ hx) y (List.mem_cons_of_mem _ hy))
        k hk'

/-- fromStr maps the name of any keyword entry back to the entry. -/
theorem kw_fromStr_name : ∀ k ∈ Keyword.entries, Keyword.fromStr k.name = k := by
  intro k hk
  unfold Keyword.fromStr
  rw [kw_find_name Keyword.entries kw_name_inj k hk]

/-- a string whose code falls outside the keyword code tree is not a keyword name. -/
theorem kw_not_name_of_codeInv :
    ∀ s : String, Keyword.codeInv (Keyword.stringCode s) = Keyword.NOT_A_KEYWORD →
      s ∉ keywordNames := by
  intro s hs hmem
  obtain ⟨j, hj, hjs⟩ := List.mem_map.mp hmem
  rw [← hjs] at hs
  rw [kw_codeInv_name j hj] at hs
  exact kw_NAK_not_mem (hs ▸ hj)

/-- fromStr of any string that is not a keyword name is NOT_A_KEYWORD. -/
theorem kw_fromStr_not_name :
    ∀ s : String, s ∉ keywordNames → Keyword.fromStr s = Keyword.NOT_A_KEYWORD := by
  intro s hs
  unfold Keyword.fromStr
  have hnone : Keyword.entries.find? (fun j => j.name == s) = none := by
    rw [List.find?_eq_none]
    intro j hj
    simp only [beq_iff_eq]
    intro heq
    exact hs (heq ▸ List.mem_map_of_mem Keyword.name hj)
  rw [hnone]

/-- Claim C10: for every keyword other than QUOTED_IDENTIFIER, Keyword::from of its name yields the keyword back (including NOT_A_KEYWORD); Keyword::from of QUOTED_IDENTIFIER's own name yields NOT_A_KEYWORD instead; and Keyword::from of any string that names no keyword yields NOT_A_KEYWORD. -/
theorem c10_keyword_name_roundtrip :
    (∀ k : Keyword, k ≠ Keyword.QUOTED_IDENTIFIER → Keyword.fromStr k.name = k) ∧
    Keyword.fromStr (Keyword.name Keyword.QUOTED_IDENTIFIER) = Keyword.NOT_A_KEYWORD ∧
    (∀ s : String, s ∉ keywordNames → Keyword.fromStr s = Keyword.NOT_A_KEYWORD) := by
  refine ⟨?_, ?_, kw_fromStr_not_name⟩
  · intro k hk
    by_cases h0 : k = Keyword.NOT_A_KEYWORD
    · subst h0
      exact kw_fromStr_not_name _ (kw_not_name_of_codeInv _ (by decide))
    · exact kw_fromStr_name k (kw_mem_entries k h0 hk)
  · exact kw_fromStr_not_name _ (kw_not_name_of_codeInv _ (by decide))

/-- Claim C10 witness: the round trip holds at the concrete keyword ABS, and fromStr of the empty string, which names no keyword, is NOT_A_KEYWORD. -/
theorem c10_keyword_name_roundtrip_witness :
    Keyword.fromStr (Keyword.name Keyword.ABS) = Keyword.ABS ∧
    Keyword.fromStr "" = Keyword.NOT_A_KEYWORD :=
  ⟨c10_keyword_name_roundtrip.1 Keyword.ABS (by decide),
   c10_keyword_name_roundtrip.2.2 "" (kw_not_name_of_codeInv "" (by decide))⟩


end SqlParse
